import Mathlib

/-!
# NbtkAdjustment: a bounded, animatable value

Shallow embedding of `src/nbtk/nbtk-adjustment.c`.

* The private structure `NbtkAdjustmentPrivate` becomes the record `NbtkAdjustment`;
  every C function that mutates the object becomes a function returning the new record.
* A `ClutterFixed` is its raw 16.16 integer, of type `Int`.  Every addition and subtraction
  the source performs on such values is reduced to the 32-bit signed range (`wrap32`), and so
  are the Clutter primitives that shift, multiply, divide or convert.  Statements that need a
  sum or a difference to be exact say so with the hypothesis `fits32`.
* `gdouble` values are modelled by the rationals (rounding of floating-point arithmetic is
  not modelled; every finite double is a rational).
* The calls to `g_signal_emit` and `g_object_notify` are recorded, in order, in the field
  `emitted`.
* `nbtk_adjustment_interpolatex` divides by the fixed-point frame count; a zero divisor is a
  fault, modelled by `none`.
-/

namespace Nbtk

/-! ## Library primitives referenced by the source -/

/-- A `gdouble`, modelled by a rational number. -/
abbrev gdouble := ℚ

/-- Two-complement reduction of an integer to the 32-bit signed range. -/
def wrap32 (x : Int) : Int := (x + 2147483648) % 4294967296 - 2147483648

/-- The integers of the 32-bit signed range, the range of a `ClutterFixed`. -/
def fits32 (x : Int) : Prop := -2147483648 ≤ x ∧ x < 2147483648

instance (x : Int) : Decidable (fits32 x) :=
  inferInstanceAs (Decidable (-2147483648 ≤ x ∧ x < 2147483648))

/-- Modelled from the spec: GLib `MAX(a, b)`, whose header is not among the sources:
`a` if `a > b`, else `b`. -/
def MAX (a b : Int) : Int := if a > b then a else b

/-- Modelled from the spec: GLib `MIN(a, b)`, whose header is not among the sources:
`a` if `a < b`, else `b`. -/
def MIN (a b : Int) : Int := if a < b then a else b

/-- Modelled from the spec: GLib `CLAMP(x, low, high)`, whose header is not among the
sources: `high` if `x > high`, else `low` if `x < low`, else `x`. -/
def CLAMP (x low high : Int) : Int := if x > high then high else if x < low then low else x

/-- Modelled from the spec: `CLUTTER_INT_TO_FIXED`, from the Clutter fixed-point header that
is not among the sources: a left shift by 16 bits of a 32-bit integer. -/
def CLUTTER_INT_TO_FIXED (x : Int) : Int := wrap32 (x * 65536)

/-- Modelled from the spec: `CLUTTER_FLOAT_TO_FIXED`, from the Clutter fixed-point header
that is not among the sources: the nearest 16.16 number, `floor (x * 65536 + 1/2)` written
on numerator and denominator, reduced to 32 bits. -/
def CLUTTER_FLOAT_TO_FIXED (x : gdouble) : Int :=
  wrap32 ((2 * 65536 * x.num + x.den) / (2 * x.den))

/-- Modelled from the spec: `CLUTTER_FIXED_TO_FLOAT` and `CLUTTER_FIXED_TO_DOUBLE`, from the
Clutter fixed-point header that is not among the sources: the raw value divided by 65536. -/
def CLUTTER_FIXED_TO_FLOAT (x : Int) : gdouble := Rat.divInt x 65536

/-- Modelled from the spec: `clutter_qmulx`, the Clutter fixed-point product, not among the
sources: the 64-bit product shifted right by 16 bits, reduced to 32 bits. -/
def clutter_qmulx (op1 op2 : Int) : Int := wrap32 ((op1 * op2) / 65536)

/-- Modelled from the spec: `clutter_qdivx`, the Clutter fixed-point quotient, not among the
sources: the dividend shifted left by 16 bits, divided (truncating) by the divisor and
reduced to 32 bits.  Division by zero is a fault: `none`. -/
def clutter_qdivx (op1 op2 : Int) : Option Int :=
  if op2 = 0 then none else some (wrap32 (Int.tdiv (op1 * 65536) op2))

/-- Property identifiers (the `PROP_` enumeration of the source). -/
inductive Property
  | lower | upper | value | step_inc | page_inc | page_size | elastic
  deriving DecidableEq, Repr

/-- What the object emits: the `changed` signal or a property notification. -/
inductive Emission
  | changed
  | notify (p : Property)
  deriving DecidableEq, Repr

/-- A timeline as created by `clutter_timeline_new (n_frames, fps)`. -/
structure ClutterTimeline where
  n_frames : Nat
  fps : Nat
  deriving DecidableEq, Repr

/-- An alpha as created by `clutter_alpha_new_full (timeline, CLUTTER_LINEAR)`. -/
structure ClutterAlpha where
  timeline : ClutterTimeline
  deriving DecidableEq, Repr

/-- Modelled from the spec: `clutter_alpha_get_alpha`, not among the sources: the reading of
the easing curve, supplied by the clock as `reading`; on a NULL alpha the guard of the
library returns 0. -/
def clutter_alpha_get_alpha (alpha : Option ClutterAlpha) (reading : gdouble) : gdouble :=
  match alpha with
  | some _ => reading
  | none => 0

/-! ## The object -/

/-- The fields of `struct _NbtkAdjustmentPrivate`, plus the record of emissions. -/
structure NbtkAdjustment where
  is_constructing : Bool
  lower : Int
  upper : Int
  value : Int
  step_increment : Int
  page_increment : Int
  page_size : Int
  interpolation : Option ClutterTimeline
  dx : Int
  old_position : Int
  new_position : Int
  elastic : Bool
  bounce_source : Nat
  bounce_alpha : Option ClutterAlpha
  emitted : List Emission
  deriving DecidableEq, Repr

/-- Records `g_signal_emit (adjustment, signals[CHANGED], 0)`. -/
def g_signal_emit_changed (a : NbtkAdjustment) : NbtkAdjustment :=
  { a with emitted := a.emitted ++ [Emission.changed] }

/-- Records `g_object_notify (G_OBJECT (adjustment), name)`. -/
def g_object_notify (a : NbtkAdjustment) (p : Property) : NbtkAdjustment :=
  { a with emitted := a.emitted ++ [Emission.notify p] }

/-- Source function `stop_interpolation`. -/
def stop_interpolation (a : NbtkAdjustment) : NbtkAdjustment :=
  let a1 :=
    match a.interpolation with
    | some _ => { a with interpolation := none, bounce_alpha := none }
    | none => a
  if a1.bounce_source ≠ 0 then { a1 with bounce_source := 0 } else a1

/-- Source function `nbtk_adjustment_get_valuex`. -/
def nbtk_adjustment_get_valuex (a : NbtkAdjustment) : Int :=
  match a.interpolation with
  | some _ => MAX a.lower (MIN (wrap32 (a.upper - a.page_size)) a.new_position)
  | none => a.value

/-- Source function `nbtk_adjustment_get_value`. -/
def nbtk_adjustment_get_value (a : NbtkAdjustment) : gdouble :=
  CLUTTER_FIXED_TO_FLOAT a.value

/-- Source function `nbtk_adjustment_set_valuex`. -/
def nbtk_adjustment_set_valuex (a : NbtkAdjustment) (value : Int) : NbtkAdjustment :=
  let a1 := stop_interpolation a
  let value1 :=
    if !a1.is_constructing then
      if !a1.elastic then
        CLAMP value a1.lower (MAX a1.lower (wrap32 (a1.upper - a1.page_size)))
      else value
    else value
  if a1.value ≠ value1 then g_object_notify { a1 with value := value1 } Property.value
  else a1

/-- Source function `nbtk_adjustment_set_value`. -/
def nbtk_adjustment_set_value (a : NbtkAdjustment) (value : gdouble) : NbtkAdjustment :=
  nbtk_adjustment_set_valuex a (CLUTTER_FLOAT_TO_FIXED value)

/-- Source function `nbtk_adjustment_clamp_pagex`. -/
def nbtk_adjustment_clamp_pagex (a : NbtkAdjustment) (lower upper : Int) :
    NbtkAdjustment :=
  let a1 := stop_interpolation a
  let lower1 := CLAMP lower a1.lower (wrap32 (a1.upper - a1.page_size))
  let upper1 := CLAMP upper (wrap32 (a1.lower + a1.page_size)) a1.upper
  let a2 := if wrap32 (a1.value + a1.page_size) > upper1
            then { a1 with value := wrap32 (upper1 - a1.page_size) }
            else a1
  let changed2 : Bool := if wrap32 (a1.value + a1.page_size) > upper1 then true else false
  let a3 := if a2.value < lower1 then { a2 with value := lower1 } else a2
  let changed3 : Bool := if a2.value < lower1 then true else changed2
  if changed3 then g_object_notify a3 Property.value else a3

/-- Source function `nbtk_adjustment_clamp_page`. -/
def nbtk_adjustment_clamp_page (a : NbtkAdjustment) (lower upper : gdouble) : NbtkAdjustment :=
  nbtk_adjustment_clamp_pagex a (CLUTTER_FLOAT_TO_FIXED lower) (CLUTTER_FLOAT_TO_FIXED upper)

/-- Source function `nbtk_adjustment_set_lower`. -/
def nbtk_adjustment_set_lower (a : NbtkAdjustment) (lower : gdouble) : NbtkAdjustment × Bool :=
  let value := CLUTTER_FLOAT_TO_FIXED lower
  if a.lower ≠ value then
    let a1 := { a with lower := value }
    let a2 := g_signal_emit_changed a1
    let a3 := g_object_notify a2 Property.lower
    let a4 := if !a3.is_constructing then nbtk_adjustment_clamp_pagex a3 a3.lower a3.upper else a3
    (a4, true)
  else (a, false)

/-- Source function `nbtk_adjustment_set_upper`. -/
def nbtk_adjustment_set_upper (a : NbtkAdjustment) (upper : gdouble) : NbtkAdjustment × Bool :=
  let value := CLUTTER_FLOAT_TO_FIXED upper
  if a.upper ≠ value then
    let a1 := { a with upper := value }
    let a2 := g_signal_emit_changed a1
    let a3 := g_object_notify a2 Property.upper
    let a4 := if !a3.is_constructing then nbtk_adjustment_clamp_pagex a3 a3.lower a3.upper else a3
    (a4, true)
  else (a, false)

/-- Source function `nbtk_adjustment_set_step_increment`. -/
def nbtk_adjustment_set_step_increment (a : NbtkAdjustment) (step : gdouble) :
    NbtkAdjustment × Bool :=
  let value := CLUTTER_FLOAT_TO_FIXED step
  if a.step_increment ≠ value then
    let a1 := { a with step_increment := value }
    let a2 := g_signal_emit_changed a1
    let a3 := g_object_notify a2 Property.step_inc
    (a3, true)
  else (a, false)

/-- Source function `nbtk_adjustment_set_page_increment`. -/
def nbtk_adjustment_set_page_increment (a : NbtkAdjustment) (page : gdouble) :
    NbtkAdjustment × Bool :=
  let value := CLUTTER_FLOAT_TO_FIXED page
  if a.page_increment ≠ value then
    let a1 := { a with page_increment := value }
    let a2 := g_signal_emit_changed a1
    let a3 := g_object_notify a2 Property.page_inc
    (a3, true)
  else (a, false)

/-- Source function `nbtk_adjustment_set_page_size`. -/
def nbtk_adjustment_set_page_size (a : NbtkAdjustment) (size : gdouble) :
    NbtkAdjustment × Bool :=
  let value := CLUTTER_FLOAT_TO_FIXED size
  if a.page_size ≠ value then
    let a1 := { a with page_size := value }
    let a2 := g_signal_emit_changed a1
    let a3 := g_object_notify a2 Property.page_size
    let a4 := if !a3.is_constructing then nbtk_adjustment_clamp_pagex a3 a3.lower a3.upper else a3
    (a4, true)
  else (a, false)

/-- Source function `nbtk_adjustment_set_elastic`. -/
def nbtk_adjustment_set_elastic (a : NbtkAdjustment) (elastic : Bool) : NbtkAdjustment :=
  { a with elastic := elastic }

/-- Source function `nbtk_adjustment_get_elastic`. -/
def nbtk_adjustment_get_elastic (a : NbtkAdjustment) : Bool := a.elastic

/-- Source function `nbtk_adjustment_set_valuesx`.  The fixed-point arguments are handed to
the setters, whose parameters are `gdouble`: C converts each integer to the double of the
same numeric value.  Freezing and thawing of notifications only defers their delivery and
leaves the record of calls as it is. -/
def nbtk_adjustment_set_valuesx (a : NbtkAdjustment)
    (value lower upper step_increment page_increment page_size : Int) :
    NbtkAdjustment :=
  let a0 := stop_interpolation a
  let r1 := nbtk_adjustment_set_lower a0 (lower : gdouble)
  let r2 := nbtk_adjustment_set_upper r1.1 (upper : gdouble)
  let r3 := nbtk_adjustment_set_step_increment r2.1 (step_increment : gdouble)
  let r4 := nbtk_adjustment_set_page_increment r3.1 (page_increment : gdouble)
  let r5 := nbtk_adjustment_set_page_size r4.1 (page_size : gdouble)
  let emit_changed5 : Bool := r1.2 || r2.2 || r3.2 || r4.2 || r5.2
  let a6 := if value ≠ r5.1.value then nbtk_adjustment_set_valuex r5.1 value else r5.1
  let emit_changed6 : Bool := if value ≠ r5.1.value then true else emit_changed5
  if emit_changed6 then g_signal_emit_changed a6 else a6

/-- Source function `nbtk_adjustment_set_values`. -/
def nbtk_adjustment_set_values (a : NbtkAdjustment)
    (value lower upper step_increment page_increment page_size : gdouble) : NbtkAdjustment :=
  nbtk_adjustment_set_valuesx a
    (CLUTTER_FLOAT_TO_FIXED value) (CLUTTER_FLOAT_TO_FIXED lower) (CLUTTER_FLOAT_TO_FIXED upper)
    (CLUTTER_FLOAT_TO_FIXED step_increment) (CLUTTER_FLOAT_TO_FIXED page_increment)
    (CLUTTER_FLOAT_TO_FIXED page_size)

/-- Source function `interpolation_new_frame_cb`: the handler of the `new-frame` signal of
`timeline`.  `reading` is what the easing curve of the run returns at this frame. -/
def interpolation_new_frame_cb (timeline : ClutterTimeline) (frame_num : Int)
    (reading : gdouble) (a : NbtkAdjustment) : NbtkAdjustment :=
  let a1 := { a with interpolation := none }
  let a2 :=
    if a1.elastic then
      let progress : gdouble := clutter_alpha_get_alpha a1.bounce_alpha reading / 1
      let dx : gdouble := CLUTTER_FIXED_TO_FLOAT a1.old_position +
        CLUTTER_FIXED_TO_FLOAT (wrap32 (a1.new_position - a1.old_position)) * progress
      nbtk_adjustment_set_value a1 dx
    else
      nbtk_adjustment_set_valuex a1
        (wrap32 (a1.old_position + clutter_qmulx (CLUTTER_INT_TO_FIXED frame_num) a1.dx))
  { a2 with interpolation := some timeline }

/-- Source function `interpolation_completed_cb`: the handler of the `completed` signal. -/
def interpolation_completed_cb (a : NbtkAdjustment) : NbtkAdjustment :=
  let a1 := stop_interpolation a
  nbtk_adjustment_set_valuex a1 a1.new_position

/-- Source function `nbtk_adjustment_interpolatex`; `none` when the division faults. -/
def nbtk_adjustment_interpolatex (a : NbtkAdjustment) (value : Int)
    (n_frames fps : Nat) : Option NbtkAdjustment :=
  let a1 := stop_interpolation a
  if n_frames ≤ 1 then some (nbtk_adjustment_set_valuex a1 value)
  else
    let a2 := { a1 with old_position := a1.value, new_position := value }
    (clutter_qdivx (wrap32 (a2.new_position - a2.old_position))
        (CLUTTER_INT_TO_FIXED n_frames)).map
      fun q =>
        let a3 := { a2 with dx := q, interpolation := some (ClutterTimeline.mk n_frames fps) }
        if a3.elastic then
          { a3 with bounce_alpha := some (ClutterAlpha.mk (ClutterTimeline.mk n_frames fps)) }
        else a3

/-- Source function `nbtk_adjustment_interpolate`. -/
def nbtk_adjustment_interpolate (a : NbtkAdjustment) (value : gdouble) (n_frames fps : Nat) :
    Option NbtkAdjustment :=
  nbtk_adjustment_interpolatex a (CLUTTER_FLOAT_TO_FIXED value) n_frames fps

/-- Source function `nbtk_adjustment_clamp`; `none` when the interpolation it starts faults. -/
def nbtk_adjustment_clamp (a : NbtkAdjustment) (interpolate : Bool) (n_frames fps : Nat) :
    Option (NbtkAdjustment × Bool) :=
  let dest0 := a.value
  let dest1 := if a.value < a.lower then a.lower else dest0
  let dest := if a.value > wrap32 (a.upper - a.page_size) then wrap32 (a.upper - a.page_size)
              else dest1
  if dest ≠ a.value then
    if interpolate then
      (nbtk_adjustment_interpolatex a dest n_frames fps).map (fun a1 => (a1, true))
    else some (nbtk_adjustment_set_valuex a dest, true)
  else some (a, false)

/-- Source function `nbtk_adjustment_init`: the zero-filled private data with
`is_constructing` set. -/
def nbtk_adjustment_init : NbtkAdjustment :=
  { is_constructing := true, lower := 0, upper := 0, value := 0, step_increment := 0,
    page_increment := 0, page_size := 0, interpolation := none, dx := 0, old_position := 0,
    new_position := 0, elastic := false, bounce_source := 0, bounce_alpha := none,
    emitted := [] }

/-- Source function `nbtk_adjustment_constructed`. -/
def nbtk_adjustment_constructed (a : NbtkAdjustment) : NbtkAdjustment :=
  let a1 := { a with is_constructing := false }
  nbtk_adjustment_clamp_pagex a1 a1.lower a1.upper

/-- What `g_object_new` does with this class: `nbtk_adjustment_init`, then
`nbtk_adjustment_set_property` for each of the seven construct properties (the given value,
or the default of its parameter specification), then `nbtk_adjustment_constructed`. -/
def g_object_new (value lower upper step_increment page_increment page_size : gdouble)
    (elastic : Bool) : NbtkAdjustment :=
  let a0 := nbtk_adjustment_init
  let a1 := nbtk_adjustment_set_value a0 value
  let a2 := (nbtk_adjustment_set_lower a1 lower).1
  let a3 := (nbtk_adjustment_set_upper a2 upper).1
  let a4 := (nbtk_adjustment_set_step_increment a3 step_increment).1
  let a5 := (nbtk_adjustment_set_page_increment a4 page_increment).1
  let a6 := (nbtk_adjustment_set_page_size a5 page_size).1
  let a7 := nbtk_adjustment_set_elastic a6 elastic
  nbtk_adjustment_constructed a7

/-- Source function `nbtk_adjustment_new`. -/
def nbtk_adjustment_new (value lower upper step_increment page_increment page_size : gdouble) :
    NbtkAdjustment :=
  g_object_new value lower upper step_increment page_increment page_size false

/-- Source function `nbtk_adjustment_newx`: an object built with every property at its
default, whose six fields are then written directly. -/
def nbtk_adjustment_newx
    (value lower upper step_increment page_increment page_size : Int) :
    NbtkAdjustment :=
  let retval := g_object_new 0 0 0 0 0 0 false
  { retval with value := value, lower := lower, upper := upper,
                step_increment := step_increment, page_increment := page_increment,
                page_size := page_size }

/-- Source function `nbtk_adjustment_get_valuesx`, called with six non-NULL pointers: what
is written through them, in the order value, lower, upper, step increment, page increment,
page size. -/
def nbtk_adjustment_get_valuesx (a : NbtkAdjustment) : Int × Int × Int × Int × Int × Int :=
  (nbtk_adjustment_get_valuex a, a.lower, a.upper, a.step_increment, a.page_increment,
   a.page_size)

/-- Source function `nbtk_adjustment_get_values`, called with six non-NULL pointers, in the
same order. -/
def nbtk_adjustment_get_values (a : NbtkAdjustment) :
    gdouble × gdouble × gdouble × gdouble × gdouble × gdouble :=
  (CLUTTER_FIXED_TO_FLOAT (nbtk_adjustment_get_valuex a), CLUTTER_FIXED_TO_FLOAT a.lower,
   CLUTTER_FIXED_TO_FLOAT a.upper, CLUTTER_FIXED_TO_FLOAT a.step_increment,
   CLUTTER_FIXED_TO_FLOAT a.page_increment, CLUTTER_FIXED_TO_FLOAT a.page_size)

/-! ## Clock deliveries and sequences of public operations -/

/-- A frame delivered by a timeline to `interpolation_new_frame_cb`: the emitting timeline,
the frame number and the reading of the easing curve at that frame. -/
structure Frame where
  timeline : ClutterTimeline
  frame_num : Int
  reading : gdouble

/-- Modelled from the spec: the emission of `new-frame`, which is Clutter's and not among the
sources.  A timeline emits only while it runs, and `stop_interpolation` stops and releases
the timeline of the run: a frame reaches `interpolation_new_frame_cb` only from the timeline
recorded in `interpolation`, and a frame of any other timeline is ignored. -/
def clutter_timeline_new_frame (a : NbtkAdjustment) (f : Frame) : NbtkAdjustment :=
  if a.interpolation = some f.timeline then
    interpolation_new_frame_cb f.timeline f.frame_num f.reading a
  else a

/-- Modelled from the spec: the emission of `completed`, which is Clutter's and not among the
sources: only the timeline of the active run emits it. -/
def clutter_timeline_completed (a : NbtkAdjustment) : NbtkAdjustment :=
  if a.interpolation ≠ none then interpolation_completed_cb a else a

/-- The handler `interpolation_new_frame_cb` run once for each delivered frame, in order. -/
def deliver_frames (a : NbtkAdjustment) (frames : List Frame) : NbtkAdjustment :=
  frames.foldl (fun s f => interpolation_new_frame_cb f.timeline f.frame_num f.reading s) a

/-- The operations a client or the clock can perform on a constructed adjustment: the
exported functions, the property setters reached through `nbtk_adjustment_set_property`,
and the two signals of a timeline. -/
inductive Op
  | set_valuex (value : Int)
  | set_value (value : gdouble)
  | set_lower (lower : gdouble)
  | set_upper (upper : gdouble)
  | set_step_increment (step : gdouble)
  | set_page_increment (page : gdouble)
  | set_page_size (size : gdouble)
  | set_elastic (elastic : Bool)
  | set_valuesx (value lower upper step_increment page_increment page_size : Int)
  | set_values (value lower upper step_increment page_increment page_size : gdouble)
  | clamp_pagex (lower upper : Int)
  | clamp_page (lower upper : gdouble)
  | interpolatex (value : Int) (n_frames fps : Nat)
  | interpolate (value : gdouble) (n_frames fps : Nat)
  | clamp (interpolate : Bool) (n_frames fps : Nat)
  | new_frame (f : Frame)
  | completed

/-- One operation; `none` when it faults. -/
def step (a : NbtkAdjustment) : Op → Option NbtkAdjustment
  | Op.set_valuex v => some (nbtk_adjustment_set_valuex a v)
  | Op.set_value v => some (nbtk_adjustment_set_value a v)
  | Op.set_lower x => some (nbtk_adjustment_set_lower a x).1
  | Op.set_upper x => some (nbtk_adjustment_set_upper a x).1
  | Op.set_step_increment x => some (nbtk_adjustment_set_step_increment a x).1
  | Op.set_page_increment x => some (nbtk_adjustment_set_page_increment a x).1
  | Op.set_page_size x => some (nbtk_adjustment_set_page_size a x).1
  | Op.set_elastic e => some (nbtk_adjustment_set_elastic a e)
  | Op.set_valuesx v l u s p ps => some (nbtk_adjustment_set_valuesx a v l u s p ps)
  | Op.set_values v l u s p ps => some (nbtk_adjustment_set_values a v l u s p ps)
  | Op.clamp_pagex l u => some (nbtk_adjustment_clamp_pagex a l u)
  | Op.clamp_page l u => some (nbtk_adjustment_clamp_page a l u)
  | Op.interpolatex v n fps => nbtk_adjustment_interpolatex a v n fps
  | Op.interpolate v n fps => nbtk_adjustment_interpolate a v n fps
  | Op.clamp i n fps => (nbtk_adjustment_clamp a i n fps).map Prod.fst
  | Op.new_frame f => some (clutter_timeline_new_frame a f)
  | Op.completed => some (clutter_timeline_completed a)

/-- A sequence of operations, stopping at the first fault. -/
def exec (a : NbtkAdjustment) : List Op → Option NbtkAdjustment
  | [] => some a
  | op :: ops => (step a op).bind (fun a1 => exec a1 ops)

/-- The value `clamp_page` is specified to store, following the words of the specification:
the requested window clamped into the range, then the value pulled below the upper end and
above the lower end of that window. -/
def clamp_page_spec (lower upper page_size value requested_lower requested_upper : Int) : Int :=
  let eff_lo := CLAMP requested_lower lower (upper - page_size)
  let eff_hi := CLAMP requested_upper (lower + page_size) upper
  let v1 := if value + page_size > eff_hi then eff_hi - page_size else value
  let v2 := if v1 < eff_lo then eff_lo else v1
  v2

/-- The value `nbtk_adjustment_clamp_pagex` stores, written on the four fields it reads and
the requested window, with every sum and difference reduced to 32 bits as the code computes
it. -/
def clamp_pagex_result
    (lower upper page_size value requested_lower requested_upper : Int) : Int :=
  let lower1 := CLAMP requested_lower lower (wrap32 (upper - page_size))
  let upper1 := CLAMP requested_upper (wrap32 (lower + page_size)) upper
  let v1 := if wrap32 (value + page_size) > upper1 then wrap32 (upper1 - page_size) else value
  if v1 < lower1 then lower1 else v1

/-- The sums and differences `nbtk_adjustment_clamp_pagex` takes on these fields fit 32 bits. -/
def page_sums_fit (lower upper page_size value : Int) : Prop :=
  fits32 lower ∧ fits32 (upper - page_size) ∧ fits32 (lower + page_size) ∧
  fits32 (value + page_size)

instance (lower upper page_size value : Int) :
    Decidable (page_sums_fit lower upper page_size value) :=
  inferInstanceAs (Decidable (fits32 lower ∧ fits32 (upper - page_size) ∧
    fits32 (lower + page_size) ∧ fits32 (value + page_size)))

/-- Within a quarter of the fixed-point range (8192 units either way): sums and differences
of up to three such numbers fit 32 bits. -/
def in_band (x : Int) : Prop := -536870912 ≤ x ∧ x ≤ 536870912

instance (x : Int) : Decidable (in_band x) :=
  inferInstanceAs (Decidable (-536870912 ≤ x ∧ x ≤ 536870912))

/-- The bounds and page size an operation stores lie within the band. -/
def banded_op : Op → Prop
  | Op.set_lower x => in_band (CLUTTER_FLOAT_TO_FIXED x)
  | Op.set_upper x => in_band (CLUTTER_FLOAT_TO_FIXED x)
  | Op.set_page_size x => in_band (CLUTTER_FLOAT_TO_FIXED x)
  | Op.set_valuesx _ l u _ _ ps =>
    in_band (CLUTTER_FLOAT_TO_FIXED (l : gdouble)) ∧
    in_band (CLUTTER_FLOAT_TO_FIXED (u : gdouble)) ∧
    in_band (CLUTTER_FLOAT_TO_FIXED (ps : gdouble))
  | Op.set_values _ l u _ _ ps =>
    in_band (CLUTTER_FLOAT_TO_FIXED ((CLUTTER_FLOAT_TO_FIXED l : Int) : gdouble)) ∧
    in_band (CLUTTER_FLOAT_TO_FIXED ((CLUTTER_FLOAT_TO_FIXED u : Int) : gdouble)) ∧
    in_band (CLUTTER_FLOAT_TO_FIXED ((CLUTTER_FLOAT_TO_FIXED ps : Int) : gdouble))
  | _ => True

/-! ## Concrete adjustments used as examples -/

/-- The scenario of the specification: value 50 in the range 0 to 100 with page size 10,
built by the property constructor. -/
def scenario : NbtkAdjustment := nbtk_adjustment_new 50 0 100 1 10 10

/-- An adjustment whose page is larger than its range: lower 0, upper 5, page size 10. -/
def oversized_page : NbtkAdjustment := nbtk_adjustment_new 0 0 5 1 1 10

/-- A page larger than the range, near the low end of the fixed-point range: lower -32000,
upper -30000, page size 10000, so that `upper - page_size` is below -32768. -/
def oversized_page_low : NbtkAdjustment :=
  nbtk_adjustment_new (-32000) (-32000) (-30000) 1 10 10000

/-- The value 25000 in the range 0 to 30000 with page size 100. -/
def wide_range : NbtkAdjustment := nbtk_adjustment_new 25000 0 30000 1 10 100

/-- The value 25000 in the range 0 to 30000 with page size 10000, so that
`value + page_size` is above 32767. -/
def wide_page : NbtkAdjustment := nbtk_adjustment_new 25000 0 30000 1 10 10000

/-- The value -20000 in the range -20000 to 20000 with page size 0, so that the distance
between the ends is above 32767. -/
def symmetric_range : NbtkAdjustment := nbtk_adjustment_new (-20000) (-20000) 20000 1 10 0

/-- An adjustment holding the raw value 95 in the range 0 to 100 with page size 10. -/
def raw_95 : NbtkAdjustment :=
  nbtk_adjustment_newx (CLUTTER_INT_TO_FIXED 95) 0 (CLUTTER_INT_TO_FIXED 100)
    (CLUTTER_INT_TO_FIXED 1) (CLUTTER_INT_TO_FIXED 10) (CLUTTER_INT_TO_FIXED 10)

/-- The same six range fields as `raw_95`, but elastic, still constructing and with a run
in progress. -/
def raw_95_busy : NbtkAdjustment :=
  { raw_95 with elastic := true, is_constructing := true,
                interpolation := some (ClutterTimeline.mk 10 30),
                new_position := CLUTTER_INT_TO_FIXED 20 }

/-- The state property kept by every operation that stores bounds and page sizes within the
band, once construction is complete and as long as the adjustment is not elastic: the bounds
and the page size lie within the band and the value lies between
`min (lower, upper - page_size)` and `max (lower, upper - page_size)`. -/
def settled (a : NbtkAdjustment) : Prop :=
  a.is_constructing = false ∧ a.elastic = false ∧
  in_band a.lower ∧ in_band a.upper ∧ in_band a.page_size ∧
  MIN a.lower (a.upper - a.page_size) ≤ a.value ∧
  a.value ≤ MAX a.lower (a.upper - a.page_size)

/-- The elastic scenario of the specification: value 0 in the range 0 to 100 with page size
10, built by the property constructor and then made elastic. -/
def elastic_scenario : NbtkAdjustment :=
  nbtk_adjustment_set_elastic (nbtk_adjustment_new 0 0 100 1 10 10) true

/-- The frames numbered 0 to `k - 1` of the timeline with 10 frames at 30 frames per second,
in increasing order, each with the reading 0 of the easing curve. -/
def first_frames (k : Nat) : List Frame :=
  (List.range k).map (fun i => Frame.mk (ClutterTimeline.mk 10 30) i 0)

/-- An adjustment built by assigning the six fields while `is_constructing` is set, as the
property setters do during construction, and then finishing construction. -/
def assigned_then_constructed
    (value lower upper step_increment page_increment page_size : Int) : NbtkAdjustment :=
  nbtk_adjustment_constructed
    { nbtk_adjustment_init with
        value := value, lower := lower, upper := upper, step_increment := step_increment,
        page_increment := page_increment, page_size := page_size }

/-- The emissions recorded between `a` and `s` include a value notification whenever the
stored value of `s` differs from that of `a`. -/
def value_change_notified (a s : NbtkAdjustment) : Prop :=
  ∃ es, s.emitted = a.emitted ++ es ∧
    (s.value ≠ a.value → Emission.notify Property.value ∈ es)

/-- What a bound setter is specified to leave behind: `r` is the result, `b` is the
adjustment before the call with the new field stored.  Apart from the record of emissions,
`r` is `b` after `clamp_page (lower, upper)` on its own bounds; the emissions added to those
of `b` are the changed signal, the notification of the property `p` and, if the clamp moved
the value, a value notification. -/
def revalidated (b r : NbtkAdjustment) (p : Property) : Prop :=
  { r with emitted := [] } =
    { nbtk_adjustment_clamp_pagex b b.lower b.upper with emitted := [] } ∧
  ∃ es, r.emitted = b.emitted ++ [Emission.changed, Emission.notify p] ++ es ∧
    (es = [] ∨ es = [Emission.notify Property.value])

/-! ## Handlers connected to the value notification -/

/-- What `g_object_notify` does when a handler is connected to the notification: the call is
recorded, then the handler `observer` runs on the object before `g_object_notify` returns. -/
def g_object_notify_observed (observer : NbtkAdjustment → NbtkAdjustment)
    (a : NbtkAdjustment) (p : Property) : NbtkAdjustment :=
  observer (g_object_notify a p)

/-- Source function `nbtk_adjustment_set_valuex`, with `observer` connected to the value
notification. -/
def nbtk_adjustment_set_valuex_observed (observer : NbtkAdjustment → NbtkAdjustment)
    (a : NbtkAdjustment) (value : Int) : NbtkAdjustment :=
  let a1 := stop_interpolation a
  let value1 :=
    if !a1.is_constructing then
      if !a1.elastic then
        CLAMP value a1.lower (MAX a1.lower (wrap32 (a1.upper - a1.page_size)))
      else value
    else value
  if a1.value ≠ value1 then
    g_object_notify_observed observer { a1 with value := value1 } Property.value
  else a1

/-- Source function `interpolation_new_frame_cb`, with `observer` connected to the value
notification. -/
def interpolation_new_frame_cb_observed (observer : NbtkAdjustment → NbtkAdjustment)
    (timeline : ClutterTimeline) (frame_num : Int) (reading : gdouble) (a : NbtkAdjustment) :
    NbtkAdjustment :=
  let a1 := { a with interpolation := none }
  let a2 :=
    if a1.elastic then
      let progress : gdouble := clutter_alpha_get_alpha a1.bounce_alpha reading / 1
      let dx : gdouble := CLUTTER_FIXED_TO_FLOAT a1.old_position +
        CLUTTER_FIXED_TO_FLOAT (wrap32 (a1.new_position - a1.old_position)) * progress
      nbtk_adjustment_set_valuex_observed observer a1 (CLUTTER_FLOAT_TO_FIXED dx)
    else
      nbtk_adjustment_set_valuex_observed observer a1
        (wrap32 (a1.old_position + clutter_qmulx (CLUTTER_INT_TO_FIXED frame_num) a1.dx))
  { a2 with interpolation := some timeline }

/-- No easing curve is left over without a run: the condition in which every operation
leaves the adjustment. -/
def no_stale_alpha (a : NbtkAdjustment) : Prop :=
  a.interpolation = none → a.bounce_alpha = none

/-! ## Frame lemmas -/

theorem stop_interpolation_interpolation (a : NbtkAdjustment) :
    (stop_interpolation a).interpolation = none := by
  unfold stop_interpolation
  cases h : a.interpolation <;> simp [h] <;> split_ifs <;> simp [h]

@[simp] theorem stop_interpolation_is_constructing (a : NbtkAdjustment) :
    (stop_interpolation a).is_constructing = a.is_constructing := by
  unfold stop_interpolation
  cases h : a.interpolation <;> simp [h] <;> split_ifs <;> simp [h]

@[simp] theorem stop_interpolation_lower (a : NbtkAdjustment) :
    (stop_interpolation a).lower = a.lower := by
  unfold stop_interpolation
  cases h : a.interpolation <;> simp [h] <;> split_ifs <;> simp [h]

@[simp] theorem stop_interpolation_upper (a : NbtkAdjustment) :
    (stop_interpolation a).upper = a.upper := by
  unfold stop_interpolation
  cases h : a.interpolation <;> simp [h] <;> split_ifs <;> simp [h]

@[simp] theorem stop_interpolation_value (a : NbtkAdjustment) :
    (stop_interpolation a).value = a.value := by
  unfold stop_interpolation
  cases h : a.interpolation <;> simp [h] <;> split_ifs <;> simp [h]

@[simp] theorem stop_interpolation_step_increment (a : NbtkAdjustment) :
    (stop_interpolation a).step_increment = a.step_increment := by
  unfold stop_interpolation
  cases h : a.interpolation <;> simp [h] <;> split_ifs <;> simp [h]

@[simp] theorem stop_interpolation_page_increment (a : NbtkAdjustment) :
    (stop_interpolation a).page_increment = a.page_increment := by
  unfold stop_interpolation
  cases h : a.interpolation <;> simp [h] <;> split_ifs <;> simp [h]

@[simp] theorem stop_interpolation_page_size (a : NbtkAdjustment) :
    (stop_interpolation a).page_size = a.page_size := by
  unfold stop_interpolation
  cases h : a.interpolation <;> simp [h] <;> split_ifs <;> simp [h]

@[simp] theorem stop_interpolation_dx (a : NbtkAdjustment) :
    (stop_interpolation a).dx = a.dx := by
  unfold stop_interpolation
  cases h : a.interpolation <;> simp [h] <;> split_ifs <;> simp [h]

@[simp] theorem stop_interpolation_old_position (a : NbtkAdjustment) :
    (stop_interpolation a).old_position = a.old_position := by
  unfold stop_interpolation
  cases h : a.interpolation <;> simp [h] <;> split_ifs <;> simp [h]

@[simp] theorem stop_interpolation_new_position (a : NbtkAdjustment) :
    (stop_interpolation a).new_position = a.new_position := by
  unfold stop_interpolation
  cases h : a.interpolation <;> simp [h] <;> split_ifs <;> simp [h]

@[simp] theorem stop_interpolation_elastic (a : NbtkAdjustment) :
    (stop_interpolation a).elastic = a.elastic := by
  unfold stop_interpolation
  cases h : a.interpolation <;> simp [h] <;> split_ifs <;> simp [h]

@[simp] theorem stop_interpolation_emitted (a : NbtkAdjustment) :
    (stop_interpolation a).emitted = a.emitted := by
  unfold stop_interpolation
  cases h : a.interpolation <;> simp [h] <;> split_ifs <;> simp [h]

@[simp] theorem stop_interpolation_bounce_source (a : NbtkAdjustment) :
    (stop_interpolation a).bounce_source = 0 := by
  unfold stop_interpolation
  cases h : a.interpolation <;> simp [h] <;> split_ifs <;> simp_all

theorem stop_interpolation_bounce_alpha_of_idle (a : NbtkAdjustment)
    (h : a.interpolation = none) : (stop_interpolation a).bounce_alpha = a.bounce_alpha := by
  unfold stop_interpolation
  simp [h]; split_ifs <;> simp [h]

theorem stop_interpolation_idem (a : NbtkAdjustment) :
    stop_interpolation (stop_interpolation a) = stop_interpolation a := by
  unfold stop_interpolation
  cases h : a.interpolation <;> simp [h] <;> split_ifs <;> simp_all

@[simp] theorem set_valuex_is_constructing (a : NbtkAdjustment) (v : Int) :
    (nbtk_adjustment_set_valuex a v).is_constructing = a.is_constructing := by
  unfold nbtk_adjustment_set_valuex g_object_notify
  simp only []; split_ifs <;> simp

@[simp] theorem set_valuex_lower (a : NbtkAdjustment) (v : Int) :
    (nbtk_adjustment_set_valuex a v).lower = a.lower := by
  unfold nbtk_adjustment_set_valuex g_object_notify
  simp only []; split_ifs <;> simp

@[simp] theorem set_valuex_upper (a : NbtkAdjustment) (v : Int) :
    (nbtk_adjustment_set_valuex a v).upper = a.upper := by
  unfold nbtk_adjustment_set_valuex g_object_notify
  simp only []; split_ifs <;> simp

@[simp] theorem set_valuex_step_increment (a : NbtkAdjustment) (v : Int) :
    (nbtk_adjustment_set_valuex a v).step_increment = a.step_increment := by
  unfold nbtk_adjustment_set_valuex g_object_notify
  simp only []; split_ifs <;> simp

@[simp] theorem set_valuex_page_increment (a : NbtkAdjustment) (v : Int) :
    (nbtk_adjustment_set_valuex a v).page_increment = a.page_increment := by
  unfold nbtk_adjustment_set_valuex g_object_notify
  simp only []; split_ifs <;> simp

@[simp] theorem set_valuex_page_size (a : NbtkAdjustment) (v : Int) :
    (nbtk_adjustment_set_valuex a v).page_size = a.page_size := by
  unfold nbtk_adjustment_set_valuex g_object_notify
  simp only []; split_ifs <;> simp

@[simp] theorem set_valuex_dx (a : NbtkAdjustment) (v : Int) :
    (nbtk_adjustment_set_valuex a v).dx = a.dx := by
  unfold nbtk_adjustment_set_valuex g_object_notify
  simp only []; split_ifs <;> simp

@[simp] theorem set_valuex_old_position (a : NbtkAdjustment) (v : Int) :
    (nbtk_adjustment_set_valuex a v).old_position = a.old_position := by
  unfold nbtk_adjustment_set_valuex g_object_notify
  simp only []; split_ifs <;> simp

@[simp] theorem set_valuex_new_position (a : NbtkAdjustment) (v : Int) :
    (nbtk_adjustment_set_valuex a v).new_position = a.new_position := by
  unfold nbtk_adjustment_set_valuex g_object_notify
  simp only []; split_ifs <;> simp

@[simp] theorem set_valuex_elastic (a : NbtkAdjustment) (v : Int) :
    (nbtk_adjustment_set_valuex a v).elastic = a.elastic := by
  unfold nbtk_adjustment_set_valuex g_object_notify
  simp only []; split_ifs <;> simp

@[simp] theorem set_valuex_interpolation (a : NbtkAdjustment) (v : Int) :
    (nbtk_adjustment_set_valuex a v).interpolation = none := by
  unfold nbtk_adjustment_set_valuex g_object_notify
  simp only []; split_ifs <;> simp [stop_interpolation_interpolation]

@[simp] theorem set_valuex_bounce_source (a : NbtkAdjustment) (v : Int) :
    (nbtk_adjustment_set_valuex a v).bounce_source = 0 := by
  unfold nbtk_adjustment_set_valuex g_object_notify
  simp only []; split_ifs <;> simp

theorem wrap32_of_fits (x : Int) (h : fits32 x) : wrap32 x = x := by
  unfold fits32 at h
  unfold wrap32
  omega

theorem fits32_wrap32 (x : Int) : fits32 (wrap32 x) := by
  unfold fits32 wrap32
  omega

theorem set_valuex_value (a : NbtkAdjustment) (v : Int) :
    (nbtk_adjustment_set_valuex a v).value =
      if a.is_constructing || a.elastic then v
      else CLAMP v a.lower (MAX a.lower (wrap32 (a.upper - a.page_size))) := by
  unfold nbtk_adjustment_set_valuex g_object_notify
  cases hc : a.is_constructing <;> cases he : a.elastic <;> simp [hc, he] <;>
    split_ifs <;> simp_all

@[simp] theorem clamp_pagex_is_constructing (a : NbtkAdjustment) (l u : Int) :
    (nbtk_adjustment_clamp_pagex a l u).is_constructing = a.is_constructing := by
  unfold nbtk_adjustment_clamp_pagex g_object_notify
  simp only []; split_ifs <;> simp

@[simp] theorem clamp_pagex_lower (a : NbtkAdjustment) (l u : Int) :
    (nbtk_adjustment_clamp_pagex a l u).lower = a.lower := by
  unfold nbtk_adjustment_clamp_pagex g_object_notify
  simp only []; split_ifs <;> simp

@[simp] theorem clamp_pagex_upper (a : NbtkAdjustment) (l u : Int) :
    (nbtk_adjustment_clamp_pagex a l u).upper = a.upper := by
  unfold nbtk_adjustment_clamp_pagex g_object_notify
  simp only []; split_ifs <;> simp

@[simp] theorem clamp_pagex_step_increment (a : NbtkAdjustment) (l u : Int) :
    (nbtk_adjustment_clamp_pagex a l u).step_increment = a.step_increment := by
  unfold nbtk_adjustment_clamp_pagex g_object_notify
  simp only []; split_ifs <;> simp

@[simp] theorem clamp_pagex_page_increment (a : NbtkAdjustment) (l u : Int) :
    (nbtk_adjustment_clamp_pagex a l u).page_increment = a.page_increment := by
  unfold nbtk_adjustment_clamp_pagex g_object_notify
  simp only []; split_ifs <;> simp

@[simp] theorem clamp_pagex_page_size (a : NbtkAdjustment) (l u : Int) :
    (nbtk_adjustment_clamp_pagex a l u).page_size = a.page_size := by
  unfold nbtk_adjustment_clamp_pagex g_object_notify
  simp only []; split_ifs <;> simp

@[simp] theorem clamp_pagex_dx (a : NbtkAdjustment) (l u : Int) :
    (nbtk_adjustment_clamp_pagex a l u).dx = a.dx := by
  unfold nbtk_adjustment_clamp_pagex g_object_notify
  simp only []; split_ifs <;> simp

@[simp] theorem clamp_pagex_old_position (a : NbtkAdjustment) (l u : Int) :
    (nbtk_adjustment_clamp_pagex a l u).old_position = a.old_position := by
  unfold nbtk_adjustment_clamp_pagex g_object_notify
  simp only []; split_ifs <;> simp

@[simp] theorem clamp_pagex_new_position (a : NbtkAdjustment) (l u : Int) :
    (nbtk_adjustment_clamp_pagex a l u).new_position = a.new_position := by
  unfold nbtk_adjustment_clamp_pagex g_object_notify
  simp only []; split_ifs <;> simp

@[simp] theorem clamp_pagex_elastic (a : NbtkAdjustment) (l u : Int) :
    (nbtk_adjustment_clamp_pagex a l u).elastic = a.elastic := by
  unfold nbtk_adjustment_clamp_pagex g_object_notify
  simp only []; split_ifs <;> simp

@[simp] theorem clamp_pagex_interpolation (a : NbtkAdjustment) (l u : Int) :
    (nbtk_adjustment_clamp_pagex a l u).interpolation = none := by
  unfold nbtk_adjustment_clamp_pagex g_object_notify
  simp only []; split_ifs <;> simp [stop_interpolation_interpolation]

theorem clamp_pagex_value (a : NbtkAdjustment) (l u : Int) :
    (nbtk_adjustment_clamp_pagex a l u).value =
      clamp_pagex_result a.lower a.upper a.page_size a.value l u := by
  unfold nbtk_adjustment_clamp_pagex g_object_notify clamp_pagex_result
  simp only []; split_ifs <;> simp_all

theorem clamp_pagex_result_eq_spec (lower upper page_size value l u : Int)
    (h : page_sums_fit lower upper page_size value) :
    clamp_pagex_result lower upper page_size value l u
      = clamp_page_spec lower upper page_size value l u := by
  obtain ⟨h1, h2, h3, h4⟩ := h
  have e2 := wrap32_of_fits _ h2
  have e3 := wrap32_of_fits _ h3
  have e4 := wrap32_of_fits _ h4
  unfold clamp_pagex_result clamp_page_spec
  simp only [e2, e3, e4]
  have e5 : wrap32 (CLAMP u (lower + page_size) upper - page_size)
      = CLAMP u (lower + page_size) upper - page_size := by
    apply wrap32_of_fits
    unfold fits32 at h1 h2 h3 ⊢
    unfold CLAMP
    split_ifs <;> omega
  rw [e5]

theorem clamp_pagex_value_of_fit (a : NbtkAdjustment) (l u : Int)
    (h : page_sums_fit a.lower a.upper a.page_size a.value) :
    (nbtk_adjustment_clamp_pagex a l u).value =
      clamp_page_spec a.lower a.upper a.page_size a.value l u := by
  rw [clamp_pagex_value, clamp_pagex_result_eq_spec _ _ _ _ _ _ h]

@[simp] theorem new_frame_cb_is_constructing (t : ClutterTimeline) (k : Int) (r : gdouble)
    (a : NbtkAdjustment) : (interpolation_new_frame_cb t k r a).is_constructing = a.is_constructing := by
  unfold interpolation_new_frame_cb nbtk_adjustment_set_value
  simp only []; split_ifs <;> simp

@[simp] theorem new_frame_cb_lower (t : ClutterTimeline) (k : Int) (r : gdouble)
    (a : NbtkAdjustment) : (interpolation_new_frame_cb t k r a).lower = a.lower := by
  unfold interpolation_new_frame_cb nbtk_adjustment_set_value
  simp only []; split_ifs <;> simp

@[simp] theorem new_frame_cb_upper (t : ClutterTimeline) (k : Int) (r : gdouble)
    (a : NbtkAdjustment) : (interpolation_new_frame_cb t k r a).upper = a.upper := by
  unfold interpolation_new_frame_cb nbtk_adjustment_set_value
  simp only []; split_ifs <;> simp

@[simp] theorem new_frame_cb_step_increment (t : ClutterTimeline) (k : Int) (r : gdouble)
    (a : NbtkAdjustment) : (interpolation_new_frame_cb t k r a).step_increment = a.step_increment := by
  unfold interpolation_new_frame_cb nbtk_adjustment_set_value
  simp only []; split_ifs <;> simp

@[simp] theorem new_frame_cb_page_increment (t : ClutterTimeline) (k : Int) (r : gdouble)
    (a : NbtkAdjustment) : (interpolation_new_frame_cb t k r a).page_increment = a.page_increment := by
  unfold interpolation_new_frame_cb nbtk_adjustment_set_value
  simp only []; split_ifs <;> simp

@[simp] theorem new_frame_cb_page_size (t : ClutterTimeline) (k : Int) (r : gdouble)
    (a : NbtkAdjustment) : (interpolation_new_frame_cb t k r a).page_size = a.page_size := by
  unfold interpolation_new_frame_cb nbtk_adjustment_set_value
  simp only []; split_ifs <;> simp

@[simp] theorem new_frame_cb_dx (t : ClutterTimeline) (k : Int) (r : gdouble)
    (a : NbtkAdjustment) : (interpolation_new_frame_cb t k r a).dx = a.dx := by
  unfold interpolation_new_frame_cb nbtk_adjustment_set_value
  simp only []; split_ifs <;> simp

@[simp] theorem new_frame_cb_old_position (t : ClutterTimeline) (k : Int) (r : gdouble)
    (a : NbtkAdjustment) : (interpolation_new_frame_cb t k r a).old_position = a.old_position := by
  unfold interpolation_new_frame_cb nbtk_adjustment_set_value
  simp only []; split_ifs <;> simp

@[simp] theorem new_frame_cb_new_position (t : ClutterTimeline) (k : Int) (r : gdouble)
    (a : NbtkAdjustment) : (interpolation_new_frame_cb t k r a).new_position = a.new_position := by
  unfold interpolation_new_frame_cb nbtk_adjustment_set_value
  simp only []; split_ifs <;> simp

@[simp] theorem new_frame_cb_elastic (t : ClutterTimeline) (k : Int) (r : gdouble)
    (a : NbtkAdjustment) : (interpolation_new_frame_cb t k r a).elastic = a.elastic := by
  unfold interpolation_new_frame_cb nbtk_adjustment_set_value
  simp only []; split_ifs <;> simp

@[simp] theorem new_frame_cb_bounce_alpha (t : ClutterTimeline) (k : Int) (r : gdouble)
    (a : NbtkAdjustment) : (interpolation_new_frame_cb t k r a).bounce_alpha = a.bounce_alpha := by
  unfold interpolation_new_frame_cb nbtk_adjustment_set_value
  simp only []; split_ifs <;> simp [nbtk_adjustment_set_valuex, g_object_notify, stop_interpolation] <;> split_ifs <;> simp

@[simp] theorem new_frame_cb_interpolation (t : ClutterTimeline) (k : Int) (r : gdouble)
    (a : NbtkAdjustment) : (interpolation_new_frame_cb t k r a).interpolation = some t := by
  unfold interpolation_new_frame_cb
  simp

@[simp] theorem deliver_frames_is_constructing (a : NbtkAdjustment) (fs : List Frame) :
    (deliver_frames a fs).is_constructing = a.is_constructing := by
  induction fs generalizing a with
  | nil => rfl
  | cons f fs ih => simp [deliver_frames, List.foldl] at ih ⊢; rw [ih]; simp

@[simp] theorem deliver_frames_lower (a : NbtkAdjustment) (fs : List Frame) :
    (deliver_frames a fs).lower = a.lower := by
  induction fs generalizing a with
  | nil => rfl
  | cons f fs ih => simp [deliver_frames, List.foldl] at ih ⊢; rw [ih]; simp

@[simp] theorem deliver_frames_upper (a : NbtkAdjustment) (fs : List Frame) :
    (deliver_frames a fs).upper = a.upper := by
  induction fs generalizing a with
  | nil => rfl
  | cons f fs ih => simp [deliver_frames, List.foldl] at ih ⊢; rw [ih]; simp

@[simp] theorem deliver_frames_step_increment (a : NbtkAdjustment) (fs : List Frame) :
    (deliver_frames a fs).step_increment = a.step_increment := by
  induction fs generalizing a with
  | nil => rfl
  | cons f fs ih => simp [deliver_frames, List.foldl] at ih ⊢; rw [ih]; simp

@[simp] theorem deliver_frames_page_increment (a : NbtkAdjustment) (fs : List Frame) :
    (deliver_frames a fs).page_increment = a.page_increment := by
  induction fs generalizing a with
  | nil => rfl
  | cons f fs ih => simp [deliver_frames, List.foldl] at ih ⊢; rw [ih]; simp

@[simp] theorem deliver_frames_page_size (a : NbtkAdjustment) (fs : List Frame) :
    (deliver_frames a fs).page_size = a.page_size := by
  induction fs generalizing a with
  | nil => rfl
  | cons f fs ih => simp [deliver_frames, List.foldl] at ih ⊢; rw [ih]; simp

@[simp] theorem deliver_frames_dx (a : NbtkAdjustment) (fs : List Frame) :
    (deliver_frames a fs).dx = a.dx := by
  induction fs generalizing a with
  | nil => rfl
  | cons f fs ih => simp [deliver_frames, List.foldl] at ih ⊢; rw [ih]; simp

@[simp] theorem deliver_frames_old_position (a : NbtkAdjustment) (fs : List Frame) :
    (deliver_frames a fs).old_position = a.old_position := by
  induction fs generalizing a with
  | nil => rfl
  | cons f fs ih => simp [deliver_frames, List.foldl] at ih ⊢; rw [ih]; simp

@[simp] theorem deliver_frames_new_position (a : NbtkAdjustment) (fs : List Frame) :
    (deliver_frames a fs).new_position = a.new_position := by
  induction fs generalizing a with
  | nil => rfl
  | cons f fs ih => simp [deliver_frames, List.foldl] at ih ⊢; rw [ih]; simp

@[simp] theorem deliver_frames_elastic (a : NbtkAdjustment) (fs : List Frame) :
    (deliver_frames a fs).elastic = a.elastic := by
  induction fs generalizing a with
  | nil => rfl
  | cons f fs ih => simp [deliver_frames, List.foldl] at ih ⊢; rw [ih]; simp

theorem deliver_frames_active (a : NbtkAdjustment) (fs : List Frame)
    (h : a.interpolation ≠ none) : (deliver_frames a fs).interpolation ≠ none := by
  induction fs generalizing a with
  | nil => exact h
  | cons f fs ih =>
    simp only [deliver_frames, List.foldl] at ih ⊢
    exact ih _ (by simp)

theorem interpolatex_eq (a : NbtkAdjustment) (target : Int) (n fps : Nat)
    (hn : 1 < n) :
    nbtk_adjustment_interpolatex a target n fps =
      (clutter_qdivx (wrap32 (target - (stop_interpolation a).value))
          (CLUTTER_INT_TO_FIXED n)).map
        (fun q =>
          { stop_interpolation a with
              old_position := (stop_interpolation a).value, new_position := target, dx := q,
              interpolation := some (ClutterTimeline.mk n fps),
              bounce_alpha :=
                if (stop_interpolation a).elastic
                then some (ClutterAlpha.mk (ClutterTimeline.mk n fps))
                else (stop_interpolation a).bounce_alpha }) := by
  have hn1 : ¬ n ≤ 1 := by omega
  unfold nbtk_adjustment_interpolatex
  rw [if_neg hn1]
  simp only []
  generalize clutter_qdivx _ _ = q0
  cases q0 with
  | none => rfl
  | some q =>
    simp only [Option.map_some']
    cases (stop_interpolation a).elastic <;> simp

theorem interpolatex_run (a s : NbtkAdjustment) (target : Int) (n fps : Nat)
    (hn : 1 < n) (h : nbtk_adjustment_interpolatex a target n fps = some s) :
    s.interpolation = some (ClutterTimeline.mk n fps) ∧ s.new_position = target ∧
    s.old_position = a.value ∧ s.value = a.value ∧ s.lower = a.lower ∧ s.upper = a.upper ∧
    s.page_size = a.page_size ∧ s.step_increment = a.step_increment ∧
    s.page_increment = a.page_increment ∧ s.elastic = a.elastic ∧
    s.is_constructing = a.is_constructing ∧ s.emitted = a.emitted := by
  rw [interpolatex_eq a target n fps hn] at h
  generalize clutter_qdivx _ _ = q0 at h
  cases q0 with
  | none => exact absurd h (by simp)
  | some q =>
    simp only [Option.map_some', Option.some.injEq] at h
    subst h
    simp

theorem interpolatex_returns (a : NbtkAdjustment) (target : Int) (n fps : Nat)
    (hn : 1 < n) (hz : CLUTTER_INT_TO_FIXED n ≠ 0) :
    ∃ s, nbtk_adjustment_interpolatex a target n fps = some s := by
  rw [interpolatex_eq a target n fps hn]
  unfold clutter_qdivx
  rw [if_neg hz]
  exact ⟨_, rfl⟩

theorem interpolatex_degenerate (a : NbtkAdjustment) (target : Int) (n fps : Nat)
    (hn : n ≤ 1) :
    nbtk_adjustment_interpolatex a target n fps =
      some (nbtk_adjustment_set_valuex (stop_interpolation a) target) := by
  unfold nbtk_adjustment_interpolatex
  rw [if_pos hn]

theorem completed_cb_interpolation (a : NbtkAdjustment) :
    (interpolation_completed_cb a).interpolation = none := by
  unfold interpolation_completed_cb
  simp

theorem completed_cb_value (a : NbtkAdjustment) :
    (interpolation_completed_cb a).value =
      if a.is_constructing || a.elastic then a.new_position
      else CLAMP a.new_position a.lower (MAX a.lower (wrap32 (a.upper - a.page_size))) := by
  unfold interpolation_completed_cb
  simp only [set_valuex_value, stop_interpolation_is_constructing, stop_interpolation_elastic,
    stop_interpolation_new_position, stop_interpolation_lower, stop_interpolation_upper,
    stop_interpolation_page_size]

theorem get_valuex_of_idle (a : NbtkAdjustment) (h : a.interpolation = none) :
    nbtk_adjustment_get_valuex a = a.value := by
  unfold nbtk_adjustment_get_valuex
  rw [h]

theorem get_valuex_of_active (a : NbtkAdjustment) (h : a.interpolation ≠ none) :
    nbtk_adjustment_get_valuex a =
      MAX a.lower (MIN (wrap32 (a.upper - a.page_size)) a.new_position) := by
  unfold nbtk_adjustment_get_valuex
  cases hx : a.interpolation with
  | none => exact absurd hx h
  | some t => rfl

theorem MAX_MIN_eq_CLAMP (x lo hi : Int) : MAX lo (MIN hi x) = CLAMP x lo (MAX lo hi) := by
  unfold MAX MIN CLAMP
  split_ifs <;> omega

theorem CLAMP_MAX_of_le (x lo hi : Int) (h : lo ≤ hi) : CLAMP x lo (MAX lo hi) = CLAMP x lo hi := by
  unfold MAX CLAMP
  split_ifs <;> omega

theorem CLAMP_of_mem (x lo hi : Int) (h1 : lo ≤ x) (h2 : x ≤ hi) : CLAMP x lo hi = x := by
  unfold CLAMP
  split_ifs <;> omega

theorem CLAMP_CLAMP_of_le (x lo hi : Int) (h : lo ≤ hi) :
    CLAMP (CLAMP x lo hi) lo (MAX lo hi) = CLAMP x lo hi := by
  unfold MAX CLAMP
  split_ifs <;> omega

/-! ## The window invariant -/

theorem clamp_page_spec_window (lower upper page_size value l u : Int) :
    MIN lower (upper - page_size) ≤ clamp_page_spec lower upper page_size value l u ∧
    clamp_page_spec lower upper page_size value l u ≤ MAX lower (upper - page_size) := by
  unfold clamp_page_spec CLAMP MAX MIN
  simp only []
  constructor <;> split_ifs <;> omega

theorem banded_sums_fit (lower upper page_size value : Int) (hl : in_band lower)
    (hu : in_band upper) (hp : in_band page_size) (hv1 : -1073741824 ≤ value)
    (hv2 : value ≤ 1073741824) : page_sums_fit lower upper page_size value := by
  unfold in_band at hl hu hp
  unfold page_sums_fit fits32
  omega

theorem settled_value_band (a : NbtkAdjustment) (h : settled a) :
    -1073741824 ≤ a.value ∧ a.value ≤ 1073741824 ∧
    wrap32 (a.upper - a.page_size) = a.upper - a.page_size := by
  obtain ⟨-, -, hl, hu, hp, h1, h2⟩ := h
  unfold in_band at hl hu hp
  unfold MIN at h1
  unfold MAX at h2
  refine ⟨?_, ?_, ?_⟩
  · split_ifs at h1 <;> omega
  · split_ifs at h2 <;> omega
  · apply wrap32_of_fits
    unfold fits32
    omega

theorem settled_clamp_pagex (a : NbtkAdjustment) (l u : Int)
    (hc : a.is_constructing = false) (he : a.elastic = false) (hl : in_band a.lower)
    (hu : in_band a.upper) (hp : in_band a.page_size) (hv1 : -1073741824 ≤ a.value)
    (hv2 : a.value ≤ 1073741824) :
    settled (nbtk_adjustment_clamp_pagex a l u) := by
  have hfit := banded_sums_fit _ _ _ _ hl hu hp hv1 hv2
  refine ⟨by simp [hc], by simp [he], by simpa using hl, by simpa using hu,
    by simpa using hp, ?_, ?_⟩
  · rw [clamp_pagex_value_of_fit _ _ _ hfit]; simp only [clamp_pagex_lower, clamp_pagex_upper,
      clamp_pagex_page_size]
    exact (clamp_page_spec_window _ _ _ _ _ _).1
  · rw [clamp_pagex_value_of_fit _ _ _ hfit]; simp only [clamp_pagex_lower, clamp_pagex_upper,
      clamp_pagex_page_size]
    exact (clamp_page_spec_window _ _ _ _ _ _).2

theorem settled_set_valuex (a : NbtkAdjustment) (v : Int)
    (hc : a.is_constructing = false) (he : a.elastic = false) (hl : in_band a.lower)
    (hu : in_band a.upper) (hp : in_band a.page_size) :
    settled (nbtk_adjustment_set_valuex a v) := by
  have hw : wrap32 (a.upper - a.page_size) = a.upper - a.page_size := by
    apply wrap32_of_fits
    unfold in_band at hu hp
    unfold fits32
    omega
  refine ⟨by simp [hc], by simp [he], by simpa using hl, by simpa using hu,
    by simpa using hp, ?_, ?_⟩
  · rw [set_valuex_value, hw]; simp only [set_valuex_lower, set_valuex_upper,
      set_valuex_page_size, hc, he]
    unfold CLAMP MAX MIN
    simp only [Bool.or_self, Bool.false_eq_true, if_false]
    split_ifs <;> omega
  · rw [set_valuex_value, hw]; simp only [set_valuex_lower, set_valuex_upper,
      set_valuex_page_size, hc, he]
    unfold CLAMP MAX
    simp only [Bool.or_self, Bool.false_eq_true, if_false]
    split_ifs <;> omega

theorem settled_stop_interpolation (a : NbtkAdjustment) (h : settled a) :
    settled (stop_interpolation a) := by
  obtain ⟨hc, he, hl, hu, hp, h1, h2⟩ := h
  refine ⟨by simp [hc], by simp [he], by simpa using hl, by simpa using hu,
    by simpa using hp, by simpa using h1, by simpa using h2⟩

theorem settled_set_valuex_of_settled (a : NbtkAdjustment) (v : Int) (h : settled a) :
    settled (nbtk_adjustment_set_valuex a v) :=
  settled_set_valuex a v h.1 h.2.1 h.2.2.1 h.2.2.2.1 h.2.2.2.2.1

theorem settled_set_lower (a : NbtkAdjustment) (x : gdouble) (h : settled a)
    (hx : in_band (CLUTTER_FLOAT_TO_FIXED x)) :
    settled (nbtk_adjustment_set_lower a x).1 := by
  have hv := settled_value_band a h
  unfold nbtk_adjustment_set_lower
  by_cases hne : a.lower = CLUTTER_FLOAT_TO_FIXED x
  · simp only [hne, ne_eq, not_true_eq_false, if_false]
    exact h
  · simp only [ne_eq, hne, not_false_eq_true, if_true, g_object_notify, g_signal_emit_changed,
      h.1, Bool.not_false]
    exact settled_clamp_pagex _ _ _ rfl h.2.1 hx h.2.2.2.1 h.2.2.2.2.1 hv.1 hv.2.1

theorem settled_set_upper (a : NbtkAdjustment) (x : gdouble) (h : settled a)
    (hx : in_band (CLUTTER_FLOAT_TO_FIXED x)) :
    settled (nbtk_adjustment_set_upper a x).1 := by
  have hv := settled_value_band a h
  unfold nbtk_adjustment_set_upper
  by_cases hne : a.upper = CLUTTER_FLOAT_TO_FIXED x
  · simp only [hne, ne_eq, not_true_eq_false, if_false]
    exact h
  · simp only [ne_eq, hne, not_false_eq_true, if_true, g_object_notify, g_signal_emit_changed,
      h.1, Bool.not_false]
    exact settled_clamp_pagex _ _ _ rfl h.2.1 h.2.2.1 hx h.2.2.2.2.1 hv.1 hv.2.1

theorem settled_set_page_size (a : NbtkAdjustment) (x : gdouble) (h : settled a)
    (hx : in_band (CLUTTER_FLOAT_TO_FIXED x)) :
    settled (nbtk_adjustment_set_page_size a x).1 := by
  have hv := settled_value_band a h
  unfold nbtk_adjustment_set_page_size
  by_cases hne : a.page_size = CLUTTER_FLOAT_TO_FIXED x
  · simp only [hne, ne_eq, not_true_eq_false, if_false]
    exact h
  · simp only [ne_eq, hne, not_false_eq_true, if_true, g_object_notify, g_signal_emit_changed,
      h.1, Bool.not_false]
    exact settled_clamp_pagex _ _ _ rfl h.2.1 h.2.2.1 h.2.2.2.1 hx hv.1 hv.2.1

theorem settled_set_step_increment (a : NbtkAdjustment) (x : gdouble) (h : settled a) :
    settled (nbtk_adjustment_set_step_increment a x).1 := by
  unfold nbtk_adjustment_set_step_increment
  by_cases hx : a.step_increment = CLUTTER_FLOAT_TO_FIXED x
  · simp only [hx, ne_eq, not_true_eq_false, if_false]
    exact h
  · simp only [ne_eq, hx, not_false_eq_true, if_true, g_object_notify, g_signal_emit_changed]
    exact h

theorem settled_set_page_increment (a : NbtkAdjustment) (x : gdouble) (h : settled a) :
    settled (nbtk_adjustment_set_page_increment a x).1 := by
  unfold nbtk_adjustment_set_page_increment
  by_cases hx : a.page_increment = CLUTTER_FLOAT_TO_FIXED x
  · simp only [hx, ne_eq, not_true_eq_false, if_false]
    exact h
  · simp only [ne_eq, hx, not_false_eq_true, if_true, g_object_notify, g_signal_emit_changed]
    exact h

theorem settled_emit_changed (a : NbtkAdjustment) (h : settled a) :
    settled (g_signal_emit_changed a) := h

theorem settled_set_valuesx (a : NbtkAdjustment) (v l u st pg ps : Int) (h : settled a)
    (hl : in_band (CLUTTER_FLOAT_TO_FIXED (l : gdouble)))
    (hu : in_band (CLUTTER_FLOAT_TO_FIXED (u : gdouble)))
    (hp : in_band (CLUTTER_FLOAT_TO_FIXED (ps : gdouble))) :
    settled (nbtk_adjustment_set_valuesx a v l u st pg ps) := by
  unfold nbtk_adjustment_set_valuesx
  have h0 := settled_stop_interpolation a h
  have h1 := settled_set_lower _ (l : gdouble) h0 hl
  have h2 := settled_set_upper _ (u : gdouble) h1 hu
  have h3 := settled_set_step_increment _ (st : gdouble) h2
  have h4 := settled_set_page_increment _ (pg : gdouble) h3
  have h5 := settled_set_page_size _ (ps : gdouble) h4 hp
  simp only []
  split_ifs
  · exact settled_emit_changed _ (settled_set_valuex_of_settled _ _ h5)
  · exact settled_set_valuex_of_settled _ _ h5
  · exact settled_emit_changed _ h5
  · exact h5

theorem settled_interpolatex (a s : NbtkAdjustment) (v : Int) (n fps : Nat) (h : settled a)
    (hs : nbtk_adjustment_interpolatex a v n fps = some s) : settled s := by
  by_cases hn : n ≤ 1
  · rw [interpolatex_degenerate a v n fps hn] at hs
    cases hs
    exact settled_set_valuex_of_settled _ _ (settled_stop_interpolation a h)
  · obtain ⟨-, -, -, hv, hl, hu, hp, -, -, he, hc, -⟩ :=
      interpolatex_run a s v n fps (by omega) hs
    unfold settled
    rw [hv, hl, hu, hp, he, hc]
    exact h

theorem clamp_eq (a : NbtkAdjustment) (i : Bool) (n fps : Nat) :
    nbtk_adjustment_clamp a i n fps =
      if CLAMP a.value a.lower (wrap32 (a.upper - a.page_size)) ≠ a.value then
        if i then
          (nbtk_adjustment_interpolatex a
            (CLAMP a.value a.lower (wrap32 (a.upper - a.page_size))) n fps).map
              (fun a1 => (a1, true))
        else some (nbtk_adjustment_set_valuex a
          (CLAMP a.value a.lower (wrap32 (a.upper - a.page_size))), true)
      else some (a, false) := by
  have hdest : (if a.value > wrap32 (a.upper - a.page_size) then wrap32 (a.upper - a.page_size)
      else if a.value < a.lower then a.lower else a.value)
      = CLAMP a.value a.lower (wrap32 (a.upper - a.page_size)) := rfl
  unfold nbtk_adjustment_clamp
  simp only [hdest]

theorem settled_clamp (a : NbtkAdjustment) (i : Bool) (n fps : Nat)
    (r : NbtkAdjustment × Bool) (h : settled a)
    (hr : nbtk_adjustment_clamp a i n fps = some r) : settled r.1 := by
  rw [clamp_eq] at hr
  split_ifs at hr with h1 h2
  · cases hs : nbtk_adjustment_interpolatex a
        (CLAMP a.value a.lower (wrap32 (a.upper - a.page_size))) n fps with
    | none => rw [hs] at hr; exact absurd hr (by simp)
    | some s =>
      rw [hs] at hr
      simp only [Option.map_some', Option.some.injEq] at hr
      subst hr
      exact settled_interpolatex _ _ _ _ _ h hs
  · cases hr
    exact settled_set_valuex_of_settled _ _ h
  · cases hr
    exact h

theorem new_frame_cb_value (t : ClutterTimeline) (k : Int) (r : gdouble) (a : NbtkAdjustment) :
    ∃ v, (interpolation_new_frame_cb t k r a).value =
      (nbtk_adjustment_set_valuex { a with interpolation := none } v).value := by
  unfold interpolation_new_frame_cb nbtk_adjustment_set_value
  simp only []
  split_ifs
  · exact ⟨_, rfl⟩
  · exact ⟨_, rfl⟩

theorem settled_new_frame_cb (t : ClutterTimeline) (k : Int) (r : gdouble)
    (a : NbtkAdjustment) (h : settled a) : settled (interpolation_new_frame_cb t k r a) := by
  obtain ⟨v, hv⟩ := new_frame_cb_value t k r a
  have hset := settled_set_valuex { a with interpolation := none } v h.1 h.2.1 h.2.2.1
    h.2.2.2.1 h.2.2.2.2.1
  unfold settled at hset ⊢
  rw [hv]
  simpa using hset

theorem settled_completed_cb (a : NbtkAdjustment) (h : settled a) :
    settled (interpolation_completed_cb a) := by
  unfold interpolation_completed_cb
  exact settled_set_valuex_of_settled _ _ (settled_stop_interpolation a h)

theorem settled_step (a s : NbtkAdjustment) (op : Op) (h : settled a)
    (hop : op ≠ Op.set_elastic true) (hb : banded_op op) (hs : step a op = some s) :
    settled s := by
  cases op with
  | set_valuex v => cases hs; exact settled_set_valuex_of_settled _ _ h
  | set_value v => cases hs; exact settled_set_valuex_of_settled _ _ h
  | set_lower x => cases hs; exact settled_set_lower _ _ h hb
  | set_upper x => cases hs; exact settled_set_upper _ _ h hb
  | set_step_increment x => cases hs; exact settled_set_step_increment _ _ h
  | set_page_increment x => cases hs; exact settled_set_page_increment _ _ h
  | set_page_size x => cases hs; exact settled_set_page_size _ _ h hb
  | set_elastic e =>
    cases e with
    | true => exact absurd rfl hop
    | false =>
      cases hs
      exact ⟨h.1, rfl, h.2.2.1, h.2.2.2.1, h.2.2.2.2.1, h.2.2.2.2.2.1, h.2.2.2.2.2.2⟩
  | set_valuesx v l u st pg ps =>
    cases hs; exact settled_set_valuesx _ _ _ _ _ _ _ h hb.1 hb.2.1 hb.2.2
  | set_values v l u st pg ps =>
    cases hs; exact settled_set_valuesx _ _ _ _ _ _ _ h hb.1 hb.2.1 hb.2.2
  | clamp_pagex l u =>
    cases hs
    have hv := settled_value_band a h
    exact settled_clamp_pagex _ _ _ h.1 h.2.1 h.2.2.1 h.2.2.2.1 h.2.2.2.2.1 hv.1 hv.2.1
  | clamp_page l u =>
    cases hs
    have hv := settled_value_band a h
    exact settled_clamp_pagex _ _ _ h.1 h.2.1 h.2.2.1 h.2.2.2.1 h.2.2.2.2.1 hv.1 hv.2.1
  | interpolatex v n fps => exact settled_interpolatex _ _ _ _ _ h hs
  | interpolate v n fps => exact settled_interpolatex _ _ _ _ _ h hs
  | clamp i n fps =>
    simp only [step] at hs
    cases hr : nbtk_adjustment_clamp a i n fps with
    | none => rw [hr] at hs; exact absurd hs (by simp)
    | some r =>
      rw [hr] at hs
      simp only [Option.map_some', Option.some.injEq] at hs
      subst hs
      exact settled_clamp _ _ _ _ _ h hr
  | new_frame f =>
    simp only [step, clutter_timeline_new_frame, Option.some.injEq] at hs
    subst hs
    split_ifs
    · exact settled_new_frame_cb _ _ _ _ h
    · exact h
  | completed =>
    simp only [step, clutter_timeline_completed, Option.some.injEq] at hs
    subst hs
    split_ifs
    · exact settled_completed_cb _ h
    · exact h

theorem settled_exec (ops : List Op) (a s : NbtkAdjustment) (h : settled a)
    (hops : Op.set_elastic true ∉ ops) (hb : ∀ op ∈ ops, banded_op op)
    (hs : exec a ops = some s) : settled s := by
  induction ops generalizing a with
  | nil => cases hs; exact h
  | cons op ops ih =>
    simp only [exec] at hs
    cases h1 : step a op with
    | none => rw [h1] at hs; exact absurd hs (by simp)
    | some a1 =>
      rw [h1] at hs
      simp only [Option.some_bind] at hs
      have hop : op ≠ Op.set_elastic true := fun e => hops (by simp [e])
      exact ih a1 (settled_step a a1 op h hop (hb op (by simp)) h1)
        (fun hm => hops (by simp [hm])) (fun o ho => hb o (by simp [ho])) hs

/-! ## Emissions and setters -/

theorem stop_interpolation_of_idle (a : NbtkAdjustment) (h1 : a.interpolation = none)
    (h2 : a.bounce_source = 0) : stop_interpolation a = a := by
  unfold stop_interpolation
  simp [h1, h2]

theorem clamp_pagex_emitted (b : NbtkAdjustment) (l u : Int) :
    ∃ es, (nbtk_adjustment_clamp_pagex b l u).emitted = b.emitted ++ es ∧
      (es = [] ∨ es = [Emission.notify Property.value]) ∧
      ((nbtk_adjustment_clamp_pagex b l u).value ≠ b.value →
        es = [Emission.notify Property.value]) := by
  unfold nbtk_adjustment_clamp_pagex g_object_notify
  simp only []
  split_ifs <;> simp_all

theorem clamp_pagex_erase_emitted (b : NbtkAdjustment) (l u : Int) (e : List Emission) :
    { nbtk_adjustment_clamp_pagex { b with emitted := e } l u with emitted := [] } =
      { nbtk_adjustment_clamp_pagex b l u with emitted := [] } := by
  unfold nbtk_adjustment_clamp_pagex g_object_notify stop_interpolation
  cases hi : b.interpolation <;> simp only [hi] <;> split_ifs <;> simp_all

theorem revalidated_of_clamp (b : NbtkAdjustment) (p : Property) :
    revalidated b
      (nbtk_adjustment_clamp_pagex
        { b with emitted := b.emitted ++ [Emission.changed] ++ [Emission.notify p] }
        b.lower b.upper) p := by
  refine ⟨clamp_pagex_erase_emitted b b.lower b.upper _, ?_⟩
  obtain ⟨es, h1, h2, -⟩ := clamp_pagex_emitted
    { b with emitted := b.emitted ++ [Emission.changed] ++ [Emission.notify p] } b.lower b.upper
  exact ⟨es, by rw [h1]; simp, h2⟩

theorem set_lower_eq (a : NbtkAdjustment) (x : gdouble) (hc : a.is_constructing = false)
    (hne : CLUTTER_FLOAT_TO_FIXED x ≠ a.lower) :
    nbtk_adjustment_set_lower a x =
      (nbtk_adjustment_clamp_pagex
        { a with lower := CLUTTER_FLOAT_TO_FIXED x,
                 emitted := a.emitted ++ [Emission.changed] ++ [Emission.notify Property.lower] }
        (CLUTTER_FLOAT_TO_FIXED x) a.upper, true) := by
  unfold nbtk_adjustment_set_lower
  have hne2 : a.lower ≠ CLUTTER_FLOAT_TO_FIXED x := fun h => hne h.symm
  simp only [ne_eq, hne2, not_false_eq_true, if_true, g_object_notify, g_signal_emit_changed,
    hc, Bool.not_false]

theorem set_upper_eq (a : NbtkAdjustment) (x : gdouble) (hc : a.is_constructing = false)
    (hne : CLUTTER_FLOAT_TO_FIXED x ≠ a.upper) :
    nbtk_adjustment_set_upper a x =
      (nbtk_adjustment_clamp_pagex
        { a with upper := CLUTTER_FLOAT_TO_FIXED x,
                 emitted := a.emitted ++ [Emission.changed] ++ [Emission.notify Property.upper] }
        a.lower (CLUTTER_FLOAT_TO_FIXED x), true) := by
  unfold nbtk_adjustment_set_upper
  have hne2 : a.upper ≠ CLUTTER_FLOAT_TO_FIXED x := fun h => hne h.symm
  simp only [ne_eq, hne2, not_false_eq_true, if_true, g_object_notify, g_signal_emit_changed,
    hc, Bool.not_false]

theorem set_page_size_eq (a : NbtkAdjustment) (x : gdouble) (hc : a.is_constructing = false)
    (hne : CLUTTER_FLOAT_TO_FIXED x ≠ a.page_size) :
    nbtk_adjustment_set_page_size a x =
      (nbtk_adjustment_clamp_pagex
        { a with page_size := CLUTTER_FLOAT_TO_FIXED x,
                 emitted :=
                   a.emitted ++ [Emission.changed] ++ [Emission.notify Property.page_size] }
        a.lower a.upper, true) := by
  unfold nbtk_adjustment_set_page_size
  have hne2 : a.page_size ≠ CLUTTER_FLOAT_TO_FIXED x := fun h => hne h.symm
  simp only [ne_eq, hne2, not_false_eq_true, if_true, g_object_notify, g_signal_emit_changed,
    hc, Bool.not_false]

theorem set_step_increment_eq (a : NbtkAdjustment) (x : gdouble)
    (hne : CLUTTER_FLOAT_TO_FIXED x ≠ a.step_increment) :
    nbtk_adjustment_set_step_increment a x =
      ({ a with step_increment := CLUTTER_FLOAT_TO_FIXED x,
                emitted :=
                  a.emitted ++ [Emission.changed] ++ [Emission.notify Property.step_inc] },
       true) := by
  unfold nbtk_adjustment_set_step_increment
  have hne2 : a.step_increment ≠ CLUTTER_FLOAT_TO_FIXED x := fun h => hne h.symm
  simp only [ne_eq, hne2, not_false_eq_true, if_true, g_object_notify, g_signal_emit_changed]

theorem set_page_increment_eq (a : NbtkAdjustment) (x : gdouble)
    (hne : CLUTTER_FLOAT_TO_FIXED x ≠ a.page_increment) :
    nbtk_adjustment_set_page_increment a x =
      ({ a with page_increment := CLUTTER_FLOAT_TO_FIXED x,
                emitted :=
                  a.emitted ++ [Emission.changed] ++ [Emission.notify Property.page_inc] },
       true) := by
  unfold nbtk_adjustment_set_page_increment
  have hne2 : a.page_increment ≠ CLUTTER_FLOAT_TO_FIXED x := fun h => hne h.symm
  simp only [ne_eq, hne2, not_false_eq_true, if_true, g_object_notify, g_signal_emit_changed]

theorem set_valuex_emitted (a : NbtkAdjustment) (v : Int) :
    (nbtk_adjustment_set_valuex a v).emitted =
      if (nbtk_adjustment_set_valuex a v).value ≠ a.value
      then a.emitted ++ [Emission.notify Property.value] else a.emitted := by
  unfold nbtk_adjustment_set_valuex g_object_notify
  simp only []
  split_ifs <;> simp_all

theorem set_valuex_idem (a : NbtkAdjustment) (v : Int) :
    nbtk_adjustment_set_valuex (nbtk_adjustment_set_valuex a v) v =
      nbtk_adjustment_set_valuex a v := by
  have hstop : stop_interpolation (nbtk_adjustment_set_valuex a v)
      = nbtk_adjustment_set_valuex a v :=
    stop_interpolation_of_idle _ (by simp) (by simp)
  have hval := set_valuex_value a v
  generalize hb : nbtk_adjustment_set_valuex a v = b at hstop hval ⊢
  have hcb : b.is_constructing = a.is_constructing := by rw [← hb]; simp
  have heb : b.elastic = a.elastic := by rw [← hb]; simp
  have hlb : b.lower = a.lower := by rw [← hb]; simp
  have hub : b.upper = a.upper := by rw [← hb]; simp
  have hpb : b.page_size = a.page_size := by rw [← hb]; simp
  unfold nbtk_adjustment_set_valuex
  simp only [hstop, hcb, heb, hlb, hub, hpb]
  rw [hval]
  cases a.is_constructing <;> cases a.elastic <;> simp

/-! ## Value notifications follow the stored value -/

theorem notified_refl (a : NbtkAdjustment) : value_change_notified a a :=
  ⟨[], by simp, fun h => absurd rfl h⟩

theorem notified_trans (a b c : NbtkAdjustment) (h1 : value_change_notified a b)
    (h2 : value_change_notified b c) : value_change_notified a c := by
  obtain ⟨e1, he1, hv1⟩ := h1
  obtain ⟨e2, he2, hv2⟩ := h2
  refine ⟨e1 ++ e2, by rw [he2, he1, List.append_assoc], ?_⟩
  intro hne
  by_cases hb : b.value = a.value
  · have : c.value ≠ b.value := by rw [hb]; exact hne
    exact List.mem_append.mpr (Or.inr (hv2 this))
  · exact List.mem_append.mpr (Or.inl (hv1 hb))

theorem notified_of_value_eq (a s : NbtkAdjustment) (es : List Emission)
    (he : s.emitted = a.emitted ++ es) (hv : s.value = a.value) :
    value_change_notified a s :=
  ⟨es, he, fun h => absurd hv h⟩

theorem notified_stop_interpolation (a : NbtkAdjustment) :
    value_change_notified a (stop_interpolation a) :=
  notified_of_value_eq a _ [] (by simp) (by simp)

theorem notified_set_valuex (a : NbtkAdjustment) (v : Int) :
    value_change_notified a (nbtk_adjustment_set_valuex a v) := by
  by_cases h : (nbtk_adjustment_set_valuex a v).value = a.value
  · exact notified_of_value_eq a _ [] (by rw [set_valuex_emitted]; simp [h]) h
  · exact ⟨[Emission.notify Property.value], by rw [set_valuex_emitted]; simp [h],
      fun _ => by simp⟩

theorem notified_clamp_pagex (a : NbtkAdjustment) (l u : Int) :
    value_change_notified a (nbtk_adjustment_clamp_pagex a l u) := by
  obtain ⟨es, h1, -, h3⟩ := clamp_pagex_emitted a l u
  exact ⟨es, h1, fun hne => by rw [h3 hne]; simp⟩

theorem notified_set_lower (a : NbtkAdjustment) (x : gdouble) :
    value_change_notified a (nbtk_adjustment_set_lower a x).1 := by
  unfold nbtk_adjustment_set_lower
  by_cases hx : a.lower = CLUTTER_FLOAT_TO_FIXED x
  · simp only [hx, ne_eq, not_true_eq_false, if_false]
    exact notified_refl a
  · simp only [ne_eq, hx, not_false_eq_true, if_true, g_object_notify, g_signal_emit_changed]
    have h3 : value_change_notified a
        { a with lower := CLUTTER_FLOAT_TO_FIXED x,
                 emitted := a.emitted ++ [Emission.changed] ++
                   [Emission.notify Property.lower] } :=
      ⟨[Emission.changed, Emission.notify Property.lower], by simp, fun h => absurd rfl h⟩
    split_ifs
    · exact notified_trans _ _ _ h3 (notified_clamp_pagex _ _ _)
    · exact h3

theorem notified_set_upper (a : NbtkAdjustment) (x : gdouble) :
    value_change_notified a (nbtk_adjustment_set_upper a x).1 := by
  unfold nbtk_adjustment_set_upper
  by_cases hx : a.upper = CLUTTER_FLOAT_TO_FIXED x
  · simp only [hx, ne_eq, not_true_eq_false, if_false]
    exact notified_refl a
  · simp only [ne_eq, hx, not_false_eq_true, if_true, g_object_notify, g_signal_emit_changed]
    have h3 : value_change_notified a
        { a with upper := CLUTTER_FLOAT_TO_FIXED x,
                 emitted := a.emitted ++ [Emission.changed] ++
                   [Emission.notify Property.upper] } :=
      ⟨[Emission.changed, Emission.notify Property.upper], by simp, fun h => absurd rfl h⟩
    split_ifs
    · exact notified_trans _ _ _ h3 (notified_clamp_pagex _ _ _)
    · exact h3

theorem notified_set_page_size (a : NbtkAdjustment) (x : gdouble) :
    value_change_notified a (nbtk_adjustment_set_page_size a x).1 := by
  unfold nbtk_adjustment_set_page_size
  by_cases hx : a.page_size = CLUTTER_FLOAT_TO_FIXED x
  · simp only [hx, ne_eq, not_true_eq_false, if_false]
    exact notified_refl a
  · simp only [ne_eq, hx, not_false_eq_true, if_true, g_object_notify, g_signal_emit_changed]
    have h3 : value_change_notified a
        { a with page_size := CLUTTER_FLOAT_TO_FIXED x,
                 emitted := a.emitted ++ [Emission.changed] ++
                   [Emission.notify Property.page_size] } :=
      ⟨[Emission.changed, Emission.notify Property.page_size], by simp, fun h => absurd rfl h⟩
    split_ifs
    · exact notified_trans _ _ _ h3 (notified_clamp_pagex _ _ _)
    · exact h3

theorem notified_set_step_increment (a : NbtkAdjustment) (x : gdouble) :
    value_change_notified a (nbtk_adjustment_set_step_increment a x).1 := by
  unfold nbtk_adjustment_set_step_increment
  by_cases hx : a.step_increment = CLUTTER_FLOAT_TO_FIXED x
  · simp only [hx, ne_eq, not_true_eq_false, if_false]
    exact notified_refl a
  · simp only [ne_eq, hx, not_false_eq_true, if_true, g_object_notify, g_signal_emit_changed]
    have h3 : value_change_notified a
        { a with step_increment := CLUTTER_FLOAT_TO_FIXED x,
                 emitted := a.emitted ++ [Emission.changed] ++
                   [Emission.notify Property.step_inc] } :=
      ⟨[Emission.changed, Emission.notify Property.step_inc], by simp, fun h => absurd rfl h⟩
    exact h3

theorem notified_set_page_increment (a : NbtkAdjustment) (x : gdouble) :
    value_change_notified a (nbtk_adjustment_set_page_increment a x).1 := by
  unfold nbtk_adjustment_set_page_increment
  by_cases hx : a.page_increment = CLUTTER_FLOAT_TO_FIXED x
  · simp only [hx, ne_eq, not_true_eq_false, if_false]
    exact notified_refl a
  · simp only [ne_eq, hx, not_false_eq_true, if_true, g_object_notify, g_signal_emit_changed]
    have h3 : value_change_notified a
        { a with page_increment := CLUTTER_FLOAT_TO_FIXED x,
                 emitted := a.emitted ++ [Emission.changed] ++
                   [Emission.notify Property.page_inc] } :=
      ⟨[Emission.changed, Emission.notify Property.page_inc], by simp, fun h => absurd rfl h⟩
    exact h3

theorem notified_emit_changed (a : NbtkAdjustment) :
    value_change_notified a (g_signal_emit_changed a) :=
  notified_of_value_eq a _ [Emission.changed] rfl rfl

theorem notified_set_valuesx (a : NbtkAdjustment) (v l u st pg ps : Int) :
    value_change_notified a (nbtk_adjustment_set_valuesx a v l u st pg ps) := by
  unfold nbtk_adjustment_set_valuesx
  have h0 := notified_stop_interpolation a
  have h1 := notified_trans _ _ _ h0 (notified_set_lower _ (l : gdouble))
  have h2 := notified_trans _ _ _ h1 (notified_set_upper _ (u : gdouble))
  have h3 := notified_trans _ _ _ h2 (notified_set_step_increment _ (st : gdouble))
  have h4 := notified_trans _ _ _ h3 (notified_set_page_increment _ (pg : gdouble))
  have h5 := notified_trans _ _ _ h4 (notified_set_page_size _ (ps : gdouble))
  simp only []
  split_ifs
  · exact notified_trans _ _ _ (notified_trans _ _ _ h5 (notified_set_valuex _ _))
      (notified_emit_changed _)
  · exact notified_trans _ _ _ h5 (notified_set_valuex _ _)
  · exact notified_trans _ _ _ h5 (notified_emit_changed _)
  · exact h5

theorem notified_interpolatex (a s : NbtkAdjustment) (v : Int) (n fps : Nat)
    (hs : nbtk_adjustment_interpolatex a v n fps = some s) : value_change_notified a s := by
  by_cases hn : n ≤ 1
  · rw [interpolatex_degenerate a v n fps hn] at hs
    cases hs
    exact notified_trans _ _ _ (notified_stop_interpolation a) (notified_set_valuex _ _)
  · obtain ⟨-, -, -, hv, -, -, -, -, -, -, -, hem⟩ :=
      interpolatex_run a s v n fps (by omega) hs
    exact notified_of_value_eq a s [] (by simp [hem]) hv

theorem notified_clamp (a : NbtkAdjustment) (i : Bool) (n fps : Nat)
    (r : NbtkAdjustment × Bool) (hr : nbtk_adjustment_clamp a i n fps = some r) :
    value_change_notified a r.1 := by
  rw [clamp_eq] at hr
  split_ifs at hr with h1 h2
  · cases hs : nbtk_adjustment_interpolatex a
        (CLAMP a.value a.lower (wrap32 (a.upper - a.page_size))) n fps with
    | none => rw [hs] at hr; exact absurd hr (by simp)
    | some s =>
      rw [hs] at hr
      simp only [Option.map_some', Option.some.injEq] at hr
      subst hr
      exact notified_interpolatex _ _ _ _ _ hs
  · cases hr
    exact notified_set_valuex _ _
  · cases hr
    exact notified_refl a

theorem new_frame_cb_eq (t : ClutterTimeline) (k : Int) (r : gdouble) (a : NbtkAdjustment) :
    ∃ v, interpolation_new_frame_cb t k r a =
      { nbtk_adjustment_set_valuex { a with interpolation := none } v with
        interpolation := some t } := by
  unfold interpolation_new_frame_cb nbtk_adjustment_set_value
  simp only []
  split_ifs
  · exact ⟨_, rfl⟩
  · exact ⟨_, rfl⟩

theorem notified_new_frame_cb (t : ClutterTimeline) (k : Int) (r : gdouble)
    (a : NbtkAdjustment) : value_change_notified a (interpolation_new_frame_cb t k r a) := by
  obtain ⟨v, hv⟩ := new_frame_cb_eq t k r a
  rw [hv]
  have h1 : value_change_notified a { a with interpolation := none } :=
    notified_of_value_eq a _ [] (by simp) rfl
  have h2 := notified_set_valuex { a with interpolation := none } v
  have h3 : value_change_notified
      (nbtk_adjustment_set_valuex { a with interpolation := none } v)
      { nbtk_adjustment_set_valuex { a with interpolation := none } v with
        interpolation := some t } :=
    notified_of_value_eq _ _ [] (by simp) rfl
  exact notified_trans _ _ _ (notified_trans _ _ _ h1 h2) h3

theorem notified_completed_cb (a : NbtkAdjustment) :
    value_change_notified a (interpolation_completed_cb a) := by
  unfold interpolation_completed_cb
  exact notified_trans _ _ _ (notified_stop_interpolation a) (notified_set_valuex _ _)

theorem notified_step (a s : NbtkAdjustment) (op : Op) (hs : step a op = some s) :
    value_change_notified a s := by
  cases op with
  | set_valuex v => cases hs; exact notified_set_valuex _ _
  | set_value v => cases hs; exact notified_set_valuex _ _
  | set_lower x => cases hs; exact notified_set_lower _ _
  | set_upper x => cases hs; exact notified_set_upper _ _
  | set_step_increment x => cases hs; exact notified_set_step_increment _ _
  | set_page_increment x => cases hs; exact notified_set_page_increment _ _
  | set_page_size x => cases hs; exact notified_set_page_size _ _
  | set_elastic e =>
    cases hs
    exact ⟨[], by simp [nbtk_adjustment_set_elastic], fun h => absurd rfl h⟩
  | set_valuesx v l u st pg ps => cases hs; exact notified_set_valuesx _ _ _ _ _ _ _
  | set_values v l u st pg ps => cases hs; exact notified_set_valuesx _ _ _ _ _ _ _
  | clamp_pagex l u => cases hs; exact notified_clamp_pagex _ _ _
  | clamp_page l u => cases hs; exact notified_clamp_pagex _ _ _
  | interpolatex v n fps => exact notified_interpolatex _ _ _ _ _ hs
  | interpolate v n fps => exact notified_interpolatex _ _ _ _ _ hs
  | clamp i n fps =>
    simp only [step] at hs
    cases hr : nbtk_adjustment_clamp a i n fps with
    | none => rw [hr] at hs; exact absurd hs (by simp)
    | some r =>
      rw [hr] at hs
      simp only [Option.map_some', Option.some.injEq] at hs
      subst hs
      exact notified_clamp _ _ _ _ _ hr
  | new_frame f =>
    simp only [step, clutter_timeline_new_frame, Option.some.injEq] at hs
    subst hs
    split_ifs
    · exact notified_new_frame_cb _ _ _ _
    · exact notified_refl _
  | completed =>
    simp only [step, clutter_timeline_completed, Option.some.injEq] at hs
    subst hs
    split_ifs
    · exact notified_completed_cb _
    · exact notified_refl _

theorem notified_set_elastic (a : NbtkAdjustment) (e : Bool) :
    value_change_notified a (nbtk_adjustment_set_elastic a e) :=
  ⟨[], by simp [nbtk_adjustment_set_elastic], fun h => absurd rfl h⟩

theorem notified_constructed (a : NbtkAdjustment) :
    value_change_notified a (nbtk_adjustment_constructed a) := by
  unfold nbtk_adjustment_constructed
  have h1 : value_change_notified a { a with is_constructing := false } :=
    ⟨[], by simp, fun h => absurd rfl h⟩
  exact notified_trans _ _ _ h1 (notified_clamp_pagex _ _ _)

theorem notified_new (v l u st pg ps : gdouble) :
    value_change_notified nbtk_adjustment_init (nbtk_adjustment_new v l u st pg ps) := by
  unfold nbtk_adjustment_new g_object_new nbtk_adjustment_set_value
  have h1 := notified_set_valuex nbtk_adjustment_init (CLUTTER_FLOAT_TO_FIXED v)
  have h2 := notified_trans _ _ _ h1 (notified_set_lower _ l)
  have h3 := notified_trans _ _ _ h2 (notified_set_upper _ u)
  have h4 := notified_trans _ _ _ h3 (notified_set_step_increment _ st)
  have h5 := notified_trans _ _ _ h4 (notified_set_page_increment _ pg)
  have h6 := notified_trans _ _ _ h5 (notified_set_page_size _ ps)
  have h7 := notified_trans _ _ _ h6 (notified_set_elastic _ false)
  exact notified_trans _ _ _ h7 (notified_constructed _)

/-! ## Construction and the fixed-point frame count -/

theorem int_to_fixed_eq_zero_iff (n : Nat) : CLUTTER_INT_TO_FIXED n = 0 ↔ n % 65536 = 0 := by
  unfold CLUTTER_INT_TO_FIXED wrap32
  omega

theorem set_lower_is_constructing (a : NbtkAdjustment) (x : gdouble) :
    (nbtk_adjustment_set_lower a x).1.is_constructing = a.is_constructing := by
  unfold nbtk_adjustment_set_lower g_object_notify g_signal_emit_changed
  simp only []; split_ifs <;> simp

theorem set_upper_is_constructing (a : NbtkAdjustment) (x : gdouble) :
    (nbtk_adjustment_set_upper a x).1.is_constructing = a.is_constructing := by
  unfold nbtk_adjustment_set_upper g_object_notify g_signal_emit_changed
  simp only []; split_ifs <;> simp

theorem set_page_size_is_constructing (a : NbtkAdjustment) (x : gdouble) :
    (nbtk_adjustment_set_page_size a x).1.is_constructing = a.is_constructing := by
  unfold nbtk_adjustment_set_page_size g_object_notify g_signal_emit_changed
  simp only []; split_ifs <;> simp

theorem set_step_increment_is_constructing (a : NbtkAdjustment) (x : gdouble) :
    (nbtk_adjustment_set_step_increment a x).1.is_constructing = a.is_constructing := by
  unfold nbtk_adjustment_set_step_increment g_object_notify g_signal_emit_changed
  simp only []; split_ifs <;> simp

theorem set_page_increment_is_constructing (a : NbtkAdjustment) (x : gdouble) :
    (nbtk_adjustment_set_page_increment a x).1.is_constructing = a.is_constructing := by
  unfold nbtk_adjustment_set_page_increment g_object_notify g_signal_emit_changed
  simp only []; split_ifs <;> simp

theorem set_valuesx_is_constructing (a : NbtkAdjustment) (v l u st pg ps : Int) :
    (nbtk_adjustment_set_valuesx a v l u st pg ps).is_constructing = a.is_constructing := by
  unfold nbtk_adjustment_set_valuesx g_signal_emit_changed
  simp only []
  split_ifs <;>
    simp [set_page_size_is_constructing, set_page_increment_is_constructing,
      set_step_increment_is_constructing, set_upper_is_constructing, set_lower_is_constructing]

theorem interpolatex_is_constructing (a s : NbtkAdjustment) (v : Int) (n fps : Nat)
    (hs : nbtk_adjustment_interpolatex a v n fps = some s) :
    s.is_constructing = a.is_constructing := by
  by_cases hn : n ≤ 1
  · rw [interpolatex_degenerate a v n fps hn] at hs
    cases hs
    simp
  · exact (interpolatex_run a s v n fps (by omega) hs).2.2.2.2.2.2.2.2.2.2.1

theorem clamp_is_constructing (a : NbtkAdjustment) (i : Bool) (n fps : Nat)
    (r : NbtkAdjustment × Bool) (hr : nbtk_adjustment_clamp a i n fps = some r) :
    r.1.is_constructing = a.is_constructing := by
  rw [clamp_eq] at hr
  split_ifs at hr with h1 h2
  · cases hs : nbtk_adjustment_interpolatex a
        (CLAMP a.value a.lower (wrap32 (a.upper - a.page_size))) n fps with
    | none => rw [hs] at hr; exact absurd hr (by simp)
    | some s =>
      rw [hs] at hr
      simp only [Option.map_some', Option.some.injEq] at hr
      subst hr
      exact interpolatex_is_constructing _ _ _ _ _ hs
  · cases hr
    simp
  · cases hr
    rfl

theorem step_is_constructing (a s : NbtkAdjustment) (op : Op) (hs : step a op = some s) :
    s.is_constructing = a.is_constructing := by
  cases op with
  | set_valuex v => cases hs; simp
  | set_value v => cases hs; simp [nbtk_adjustment_set_value]
  | set_lower x => cases hs; exact set_lower_is_constructing _ _
  | set_upper x => cases hs; exact set_upper_is_constructing _ _
  | set_step_increment x => cases hs; exact set_step_increment_is_constructing _ _
  | set_page_increment x => cases hs; exact set_page_increment_is_constructing _ _
  | set_page_size x => cases hs; exact set_page_size_is_constructing _ _
  | set_elastic e => cases hs; rfl
  | set_valuesx v l u st pg ps => cases hs; exact set_valuesx_is_constructing _ _ _ _ _ _ _
  | set_values v l u st pg ps => cases hs; exact set_valuesx_is_constructing _ _ _ _ _ _ _
  | clamp_pagex l u => cases hs; simp
  | clamp_page l u => cases hs; simp [nbtk_adjustment_clamp_page]
  | interpolatex v n fps => exact interpolatex_is_constructing _ _ _ _ _ hs
  | interpolate v n fps => exact interpolatex_is_constructing _ _ _ _ _ hs
  | clamp i n fps =>
    simp only [step] at hs
    cases hr : nbtk_adjustment_clamp a i n fps with
    | none => rw [hr] at hs; exact absurd hs (by simp)
    | some r =>
      rw [hr] at hs
      simp only [Option.map_some', Option.some.injEq] at hs
      subst hs
      exact clamp_is_constructing _ _ _ _ _ hr
  | new_frame f =>
    simp only [step, clutter_timeline_new_frame, Option.some.injEq] at hs
    subst hs
    split_ifs <;> simp
  | completed =>
    simp only [step, clutter_timeline_completed, Option.some.injEq] at hs
    subst hs
    split_ifs <;> simp [interpolation_completed_cb]

theorem exec_is_constructing (ops : List Op) (a s : NbtkAdjustment)
    (hs : exec a ops = some s) : s.is_constructing = a.is_constructing := by
  induction ops generalizing a with
  | nil => cases hs; rfl
  | cons op ops ih =>
    simp only [exec] at hs
    cases h1 : step a op with
    | none => rw [h1] at hs; exact absurd hs (by simp)
    | some a1 =>
      rw [h1] at hs
      simp only [Option.some_bind] at hs
      rw [ih a1 hs, step_is_constructing a a1 op h1]

theorem constructing_set_value (a : NbtkAdjustment) (x : gdouble)
    (hc : a.is_constructing = true) (hi : a.interpolation = none) (hb : a.bounce_source = 0) :
    ∃ es, nbtk_adjustment_set_value a x =
      { a with value := CLUTTER_FLOAT_TO_FIXED x, emitted := es } := by
  unfold nbtk_adjustment_set_value nbtk_adjustment_set_valuex g_object_notify
  rw [stop_interpolation_of_idle a hi hb]
  simp only [hc, Bool.not_true, Bool.false_eq_true, if_false]
  split_ifs with h
  · exact ⟨_, rfl⟩
  · refine ⟨a.emitted, ?_⟩
    rw [not_not] at h
    rw [← h]
    cases a
    simp_all

theorem constructing_set_lower (a : NbtkAdjustment) (x : gdouble)
    (hc : a.is_constructing = true) :
    ∃ es, (nbtk_adjustment_set_lower a x).1 =
      { a with lower := CLUTTER_FLOAT_TO_FIXED x, emitted := es } := by
  unfold nbtk_adjustment_set_lower g_object_notify g_signal_emit_changed
  simp only [hc, Bool.not_true, Bool.false_eq_true, if_false]
  split_ifs with h
  · exact ⟨_, rfl⟩
  · refine ⟨a.emitted, ?_⟩
    rw [not_not] at h
    rw [← h]
    cases a
    simp_all

theorem constructing_set_upper (a : NbtkAdjustment) (x : gdouble)
    (hc : a.is_constructing = true) :
    ∃ es, (nbtk_adjustment_set_upper a x).1 =
      { a with upper := CLUTTER_FLOAT_TO_FIXED x, emitted := es } := by
  unfold nbtk_adjustment_set_upper g_object_notify g_signal_emit_changed
  simp only [hc, Bool.not_true, Bool.false_eq_true, if_false]
  split_ifs with h
  · exact ⟨_, rfl⟩
  · refine ⟨a.emitted, ?_⟩
    rw [not_not] at h
    rw [← h]
    cases a
    simp_all

theorem constructing_set_step_increment (a : NbtkAdjustment) (x : gdouble) :
    ∃ es, (nbtk_adjustment_set_step_increment a x).1 =
      { a with step_increment := CLUTTER_FLOAT_TO_FIXED x, emitted := es } := by
  unfold nbtk_adjustment_set_step_increment g_object_notify g_signal_emit_changed
  simp only []
  split_ifs with h
  · exact ⟨_, rfl⟩
  · refine ⟨a.emitted, ?_⟩
    rw [not_not] at h
    rw [← h]

theorem constructing_set_page_increment (a : NbtkAdjustment) (x : gdouble) :
    ∃ es, (nbtk_adjustment_set_page_increment a x).1 =
      { a with page_increment := CLUTTER_FLOAT_TO_FIXED x, emitted := es } := by
  unfold nbtk_adjustment_set_page_increment g_object_notify g_signal_emit_changed
  simp only []
  split_ifs with h
  · exact ⟨_, rfl⟩
  · refine ⟨a.emitted, ?_⟩
    rw [not_not] at h
    rw [← h]

theorem constructing_set_page_size (a : NbtkAdjustment) (x : gdouble)
    (hc : a.is_constructing = true) :
    ∃ es, (nbtk_adjustment_set_page_size a x).1 =
      { a with page_size := CLUTTER_FLOAT_TO_FIXED x, emitted := es } := by
  unfold nbtk_adjustment_set_page_size g_object_notify g_signal_emit_changed
  simp only [hc, Bool.not_true, Bool.false_eq_true, if_false]
  split_ifs with h
  · exact ⟨_, rfl⟩
  · refine ⟨a.emitted, ?_⟩
    rw [not_not] at h
    rw [← h]
    cases a
    simp_all

theorem new_eq_constructed (v l u st pg ps : gdouble) :
    ∃ es, nbtk_adjustment_new v l u st pg ps =
      nbtk_adjustment_constructed
        { nbtk_adjustment_init with
            value := CLUTTER_FLOAT_TO_FIXED v, lower := CLUTTER_FLOAT_TO_FIXED l,
            upper := CLUTTER_FLOAT_TO_FIXED u, step_increment := CLUTTER_FLOAT_TO_FIXED st,
            page_increment := CLUTTER_FLOAT_TO_FIXED pg,
            page_size := CLUTTER_FLOAT_TO_FIXED ps, emitted := es } := by
  unfold nbtk_adjustment_new g_object_new
  obtain ⟨e1, h1⟩ := constructing_set_value nbtk_adjustment_init v rfl rfl rfl
  simp only [h1]
  obtain ⟨e2, h2⟩ := constructing_set_lower
    { nbtk_adjustment_init with
        value := CLUTTER_FLOAT_TO_FIXED v, emitted := e1 } l rfl
  simp only [h2]
  obtain ⟨e3, h3⟩ := constructing_set_upper
    { nbtk_adjustment_init with
        value := CLUTTER_FLOAT_TO_FIXED v, lower := CLUTTER_FLOAT_TO_FIXED l,
        emitted := e2 } u rfl
  simp only [h3]
  obtain ⟨e4, h4⟩ := constructing_set_step_increment
    { nbtk_adjustment_init with
        value := CLUTTER_FLOAT_TO_FIXED v, lower := CLUTTER_FLOAT_TO_FIXED l,
        upper := CLUTTER_FLOAT_TO_FIXED u, emitted := e3 } st
  simp only [h4]
  obtain ⟨e5, h5⟩ := constructing_set_page_increment
    { nbtk_adjustment_init with
        value := CLUTTER_FLOAT_TO_FIXED v, lower := CLUTTER_FLOAT_TO_FIXED l,
        upper := CLUTTER_FLOAT_TO_FIXED u, step_increment := CLUTTER_FLOAT_TO_FIXED st,
        emitted := e4 } pg
  simp only [h5]
  obtain ⟨e6, h6⟩ := constructing_set_page_size
    { nbtk_adjustment_init with
        value := CLUTTER_FLOAT_TO_FIXED v, lower := CLUTTER_FLOAT_TO_FIXED l,
        upper := CLUTTER_FLOAT_TO_FIXED u, step_increment := CLUTTER_FLOAT_TO_FIXED st,
        page_increment := CLUTTER_FLOAT_TO_FIXED pg, emitted := e5 } ps rfl
  simp only [h6]
  exact ⟨e6, rfl⟩

theorem constructed_window (a : NbtkAdjustment) (hwf : a.lower + a.page_size ≤ a.upper)
    (hfit : page_sums_fit a.lower a.upper a.page_size a.value) :
    a.lower ≤ (nbtk_adjustment_constructed a).value ∧
    (nbtk_adjustment_constructed a).value ≤ a.upper - a.page_size := by
  unfold nbtk_adjustment_constructed
  rw [clamp_pagex_value_of_fit _ _ _ (show page_sums_fit
    { a with is_constructing := false }.lower { a with is_constructing := false }.upper
    { a with is_constructing := false }.page_size { a with is_constructing := false }.value
    from hfit)]
  have h := clamp_page_spec_window a.lower a.upper a.page_size a.value a.lower a.upper
  unfold MIN MAX at h
  simp only []
  constructor
  · have h1 := h.1
    split_ifs at h1 <;> omega
  · have h2 := h.2
    split_ifs at h2 <;> omega

theorem settled_new (v l u st pg ps : gdouble) (hv : in_band (CLUTTER_FLOAT_TO_FIXED v))
    (hl : in_band (CLUTTER_FLOAT_TO_FIXED l)) (hu : in_band (CLUTTER_FLOAT_TO_FIXED u))
    (hp : in_band (CLUTTER_FLOAT_TO_FIXED ps)) :
    settled (nbtk_adjustment_new v l u st pg ps) := by
  obtain ⟨es, h⟩ := new_eq_constructed v l u st pg ps
  rw [h]
  unfold nbtk_adjustment_constructed
  unfold in_band at hv
  exact settled_clamp_pagex _ _ _ rfl rfl hl hu hp
    (by show -1073741824 ≤ CLUTTER_FLOAT_TO_FIXED v; omega)
    (by show CLUTTER_FLOAT_TO_FIXED v ≤ 1073741824; omega)

/-! ## Range fields under the setters -/

theorem float_to_fixed_intCast (n : Int) :
    CLUTTER_FLOAT_TO_FIXED (n : gdouble) = wrap32 (n * 65536) := by
  unfold CLUTTER_FLOAT_TO_FIXED
  have h : (2 * 65536 * n + 1) / 2 = n * 65536 := by omega
  simp only [Rat.num_intCast, Rat.den_intCast, Nat.cast_one, mul_one]
  rw [h]

theorem set_lower_fields (a : NbtkAdjustment) (x : gdouble) :
    (nbtk_adjustment_set_lower a x).1.lower = CLUTTER_FLOAT_TO_FIXED x ∧
    (nbtk_adjustment_set_lower a x).1.upper = a.upper ∧
    (nbtk_adjustment_set_lower a x).1.page_size = a.page_size ∧
    (nbtk_adjustment_set_lower a x).1.step_increment = a.step_increment ∧
    (nbtk_adjustment_set_lower a x).1.page_increment = a.page_increment ∧
    (nbtk_adjustment_set_lower a x).1.elastic = a.elastic := by
  unfold nbtk_adjustment_set_lower g_object_notify g_signal_emit_changed
  by_cases hx : a.lower = CLUTTER_FLOAT_TO_FIXED x
  · simp [hx]
  · simp only [ne_eq, hx, not_false_eq_true, if_true]
    split_ifs <;> simp

theorem set_upper_fields (a : NbtkAdjustment) (x : gdouble) :
    (nbtk_adjustment_set_upper a x).1.lower = a.lower ∧
    (nbtk_adjustment_set_upper a x).1.upper = CLUTTER_FLOAT_TO_FIXED x ∧
    (nbtk_adjustment_set_upper a x).1.page_size = a.page_size ∧
    (nbtk_adjustment_set_upper a x).1.step_increment = a.step_increment ∧
    (nbtk_adjustment_set_upper a x).1.page_increment = a.page_increment ∧
    (nbtk_adjustment_set_upper a x).1.elastic = a.elastic := by
  unfold nbtk_adjustment_set_upper g_object_notify g_signal_emit_changed
  by_cases hx : a.upper = CLUTTER_FLOAT_TO_FIXED x
  · simp [hx]
  · simp only [ne_eq, hx, not_false_eq_true, if_true]
    split_ifs <;> simp

theorem set_page_size_fields (a : NbtkAdjustment) (x : gdouble) :
    (nbtk_adjustment_set_page_size a x).1.lower = a.lower ∧
    (nbtk_adjustment_set_page_size a x).1.upper = a.upper ∧
    (nbtk_adjustment_set_page_size a x).1.page_size = CLUTTER_FLOAT_TO_FIXED x ∧
    (nbtk_adjustment_set_page_size a x).1.step_increment = a.step_increment ∧
    (nbtk_adjustment_set_page_size a x).1.page_increment = a.page_increment ∧
    (nbtk_adjustment_set_page_size a x).1.elastic = a.elastic := by
  unfold nbtk_adjustment_set_page_size g_object_notify g_signal_emit_changed
  by_cases hx : a.page_size = CLUTTER_FLOAT_TO_FIXED x
  · simp [hx]
  · simp only [ne_eq, hx, not_false_eq_true, if_true]
    split_ifs <;> simp

theorem set_step_increment_fields (a : NbtkAdjustment) (x : gdouble) :
    (nbtk_adjustment_set_step_increment a x).1.lower = a.lower ∧
    (nbtk_adjustment_set_step_increment a x).1.upper = a.upper ∧
    (nbtk_adjustment_set_step_increment a x).1.page_size = a.page_size ∧
    (nbtk_adjustment_set_step_increment a x).1.step_increment = CLUTTER_FLOAT_TO_FIXED x ∧
    (nbtk_adjustment_set_step_increment a x).1.page_increment = a.page_increment ∧
    (nbtk_adjustment_set_step_increment a x).1.elastic = a.elastic ∧
    (nbtk_adjustment_set_step_increment a x).1.value = a.value ∧
    (nbtk_adjustment_set_step_increment a x).1.interpolation = a.interpolation := by
  unfold nbtk_adjustment_set_step_increment g_object_notify g_signal_emit_changed
  by_cases hx : a.step_increment = CLUTTER_FLOAT_TO_FIXED x
  · simp [hx]
  · simp [hx]

theorem set_page_increment_fields (a : NbtkAdjustment) (x : gdouble) :
    (nbtk_adjustment_set_page_increment a x).1.lower = a.lower ∧
    (nbtk_adjustment_set_page_increment a x).1.upper = a.upper ∧
    (nbtk_adjustment_set_page_increment a x).1.page_size = a.page_size ∧
    (nbtk_adjustment_set_page_increment a x).1.step_increment = a.step_increment ∧
    (nbtk_adjustment_set_page_increment a x).1.page_increment = CLUTTER_FLOAT_TO_FIXED x ∧
    (nbtk_adjustment_set_page_increment a x).1.elastic = a.elastic ∧
    (nbtk_adjustment_set_page_increment a x).1.value = a.value ∧
    (nbtk_adjustment_set_page_increment a x).1.interpolation = a.interpolation := by
  unfold nbtk_adjustment_set_page_increment g_object_notify g_signal_emit_changed
  by_cases hx : a.page_increment = CLUTTER_FLOAT_TO_FIXED x
  · simp [hx]
  · simp [hx]

theorem set_valuesx_eq (a : NbtkAdjustment) (v l u st pg ps : Int) :
    ∃ r : NbtkAdjustment,
      r = (nbtk_adjustment_set_page_size (nbtk_adjustment_set_page_increment
            (nbtk_adjustment_set_step_increment (nbtk_adjustment_set_upper
              (nbtk_adjustment_set_lower (stop_interpolation a) (l : gdouble)).1
              (u : gdouble)).1 (st : gdouble)).1 (pg : gdouble)).1 (ps : gdouble)).1 ∧
      r.lower = CLUTTER_FLOAT_TO_FIXED (l : gdouble) ∧
      r.upper = CLUTTER_FLOAT_TO_FIXED (u : gdouble) ∧
      r.page_size = CLUTTER_FLOAT_TO_FIXED (ps : gdouble) ∧
      r.step_increment = CLUTTER_FLOAT_TO_FIXED (st : gdouble) ∧
      r.page_increment = CLUTTER_FLOAT_TO_FIXED (pg : gdouble) ∧
      r.elastic = a.elastic ∧
      (nbtk_adjustment_set_valuesx a v l u st pg ps = nbtk_adjustment_set_valuex r v ∨
       nbtk_adjustment_set_valuesx a v l u st pg ps
         = g_signal_emit_changed (nbtk_adjustment_set_valuex r v) ∨
       (v = r.value ∧ (nbtk_adjustment_set_valuesx a v l u st pg ps = r ∨
         nbtk_adjustment_set_valuesx a v l u st pg ps = g_signal_emit_changed r))) := by
  refine ⟨_, rfl, ?_, ?_, ?_, ?_, ?_, ?_, ?_⟩
  · simp only [(set_page_size_fields _ _).1, (set_page_increment_fields _ _).1,
      (set_step_increment_fields _ _).1, (set_upper_fields _ _).1, (set_lower_fields _ _).1]
  · simp only [(set_page_size_fields _ _).2.1, (set_page_increment_fields _ _).2.1,
      (set_step_increment_fields _ _).2.1, (set_upper_fields _ _).2.1]
  · simp only [(set_page_size_fields _ _).2.2.1]
  · simp only [(set_page_size_fields _ _).2.2.2.1, (set_page_increment_fields _ _).2.2.2.1,
      (set_step_increment_fields _ _).2.2.2.1]
  · simp only [(set_page_size_fields _ _).2.2.2.2.1,
      (set_page_increment_fields _ _).2.2.2.2.1]
  · simp only [(set_page_size_fields _ _).2.2.2.2.2, (set_page_increment_fields _ _).2.2.2.2.2.1,
      (set_step_increment_fields _ _).2.2.2.2.2.1, (set_upper_fields _ _).2.2.2.2.2,
      (set_lower_fields _ _).2.2.2.2.2, stop_interpolation_elastic]
  · unfold nbtk_adjustment_set_valuesx
    simp only []
    split_ifs with h1 h2 h3
    · exact Or.inr (Or.inl rfl)
    · exact Or.inl rfl
    · rw [ne_eq, not_not] at h1
      exact Or.inr (Or.inr ⟨h1, Or.inr rfl⟩)
    · rw [ne_eq, not_not] at h1
      exact Or.inr (Or.inr ⟨h1, Or.inl rfl⟩)

theorem stop_interpolation_bounce_alpha (a : NbtkAdjustment) (h : no_stale_alpha a) :
    (stop_interpolation a).bounce_alpha = none := by
  unfold stop_interpolation
  cases hi : a.interpolation with
  | none => simp only [h hi]; split_ifs <;> simp [h hi]
  | some t => simp only []; split_ifs <;> simp

theorem set_valuex_bounce_alpha (a : NbtkAdjustment) (v : Int) :
    (nbtk_adjustment_set_valuex a v).bounce_alpha = (stop_interpolation a).bounce_alpha := by
  unfold nbtk_adjustment_set_valuex g_object_notify
  simp only []; split_ifs <;> simp

theorem clamp_pagex_bounce_alpha (a : NbtkAdjustment) (l u : Int) :
    (nbtk_adjustment_clamp_pagex a l u).bounce_alpha = (stop_interpolation a).bounce_alpha := by
  unfold nbtk_adjustment_clamp_pagex g_object_notify
  simp only []; split_ifs <;> simp

theorem tidy_of_alpha_none (a : NbtkAdjustment) (h : a.bounce_alpha = none) :
    no_stale_alpha a := fun _ => h

theorem tidy_of_active (a : NbtkAdjustment) (h : a.interpolation ≠ none) :
    no_stale_alpha a := fun hi => absurd hi h

theorem tidy_stop_interpolation (a : NbtkAdjustment) (h : no_stale_alpha a) :
    no_stale_alpha (stop_interpolation a) :=
  tidy_of_alpha_none _ (stop_interpolation_bounce_alpha a h)

theorem tidy_set_valuex (a : NbtkAdjustment) (v : Int) (h : no_stale_alpha a) :
    no_stale_alpha (nbtk_adjustment_set_valuex a v) :=
  tidy_of_alpha_none _ (by rw [set_valuex_bounce_alpha, stop_interpolation_bounce_alpha a h])

theorem tidy_clamp_pagex (a : NbtkAdjustment) (l u : Int) (h : no_stale_alpha a) :
    no_stale_alpha (nbtk_adjustment_clamp_pagex a l u) :=
  tidy_of_alpha_none _ (by rw [clamp_pagex_bounce_alpha, stop_interpolation_bounce_alpha a h])

theorem tidy_set_lower (a : NbtkAdjustment) (x : gdouble) (h : no_stale_alpha a) :
    no_stale_alpha (nbtk_adjustment_set_lower a x).1 := by
  unfold nbtk_adjustment_set_lower
  by_cases hx : a.lower = CLUTTER_FLOAT_TO_FIXED x
  · simp only [hx, ne_eq, not_true_eq_false, if_false]
    exact h
  · simp only [ne_eq, hx, not_false_eq_true, if_true, g_object_notify, g_signal_emit_changed]
    have h3 : no_stale_alpha
        { a with lower := CLUTTER_FLOAT_TO_FIXED x,
                 emitted := a.emitted ++ [Emission.changed] ++
                   [Emission.notify Property.lower] } := h
    split_ifs
    · exact tidy_clamp_pagex _ _ _ h3
    · exact h3

theorem tidy_set_upper (a : NbtkAdjustment) (x : gdouble) (h : no_stale_alpha a) :
    no_stale_alpha (nbtk_adjustment_set_upper a x).1 := by
  unfold nbtk_adjustment_set_upper
  by_cases hx : a.upper = CLUTTER_FLOAT_TO_FIXED x
  · simp only [hx, ne_eq, not_true_eq_false, if_false]
    exact h
  · simp only [ne_eq, hx, not_false_eq_true, if_true, g_object_notify, g_signal_emit_changed]
    have h3 : no_stale_alpha
        { a with upper := CLUTTER_FLOAT_TO_FIXED x,
                 emitted := a.emitted ++ [Emission.changed] ++
                   [Emission.notify Property.upper] } := h
    split_ifs
    · exact tidy_clamp_pagex _ _ _ h3
    · exact h3

theorem tidy_set_page_size (a : NbtkAdjustment) (x : gdouble) (h : no_stale_alpha a) :
    no_stale_alpha (nbtk_adjustment_set_page_size a x).1 := by
  unfold nbtk_adjustment_set_page_size
  by_cases hx : a.page_size = CLUTTER_FLOAT_TO_FIXED x
  · simp only [hx, ne_eq, not_true_eq_false, if_false]
    exact h
  · simp only [ne_eq, hx, not_false_eq_true, if_true, g_object_notify, g_signal_emit_changed]
    have h3 : no_stale_alpha
        { a with page_size := CLUTTER_FLOAT_TO_FIXED x,
                 emitted := a.emitted ++ [Emission.changed] ++
                   [Emission.notify Property.page_size] } := h
    split_ifs
    · exact tidy_clamp_pagex _ _ _ h3
    · exact h3

theorem tidy_set_step_increment (a : NbtkAdjustment) (x : gdouble) (h : no_stale_alpha a) :
    no_stale_alpha (nbtk_adjustment_set_step_increment a x).1 := by
  unfold nbtk_adjustment_set_step_increment
  by_cases hx : a.step_increment = CLUTTER_FLOAT_TO_FIXED x
  · simp only [hx, ne_eq, not_true_eq_false, if_false]
    exact h
  · simp only [ne_eq, hx, not_false_eq_true, if_true, g_object_notify, g_signal_emit_changed]
    exact h

theorem tidy_set_page_increment (a : NbtkAdjustment) (x : gdouble) (h : no_stale_alpha a) :
    no_stale_alpha (nbtk_adjustment_set_page_increment a x).1 := by
  unfold nbtk_adjustment_set_page_increment
  by_cases hx : a.page_increment = CLUTTER_FLOAT_TO_FIXED x
  · simp only [hx, ne_eq, not_true_eq_false, if_false]
    exact h
  · simp only [ne_eq, hx, not_false_eq_true, if_true, g_object_notify, g_signal_emit_changed]
    exact h

theorem tidy_set_valuesx (a : NbtkAdjustment) (v l u st pg ps : Int) (h : no_stale_alpha a) :
    no_stale_alpha (nbtk_adjustment_set_valuesx a v l u st pg ps) := by
  unfold nbtk_adjustment_set_valuesx
  have h0 := tidy_stop_interpolation a h
  have h1 := tidy_set_lower _ (l : gdouble) h0
  have h2 := tidy_set_upper _ (u : gdouble) h1
  have h3 := tidy_set_step_increment _ (st : gdouble) h2
  have h4 := tidy_set_page_increment _ (pg : gdouble) h3
  have h5 := tidy_set_page_size _ (ps : gdouble) h4
  simp only []
  split_ifs
  · exact tidy_set_valuex _ _ h5
  · exact tidy_set_valuex _ _ h5
  · exact h5
  · exact h5

theorem tidy_interpolatex (a s : NbtkAdjustment) (v : Int) (n fps : Nat)
    (h : no_stale_alpha a) (hs : nbtk_adjustment_interpolatex a v n fps = some s) :
    no_stale_alpha s := by
  by_cases hn : n ≤ 1
  · rw [interpolatex_degenerate a v n fps hn] at hs
    cases hs
    exact tidy_set_valuex _ _ (tidy_stop_interpolation a h)
  · have hi := (interpolatex_run a s v n fps (by omega) hs).1
    exact tidy_of_active s (by simp [hi])

theorem tidy_clamp (a : NbtkAdjustment) (i : Bool) (n fps : Nat)
    (r : NbtkAdjustment × Bool) (h : no_stale_alpha a)
    (hr : nbtk_adjustment_clamp a i n fps = some r) : no_stale_alpha r.1 := by
  rw [clamp_eq] at hr
  split_ifs at hr with h1 h2
  · cases hs : nbtk_adjustment_interpolatex a
        (CLAMP a.value a.lower (wrap32 (a.upper - a.page_size))) n fps with
    | none => rw [hs] at hr; exact absurd hr (by simp)
    | some s =>
      rw [hs] at hr
      simp only [Option.map_some', Option.some.injEq] at hr
      subst hr
      exact tidy_interpolatex _ _ _ _ _ h hs
  · cases hr
    exact tidy_set_valuex _ _ h
  · cases hr
    exact h

theorem tidy_step (a s : NbtkAdjustment) (op : Op) (h : no_stale_alpha a)
    (hs : step a op = some s) : no_stale_alpha s := by
  cases op with
  | set_valuex v => cases hs; exact tidy_set_valuex _ _ h
  | set_value v => cases hs; exact tidy_set_valuex _ _ h
  | set_lower x => cases hs; exact tidy_set_lower _ _ h
  | set_upper x => cases hs; exact tidy_set_upper _ _ h
  | set_step_increment x => cases hs; exact tidy_set_step_increment _ _ h
  | set_page_increment x => cases hs; exact tidy_set_page_increment _ _ h
  | set_page_size x => cases hs; exact tidy_set_page_size _ _ h
  | set_elastic e => cases hs; exact h
  | set_valuesx v l u st pg ps => cases hs; exact tidy_set_valuesx _ _ _ _ _ _ _ h
  | set_values v l u st pg ps => cases hs; exact tidy_set_valuesx _ _ _ _ _ _ _ h
  | clamp_pagex l u => cases hs; exact tidy_clamp_pagex _ _ _ h
  | clamp_page l u => cases hs; exact tidy_clamp_pagex _ _ _ h
  | interpolatex v n fps => exact tidy_interpolatex _ _ _ _ _ h hs
  | interpolate v n fps => exact tidy_interpolatex _ _ _ _ _ h hs
  | clamp i n fps =>
    simp only [step] at hs
    cases hr : nbtk_adjustment_clamp a i n fps with
    | none => rw [hr] at hs; exact absurd hs (by simp)
    | some r =>
      rw [hr] at hs
      simp only [Option.map_some', Option.some.injEq] at hs
      subst hs
      exact tidy_clamp _ _ _ _ _ h hr
  | new_frame f =>
    simp only [step, clutter_timeline_new_frame, Option.some.injEq] at hs
    subst hs
    split_ifs
    · exact tidy_of_active _ (by simp)
    · exact h
  | completed =>
    simp only [step, clutter_timeline_completed, Option.some.injEq] at hs
    subst hs
    split_ifs
    · exact tidy_set_valuex _ _ (tidy_stop_interpolation a h)
    · exact h

theorem tidy_exec (ops : List Op) (a s : NbtkAdjustment) (h : no_stale_alpha a)
    (hs : exec a ops = some s) : no_stale_alpha s := by
  induction ops generalizing a with
  | nil => cases hs; exact h
  | cons op ops ih =>
    simp only [exec] at hs
    cases h1 : step a op with
    | none => rw [h1] at hs; exact absurd hs (by simp)
    | some a1 =>
      rw [h1] at hs
      simp only [Option.some_bind] at hs
      exact ih a1 (tidy_step a a1 op h h1) hs

theorem tidy_new (v l u st pg ps : gdouble) :
    no_stale_alpha (nbtk_adjustment_new v l u st pg ps) := by
  obtain ⟨es, h⟩ := new_eq_constructed v l u st pg ps
  rw [h]
  unfold nbtk_adjustment_constructed
  exact tidy_clamp_pagex _ _ _ (fun _ => rfl)

theorem tidy_newx (v l u st pg ps : Int) :
    no_stale_alpha (nbtk_adjustment_newx v l u st pg ps) := by
  have h := tidy_new 0 0 0 0 0 0
  unfold nbtk_adjustment_new at h
  unfold nbtk_adjustment_newx
  exact h

theorem new_frame_cb_linear (t : ClutterTimeline) (k : Int) (r : gdouble) (a : NbtkAdjustment)
    (he : a.elastic = false) :
    interpolation_new_frame_cb t k r a =
      { nbtk_adjustment_set_valuex { a with interpolation := none }
          (wrap32 (a.old_position + clutter_qmulx (CLUTTER_INT_TO_FIXED k) a.dx)) with
        interpolation := some t } := by
  unfold interpolation_new_frame_cb
  simp only [he, Bool.false_eq_true, if_false]

theorem qmulx_int_exact (k dx : Int) (hk1 : -32768 ≤ k) (hk2 : k < 32768)
    (hp1 : -2147483648 ≤ k * dx) (hp2 : k * dx < 2147483648) :
    clutter_qmulx (CLUTTER_INT_TO_FIXED k) dx = k * dx := by
  unfold clutter_qmulx CLUTTER_INT_TO_FIXED wrap32
  have h1 : (k * 65536 + 2147483648) % 4294967296 - 2147483648 = k * 65536 := by omega
  rw [h1]
  have h2 : k * 65536 * dx = k * dx * 65536 := by ring
  rw [h2, Int.mul_ediv_cancel _ (by norm_num : (65536 : Int) ≠ 0)]
  omega

theorem interpolatex_dx (a s : NbtkAdjustment) (target : Int) (n fps : Nat) (hn : 1 < n)
    (h : nbtk_adjustment_interpolatex a target n fps = some s) :
    clutter_qdivx (wrap32 (target - a.value)) (CLUTTER_INT_TO_FIXED n) = some s.dx ∧
    s.bounce_alpha =
      (if a.elastic then some (ClutterAlpha.mk (ClutterTimeline.mk n fps))
       else (stop_interpolation a).bounce_alpha) := by
  rw [interpolatex_eq a target n fps hn] at h
  have hv : (stop_interpolation a).value = a.value := by simp
  rw [hv] at h
  generalize clutter_qdivx (wrap32 (target - a.value)) (CLUTTER_INT_TO_FIXED n) = q0 at h ⊢
  cases q0 with
  | none => exact absurd h (by simp)
  | some q =>
    simp only [Option.map_some', Option.some.injEq] at h
    subst h
    simp

theorem new_frame_cb_observed_interpolation (observer : NbtkAdjustment → NbtkAdjustment)
    (t : ClutterTimeline) (k : Int) (r : gdouble) (a : NbtkAdjustment) :
    (interpolation_new_frame_cb_observed observer t k r a).interpolation = some t := by
  unfold interpolation_new_frame_cb_observed
  simp

theorem set_valuex_observed_id (a : NbtkAdjustment) (v : Int) :
    nbtk_adjustment_set_valuex_observed id a v = nbtk_adjustment_set_valuex a v := rfl

theorem new_frame_cb_observed_id (t : ClutterTimeline) (k : Int) (r : gdouble)
    (a : NbtkAdjustment) :
    interpolation_new_frame_cb_observed id t k r a = interpolation_new_frame_cb t k r a := rfl

/-! ## Settled claims -/

/-- C1, refuted as stated: three reachable states with construction complete and `elastic`
false violate `lower ≤ value ≤ max (lower, upper - page_size)`: the one returned by
`nbtk_adjustment_newx` with value 200 in the range 0 to 100 (the fields are written after the
clamp pass); the scenario after elastic is switched on, 200 is stored and elastic is switched
off again; and the scenario after `lower` is raised to 200, above `upper` (the value is
left at 90, below the new lower bound). -/
theorem non_elastic_invariant_fails :
    ((nbtk_adjustment_newx (CLUTTER_INT_TO_FIXED 200) 0 (CLUTTER_INT_TO_FIXED 100)
        (CLUTTER_INT_TO_FIXED 1) (CLUTTER_INT_TO_FIXED 10) (CLUTTER_INT_TO_FIXED 10)).elastic
        = false ∧
      (nbtk_adjustment_newx (CLUTTER_INT_TO_FIXED 200) 0 (CLUTTER_INT_TO_FIXED 100)
        (CLUTTER_INT_TO_FIXED 1) (CLUTTER_INT_TO_FIXED 10)
        (CLUTTER_INT_TO_FIXED 10)).is_constructing = false ∧
      (nbtk_adjustment_newx (CLUTTER_INT_TO_FIXED 200) 0 (CLUTTER_INT_TO_FIXED 100)
        (CLUTTER_INT_TO_FIXED 1) (CLUTTER_INT_TO_FIXED 10) (CLUTTER_INT_TO_FIXED 10)).value
        = CLUTTER_INT_TO_FIXED 200 ∧
      MAX 0 (CLUTTER_INT_TO_FIXED 100 - CLUTTER_INT_TO_FIXED 10) = CLUTTER_INT_TO_FIXED 90 ∧
      ¬ (CLUTTER_INT_TO_FIXED 200 ≤ CLUTTER_INT_TO_FIXED 90)) ∧
    (exec scenario [Op.set_elastic true, Op.set_value 200, Op.set_elastic false]).map
        (fun s => (s.elastic, s.is_constructing, s.value,
          decide (s.lower ≤ s.value ∧ s.value ≤ MAX s.lower (s.upper - s.page_size))))
      = some (false, false, CLUTTER_INT_TO_FIXED 200, false) ∧
    (exec scenario [Op.set_lower 200]).map
        (fun s => (s.elastic, s.is_constructing, s.lower, s.value,
          decide (s.lower ≤ s.value ∧ s.value ≤ MAX s.lower (s.upper - s.page_size))))
      = some (false, false, CLUTTER_INT_TO_FIXED 200, CLUTTER_INT_TO_FIXED 90, false) := by
  refine ⟨⟨?_, ?_, ?_, ?_, ?_⟩, ?_, ?_⟩ <;> decide

/-- C1, amended: in every state reached from the property constructor `nbtk_adjustment_new`
by any sequence of the public operations and clock signals that never switches elastic on,
provided the initial value and every bound and page size handed in lie within 8192 units of
zero (so that no sum or difference the code takes leaves the 32-bit range), construction is
complete, elastic is false and the stored value lies between `min (lower, upper - page_size)`
and `max (lower, upper - page_size)`; in particular `lower ≤ value ≤ upper - page_size`
whenever `lower + page_size ≤ upper`. -/
theorem non_elastic_window_invariant (v l u st pg ps : gdouble) (ops : List Op)
    (s : NbtkAdjustment) (hops : Op.set_elastic true ∉ ops)
    (hv : in_band (CLUTTER_FLOAT_TO_FIXED v)) (hl : in_band (CLUTTER_FLOAT_TO_FIXED l))
    (hu : in_band (CLUTTER_FLOAT_TO_FIXED u)) (hp : in_band (CLUTTER_FLOAT_TO_FIXED ps))
    (hb : ∀ op ∈ ops, banded_op op)
    (hs : exec (nbtk_adjustment_new v l u st pg ps) ops = some s) :
    s.is_constructing = false ∧ s.elastic = false ∧
    MIN s.lower (s.upper - s.page_size) ≤ s.value ∧
    s.value ≤ MAX s.lower (s.upper - s.page_size) ∧
    (s.lower + s.page_size ≤ s.upper →
      s.lower ≤ s.value ∧ s.value ≤ s.upper - s.page_size) := by
  obtain ⟨hc, he, -, -, -, h1, h2⟩ :=
    settled_exec ops _ s (settled_new v l u st pg ps hv hl hu hp) hops hb hs
  refine ⟨hc, he, h1, h2, ?_⟩
  intro hwf
  unfold MIN at h1
  unfold MAX at h2
  constructor
  · split_ifs at h1 <;> omega
  · split_ifs at h2 <;> omega

/-- C1, amended, at a concrete input: the scenario after lowering `upper` to 60, starting a
run towards 95, one frame, the completion of the run and a direct `set_value (-4)`. -/
theorem non_elastic_window_invariant_witness :
    ∃ s, exec (nbtk_adjustment_new 50 0 100 1 10 10)
        [Op.set_upper 60, Op.interpolate 95 10 30,
         Op.new_frame (Frame.mk (ClutterTimeline.mk 10 30) 3 0), Op.completed,
         Op.set_value (-4)] = some s ∧
      s.is_constructing = false ∧ s.elastic = false ∧
      MIN s.lower (s.upper - s.page_size) ≤ s.value ∧
      s.value ≤ MAX s.lower (s.upper - s.page_size) := by
  have hsome : (exec (nbtk_adjustment_new 50 0 100 1 10 10)
        [Op.set_upper 60, Op.interpolate 95 10 30,
         Op.new_frame (Frame.mk (ClutterTimeline.mk 10 30) 3 0), Op.completed,
         Op.set_value (-4)]).isSome = true := by decide
  obtain ⟨s, hs⟩ := Option.isSome_iff_exists.mp hsome
  have hb : ∀ op ∈ [Op.set_upper 60, Op.interpolate 95 10 30,
      Op.new_frame (Frame.mk (ClutterTimeline.mk 10 30) 3 0), Op.completed,
      Op.set_value (-4)], banded_op op := by
    intro op hop
    simp only [List.mem_cons, List.mem_singleton, List.not_mem_nil, or_false] at hop
    rcases hop with rfl | rfl | rfl | rfl | rfl
    · show in_band (CLUTTER_FLOAT_TO_FIXED 60)
      decide
    · trivial
    · trivial
    · trivial
    · trivial
  have key := non_elastic_window_invariant 50 0 100 1 10 10 _ s (by simp) (by decide)
    (by decide) (by decide) (by decide) hb hs
  exact ⟨s, hs, key.1, key.2.1, key.2.2.1, key.2.2.2.1⟩

/-- C2, refuted as stated: on the constructed, non-elastic adjustment with lower -32000,
upper -30000 and page size 10000, `nbtk_adjustment_set_valuex` with 0 stores 0, while 0
clamped into `[lower, max (lower, upper - page_size)]` is `lower`: the code takes
`upper - page_size` in 32 bits, where -40000 is not representable. -/
theorem set_valuex_clamp_overflows :
    oversized_page_low.is_constructing = false ∧ oversized_page_low.elastic = false ∧
    (nbtk_adjustment_set_valuex oversized_page_low 0).value = 0 ∧
    CLAMP 0 oversized_page_low.lower
      (MAX oversized_page_low.lower
        (oversized_page_low.upper - oversized_page_low.page_size))
      = CLUTTER_INT_TO_FIXED (-32000) ∧
    CLUTTER_INT_TO_FIXED (-32000) ≠ 0 := by
  refine ⟨?_, ?_, ?_, ?_, ?_⟩ <;> decide

/-- C2, amended: after `nbtk_adjustment_set_valuex` no run is active; the stored value is the
new value itself when the adjustment is elastic or still constructing, and otherwise the new
value clamped into `[lower, max (lower, upper - page_size)]` with the difference taken in 32
bits, which is the exact difference whenever that fits the 32-bit range; no range field (nor
a flag) changes. -/
theorem set_valuex_postcondition (a : NbtkAdjustment) (new_value : Int) :
    (nbtk_adjustment_set_valuex a new_value).interpolation = none ∧
    (nbtk_adjustment_set_valuex a new_value).value =
      (if a.is_constructing = false ∧ a.elastic = false
       then CLAMP new_value a.lower (MAX a.lower (wrap32 (a.upper - a.page_size)))
       else new_value) ∧
    (fits32 (a.upper - a.page_size) →
      (nbtk_adjustment_set_valuex a new_value).value =
        (if a.is_constructing = false ∧ a.elastic = false
         then CLAMP new_value a.lower (MAX a.lower (a.upper - a.page_size))
         else new_value)) ∧
    (nbtk_adjustment_set_valuex a new_value).lower = a.lower ∧
    (nbtk_adjustment_set_valuex a new_value).upper = a.upper ∧
    (nbtk_adjustment_set_valuex a new_value).page_size = a.page_size ∧
    (nbtk_adjustment_set_valuex a new_value).step_increment = a.step_increment ∧
    (nbtk_adjustment_set_valuex a new_value).page_increment = a.page_increment ∧
    (nbtk_adjustment_set_valuex a new_value).elastic = a.elastic ∧
    (nbtk_adjustment_set_valuex a new_value).is_constructing = a.is_constructing := by
  have hval : (nbtk_adjustment_set_valuex a new_value).value =
      (if a.is_constructing = false ∧ a.elastic = false
       then CLAMP new_value a.lower (MAX a.lower (wrap32 (a.upper - a.page_size)))
       else new_value) := by
    rw [set_valuex_value]
    cases a.is_constructing <;> cases a.elastic <;> simp
  refine ⟨by simp, hval, ?_, by simp, by simp, by simp, by simp, by simp, by simp, by simp⟩
  intro hfit
  rw [hval, wrap32_of_fits _ hfit]

/-- C2, amended, at a concrete input: in the scenario of the specification, asking for 95
stores 90 and asking for -4 stores 0. -/
theorem set_valuex_postcondition_witness :
    (nbtk_adjustment_set_valuex scenario (CLUTTER_INT_TO_FIXED 95)).value
      = CLUTTER_INT_TO_FIXED 90 ∧
    (nbtk_adjustment_set_valuex scenario (CLUTTER_INT_TO_FIXED (-4))).value = 0 :=
  ⟨((set_valuex_postcondition scenario (CLUTTER_INT_TO_FIXED 95)).2.2.1
      (by decide)).trans (by decide),
   ((set_valuex_postcondition scenario (CLUTTER_INT_TO_FIXED (-4))).2.2.1
      (by decide)).trans (by decide)⟩

/-- C3, refuted as stated: on the constructed adjustment with value 25000 in the range 0 to
30000 and page size 10000, `nbtk_adjustment_clamp_pagex (0, 30000)` leaves the value at
25000, while the specified algorithm gives 20000: the code takes `value + page_size` in 32
bits, where 35000 is not representable, so the test against the upper end fails. -/
theorem clamp_pagex_sum_overflows :
    (wide_page.lower, wide_page.upper, wide_page.page_size, wide_page.value)
      = (0, CLUTTER_INT_TO_FIXED 30000, CLUTTER_INT_TO_FIXED 10000,
         CLUTTER_INT_TO_FIXED 25000) ∧
    (nbtk_adjustment_clamp_pagex wide_page 0 (CLUTTER_INT_TO_FIXED 30000)).value
      = CLUTTER_INT_TO_FIXED 25000 ∧
    clamp_page_spec wide_page.lower wide_page.upper wide_page.page_size wide_page.value 0
      (CLUTTER_INT_TO_FIXED 30000) = CLUTTER_INT_TO_FIXED 20000 ∧
    CLUTTER_INT_TO_FIXED 25000 ≠ CLUTTER_INT_TO_FIXED 20000 := by
  refine ⟨?_, ?_, ?_, ?_⟩ <;> decide

/-- C3, amended: `nbtk_adjustment_clamp_pagex` cancels the run, leaves lower, upper, page
size, both increments and the elastic flag unchanged, and stores the value of the specified
algorithm with every sum and difference taken in 32 bits (`clamp_pagex_result`), which is
the value of the specified algorithm (`clamp_page_spec`) whenever `lower`,
`upper - page_size`, `lower + page_size` and `value + page_size` fit the 32-bit range; two
adjustments that agree on lower, upper, page size and value get the same resulting value,
whatever their flags and runs. -/
theorem clamp_pagex_postcondition (a b : NbtkAdjustment)
    (requested_lower requested_upper : Int) :
    (nbtk_adjustment_clamp_pagex a requested_lower requested_upper).interpolation = none ∧
    (nbtk_adjustment_clamp_pagex a requested_lower requested_upper).lower = a.lower ∧
    (nbtk_adjustment_clamp_pagex a requested_lower requested_upper).upper = a.upper ∧
    (nbtk_adjustment_clamp_pagex a requested_lower requested_upper).page_size = a.page_size ∧
    (nbtk_adjustment_clamp_pagex a requested_lower requested_upper).step_increment
      = a.step_increment ∧
    (nbtk_adjustment_clamp_pagex a requested_lower requested_upper).page_increment
      = a.page_increment ∧
    (nbtk_adjustment_clamp_pagex a requested_lower requested_upper).elastic = a.elastic ∧
    (nbtk_adjustment_clamp_pagex a requested_lower requested_upper).value =
      clamp_pagex_result a.lower a.upper a.page_size a.value requested_lower
        requested_upper ∧
    (page_sums_fit a.lower a.upper a.page_size a.value →
      (nbtk_adjustment_clamp_pagex a requested_lower requested_upper).value =
        clamp_page_spec a.lower a.upper a.page_size a.value requested_lower
          requested_upper) ∧
    (a.lower = b.lower → a.upper = b.upper → a.page_size = b.page_size → a.value = b.value →
      (nbtk_adjustment_clamp_pagex a requested_lower requested_upper).value =
        (nbtk_adjustment_clamp_pagex b requested_lower requested_upper).value) := by
  refine ⟨by simp, by simp, by simp, by simp, by simp, by simp, by simp,
    clamp_pagex_value a _ _, clamp_pagex_value_of_fit a _ _, ?_⟩
  intro h1 h2 h3 h4
  rw [clamp_pagex_value, clamp_pagex_value, h1, h2, h3, h4]

/-- C3, amended, at a concrete input: a plain adjustment and an elastic one that is still
constructing and has a run in progress, both holding 95 in the range 0 to 100 with page size
10, are both clamped to 90, the value of the specified algorithm. -/
theorem clamp_pagex_postcondition_witness :
    (nbtk_adjustment_clamp_pagex raw_95 0 (CLUTTER_INT_TO_FIXED 100)).value =
      (nbtk_adjustment_clamp_pagex raw_95_busy 0 (CLUTTER_INT_TO_FIXED 100)).value ∧
    (nbtk_adjustment_clamp_pagex raw_95 0 (CLUTTER_INT_TO_FIXED 100)).value
      = CLUTTER_INT_TO_FIXED 90 :=
  ⟨(clamp_pagex_postcondition raw_95 raw_95_busy 0
      (CLUTTER_INT_TO_FIXED 100)).2.2.2.2.2.2.2.2.2
      (by decide) (by decide) (by decide) (by decide),
   ((clamp_pagex_postcondition raw_95 raw_95_busy 0
      (CLUTTER_INT_TO_FIXED 100)).2.2.2.2.2.2.2.2.1 (by decide)).trans (by decide)⟩

/-- C4, refuted as stated: in the scenario of the specification, during the run towards 95
the stored position is 50 before any frame and 63.5 after frame 3, while
`nbtk_adjustment_get_valuex` returns 90 both times, not the clamped stored position. -/
theorem get_valuex_is_not_clamped_position :
    (nbtk_adjustment_interpolatex scenario (CLUTTER_INT_TO_FIXED 95) 10 30).map
        (fun s => (s.interpolation.isSome, s.value, nbtk_adjustment_get_valuex s,
                   CLAMP s.value s.lower (s.upper - s.page_size)))
      = some (true, 3276800, 5898240, 3276800) ∧
    (nbtk_adjustment_interpolatex scenario (CLUTTER_INT_TO_FIXED 95) 10 30).map
        (fun s =>
          let s1 := interpolation_new_frame_cb (ClutterTimeline.mk 10 30) 3 0 s
          (s1.interpolation.isSome, s1.value, nbtk_adjustment_get_valuex s1,
           CLAMP s1.value s1.lower (s1.upper - s1.page_size)))
      = some (true, 4161536, 5898240, 4161536) := by
  constructor <;> decide

/-- C4, amended: while a run is active `nbtk_adjustment_get_valuex` returns
`max (lower, min (upper - page_size, new_position))`, provided `upper - page_size` fits the
32-bit range; for a run started by `nbtk_adjustment_interpolatex` with more than one frame
and advanced by any frames, `new_position` is the target of the run, so the returned value
is the target clamped, and it is `CLAMP (target, lower, upper - page_size)` when
`lower ≤ upper - page_size`. -/
theorem get_valuex_during_run (a s : NbtkAdjustment) (target : Int) (n fps : Nat)
    (frames : List Frame) (hn : 1 < n) (hfit : fits32 (a.upper - a.page_size))
    (h : nbtk_adjustment_interpolatex a target n fps = some s) :
    (deliver_frames s frames).interpolation ≠ none ∧
    nbtk_adjustment_get_valuex (deliver_frames s frames) =
      MAX (deliver_frames s frames).lower
        (MIN ((deliver_frames s frames).upper - (deliver_frames s frames).page_size)
          (deliver_frames s frames).new_position) ∧
    (deliver_frames s frames).new_position = target ∧
    nbtk_adjustment_get_valuex (deliver_frames s frames) =
      MAX a.lower (MIN (a.upper - a.page_size) target) ∧
    (a.lower ≤ a.upper - a.page_size →
      nbtk_adjustment_get_valuex (deliver_frames s frames) =
        CLAMP target a.lower (a.upper - a.page_size)) := by
  obtain ⟨hi, hnew, -, -, hl, hu, hp, -⟩ := interpolatex_run a s target n fps hn h
  have hw := wrap32_of_fits _ hfit
  have hact : (deliver_frames s frames).interpolation ≠ none :=
    deliver_frames_active s frames (by simp [hi])
  have hget : nbtk_adjustment_get_valuex (deliver_frames s frames) =
      MAX a.lower (MIN (a.upper - a.page_size) target) := by
    rw [get_valuex_of_active _ hact]
    simp only [deliver_frames_lower, deliver_frames_upper, deliver_frames_page_size,
      deliver_frames_new_position, hnew, hl, hu, hp, hw]
  refine ⟨hact, ?_, by simp [hnew], hget, ?_⟩
  · rw [hget]; simp [hnew, hl, hu, hp]
  · intro hwf
    rw [hget]
    unfold MAX MIN CLAMP
    split_ifs <;> omega

/-- C4, amended, at a concrete input: the scenario of the specification after two frames. -/
theorem get_valuex_during_run_witness :
    ∃ s, nbtk_adjustment_interpolatex scenario (CLUTTER_INT_TO_FIXED 95) 10 30 = some s ∧
      nbtk_adjustment_get_valuex
        (deliver_frames s [Frame.mk (ClutterTimeline.mk 10 30) 0 0,
                           Frame.mk (ClutterTimeline.mk 10 30) 1 0]) =
        MAX scenario.lower (MIN (scenario.upper - scenario.page_size)
          (CLUTTER_INT_TO_FIXED 95)) :=
  (interpolatex_returns scenario (CLUTTER_INT_TO_FIXED 95) 10 30 (by decide) (by decide)).elim
    (fun s h => ⟨s, h, (get_valuex_during_run scenario s (CLUTTER_INT_TO_FIXED 95) 10 30
      [Frame.mk (ClutterTimeline.mk 10 30) 0 0, Frame.mk (ClutterTimeline.mk 10 30) 1 0]
      (by decide) (by decide) h).2.2.2.1⟩)

/-- C5, refuted as stated: with lower 0, upper 5 and page size 10, a run towards 3 is active
and `nbtk_adjustment_get_valuex` returns 0, which is above `upper - page_size = -5`. -/
theorem get_valuex_above_upper_minus_page :
    (nbtk_adjustment_interpolatex oversized_page (CLUTTER_INT_TO_FIXED 3) 10 30).map
        (fun s => (s.interpolation.isSome, nbtk_adjustment_get_valuex s,
                   s.upper - s.page_size))
      = some (true, 0, -327680) ∧ ¬ ((0 : Int) ≤ -327680) := by
  constructor <;> decide

/-- C5, amended: while a run is active, the value returned by `nbtk_adjustment_get_valuex`
is at least `lower`; provided `upper - page_size` fits the 32-bit range it is at most
`max (lower, upper - page_size)`, hence at most `upper - page_size` whenever
`lower ≤ upper - page_size`. -/
theorem get_valuex_clamp_safe (a : NbtkAdjustment) (h : a.interpolation ≠ none) :
    a.lower ≤ nbtk_adjustment_get_valuex a ∧
    (fits32 (a.upper - a.page_size) →
      nbtk_adjustment_get_valuex a ≤ MAX a.lower (a.upper - a.page_size) ∧
      (a.lower ≤ a.upper - a.page_size →
        nbtk_adjustment_get_valuex a ≤ a.upper - a.page_size)) := by
  rw [get_valuex_of_active a h]
  constructor
  · unfold MAX
    split_ifs <;> omega
  · intro hfit
    rw [wrap32_of_fits _ hfit]
    unfold MAX MIN
    refine ⟨?_, ?_⟩ <;> split_ifs <;> omega

/-- C5, amended, at a concrete input: the elastic adjustment `raw_95_busy`, whose run has
target 20. -/
theorem get_valuex_clamp_safe_witness :
    raw_95_busy.lower ≤ nbtk_adjustment_get_valuex raw_95_busy ∧
    nbtk_adjustment_get_valuex raw_95_busy
      ≤ MAX raw_95_busy.lower (raw_95_busy.upper - raw_95_busy.page_size) ∧
    (raw_95_busy.lower ≤ raw_95_busy.upper - raw_95_busy.page_size →
      nbtk_adjustment_get_valuex raw_95_busy ≤ raw_95_busy.upper - raw_95_busy.page_size) :=
  ⟨(get_valuex_clamp_safe raw_95_busy (by decide)).1,
   (get_valuex_clamp_safe raw_95_busy (by decide)).2 (by decide)⟩

/-- C6, refuted as stated: in the scenario of the specification (not elastic), the run
towards 95 over 10 frames, once completed, leaves the effective value at 90, not at the
target 95. -/
theorem landing_misses_target :
    (nbtk_adjustment_interpolatex scenario (CLUTTER_INT_TO_FIXED 95) 10 30).map
        (fun s => nbtk_adjustment_get_valuex (interpolation_completed_cb s))
      = some (CLUTTER_INT_TO_FIXED 90) ∧
    CLUTTER_INT_TO_FIXED 90 ≠ CLUTTER_INT_TO_FIXED 95 := by
  constructor <;> decide

/-- C6, amended: for a run that `nbtk_adjustment_interpolatex` creates with more than one
frame (it does whenever the fixed-point frame count is not zero), after any frames and the
completed handler no run is active and the effective value is the stored value, which is the
target itself when the adjustment is elastic or still constructing, and otherwise, provided
`upper - page_size` fits the 32-bit range, the target clamped into
`[lower, max (lower, upper - page_size)]`; so the landing is exact whenever the target lies
in that window. -/
theorem interpolation_landing (a s : NbtkAdjustment) (target : Int) (n fps : Nat)
    (frames : List Frame) (hn : 1 < n)
    (h : nbtk_adjustment_interpolatex a target n fps = some s) :
    (interpolation_completed_cb (deliver_frames s frames)).interpolation = none ∧
    nbtk_adjustment_get_valuex (interpolation_completed_cb (deliver_frames s frames)) =
      (interpolation_completed_cb (deliver_frames s frames)).value ∧
    (a.is_constructing = true ∨ a.elastic = true →
      nbtk_adjustment_get_valuex (interpolation_completed_cb (deliver_frames s frames))
        = target) ∧
    (fits32 (a.upper - a.page_size) →
      nbtk_adjustment_get_valuex (interpolation_completed_cb (deliver_frames s frames)) =
        (if a.is_constructing = false ∧ a.elastic = false
         then CLAMP target a.lower (MAX a.lower (a.upper - a.page_size))
         else target) ∧
      (a.lower ≤ target ∧ target ≤ MAX a.lower (a.upper - a.page_size) →
        nbtk_adjustment_get_valuex (interpolation_completed_cb (deliver_frames s frames))
          = target)) ∧
    (CLUTTER_INT_TO_FIXED n ≠ 0 → ∃ s1, nbtk_adjustment_interpolatex a target n fps = some s1) := by
  obtain ⟨-, hnew, -, -, hl, hu, hp, -, -, he, hc, -⟩ := interpolatex_run a s target n fps hn h
  have hidle := completed_cb_interpolation (deliver_frames s frames)
  have hget := get_valuex_of_idle _ hidle
  have hval : (interpolation_completed_cb (deliver_frames s frames)).value =
      (if a.is_constructing = false ∧ a.elastic = false
       then CLAMP target a.lower (MAX a.lower (wrap32 (a.upper - a.page_size)))
       else target) := by
    rw [completed_cb_value]
    simp only [deliver_frames_is_constructing, deliver_frames_elastic,
      deliver_frames_new_position, deliver_frames_lower, deliver_frames_upper,
      deliver_frames_page_size, hnew, hl, hu, hp, he, hc]
    cases a.is_constructing <;> cases a.elastic <;> simp
  refine ⟨hidle, hget, ?_, ?_, interpolatex_returns a target n fps hn⟩
  · intro hcase
    rw [hget, hval]
    rcases hcase with hc1 | he1
    · simp [hc1]
    · simp [he1]
  · intro hfit
    rw [hget, hval, wrap32_of_fits _ hfit]
    refine ⟨rfl, ?_⟩
    intro hmem
    split_ifs
    · exact CLAMP_of_mem _ _ _ hmem.1 hmem.2
    · rfl

/-- C6, amended, at a concrete input: the scenario of the specification with the target 70,
inside the window, lands on 70 exactly. -/
theorem interpolation_landing_witness :
    ∃ s, nbtk_adjustment_interpolatex scenario (CLUTTER_INT_TO_FIXED 70) 10 30 = some s ∧
      nbtk_adjustment_get_valuex (interpolation_completed_cb
        (deliver_frames s [Frame.mk (ClutterTimeline.mk 10 30) 0 0])) = CLUTTER_INT_TO_FIXED 70 :=
  (interpolatex_returns scenario (CLUTTER_INT_TO_FIXED 70) 10 30 (by decide) (by decide)).elim
    (fun s h => ⟨s, h, ((interpolation_landing scenario s (CLUTTER_INT_TO_FIXED 70) 10 30
      [Frame.mk (ClutterTimeline.mk 10 30) 0 0] (by decide) h).2.2.2.1 (by decide)).2
        (by decide)⟩)

/-- C7, refuted as stated: on the constructed, non-elastic adjustment with lower -32000,
upper -30000 and page size 10000, during a run towards 0 over 10 frames and after its
completion `nbtk_adjustment_get_valuex` returns 0, while 0 clamped into
`[lower, max (lower, upper - page_size)]` is `lower`: the code takes `upper - page_size` in
32 bits, where -40000 is not representable. -/
theorem effective_value_overflows :
    oversized_page_low.is_constructing = false ∧ oversized_page_low.elastic = false ∧
    (nbtk_adjustment_interpolatex oversized_page_low 0 10 30).map
      (fun s => (nbtk_adjustment_get_valuex s,
        nbtk_adjustment_get_valuex (interpolation_completed_cb s))) = some (0, 0) ∧
    CLAMP 0 oversized_page_low.lower
      (MAX oversized_page_low.lower
        (oversized_page_low.upper - oversized_page_low.page_size))
      = CLUTTER_INT_TO_FIXED (-32000) ∧
    CLUTTER_INT_TO_FIXED (-32000) ≠ 0 := by
  refine ⟨?_, ?_, ?_, ?_, ?_⟩ <;> decide

/-- C7, amended: for a constructed, non-elastic adjustment whose `upper - page_size` fits the
32-bit range and a run of more than one frame, from the return of
`nbtk_adjustment_interpolatex`, after every frame and after the completed handler,
`nbtk_adjustment_get_valuex` returns `CLAMP (target, lower, max (lower, upper - page_size))`,
which is also the value stored on completion.  The call returns whenever the fixed-point
frame count is not zero. -/
theorem effective_value_fixed_during_run (a : NbtkAdjustment) (target : Int) (n fps : Nat)
    (hc : a.is_constructing = false) (he : a.elastic = false) (hn : 1 < n)
    (hfit : fits32 (a.upper - a.page_size)) :
    (CLUTTER_INT_TO_FIXED n ≠ 0 →
      ∃ s, nbtk_adjustment_interpolatex a target n fps = some s) ∧
    ∀ s, nbtk_adjustment_interpolatex a target n fps = some s →
      nbtk_adjustment_get_valuex s
        = CLAMP target a.lower (MAX a.lower (a.upper - a.page_size)) ∧
      ∀ frames : List Frame,
        (deliver_frames s frames).lower = a.lower ∧
        (deliver_frames s frames).upper = a.upper ∧
        (deliver_frames s frames).page_size = a.page_size ∧
        nbtk_adjustment_get_valuex (deliver_frames s frames)
          = CLAMP target a.lower (MAX a.lower (a.upper - a.page_size)) ∧
        nbtk_adjustment_get_valuex (interpolation_completed_cb (deliver_frames s frames))
          = CLAMP target a.lower (MAX a.lower (a.upper - a.page_size)) ∧
        (interpolation_completed_cb (deliver_frames s frames)).value
          = CLAMP target a.lower (MAX a.lower (a.upper - a.page_size)) := by
  have hw := wrap32_of_fits _ hfit
  refine ⟨interpolatex_returns a target n fps hn, ?_⟩
  intro s h
  obtain ⟨hi, hnew, -, -, hl, hu, hp, -, -, he1, hc1, -⟩ := interpolatex_run a s target n fps hn h
  have hrun : ∀ frames : List Frame, nbtk_adjustment_get_valuex (deliver_frames s frames)
      = CLAMP target a.lower (MAX a.lower (a.upper - a.page_size)) := by
    intro frames
    rw [get_valuex_of_active _ (deliver_frames_active s frames (by simp [hi]))]
    simp only [deliver_frames_lower, deliver_frames_upper, deliver_frames_page_size,
      deliver_frames_new_position, hnew, hl, hu, hp, hw]
    exact MAX_MIN_eq_CLAMP _ _ _
  refine ⟨hrun [], ?_⟩
  intro frames
  have hval : (interpolation_completed_cb (deliver_frames s frames)).value
      = CLAMP target a.lower (MAX a.lower (a.upper - a.page_size)) := by
    rw [completed_cb_value]
    simp [hnew, hl, hu, hp, he1, hc1, he, hc, hw]
  refine ⟨by simp [hl], by simp [hu], by simp [hp], hrun frames, ?_, hval⟩
  rw [get_valuex_of_idle _ (completed_cb_interpolation _), hval]

/-- C7, amended, at the input of the specification: lower 0, upper 100, page size 10, value
50 and a run towards 95 over 10 frames report 90 on return, after three frames and on
completion. -/
theorem effective_value_fixed_during_run_witness :
    ∃ s, nbtk_adjustment_interpolatex scenario (CLUTTER_INT_TO_FIXED 95) 10 30 = some s ∧
      nbtk_adjustment_get_valuex s = CLUTTER_INT_TO_FIXED 90 ∧
      nbtk_adjustment_get_valuex (deliver_frames s
        [Frame.mk (ClutterTimeline.mk 10 30) 0 0, Frame.mk (ClutterTimeline.mk 10 30) 1 0,
         Frame.mk (ClutterTimeline.mk 10 30) 2 0]) = CLUTTER_INT_TO_FIXED 90 ∧
      nbtk_adjustment_get_valuex (interpolation_completed_cb (deliver_frames s
        [Frame.mk (ClutterTimeline.mk 10 30) 0 0, Frame.mk (ClutterTimeline.mk 10 30) 1 0,
         Frame.mk (ClutterTimeline.mk 10 30) 2 0])) = CLUTTER_INT_TO_FIXED 90 :=
  have hc : CLAMP (CLUTTER_INT_TO_FIXED 95) scenario.lower
      (MAX scenario.lower (scenario.upper - scenario.page_size)) = CLUTTER_INT_TO_FIXED 90 := by
    decide
  have key := effective_value_fixed_during_run scenario (CLUTTER_INT_TO_FIXED 95) 10 30
    (by decide) (by decide) (by decide) (by decide)
  (key.1 (by decide)).elim (fun s h =>
    ⟨s, h, ((key.2 s h).1).trans hc, ((key.2 s h).2 _).2.2.2.1.trans hc,
      ((key.2 s h).2 _).2.2.2.2.1.trans hc⟩)

/-- C8, refuted as stated: with lower 0, upper 5, page size 10 and value 0 (constructed, not
elastic), `nbtk_adjustment_clamp` without animation computes `dest = -5`, returns true, and
the stored value afterwards is still 0, not `dest`. -/
theorem clamp_does_not_store_dest :
    (nbtk_adjustment_clamp oversized_page false 10 30).map
        (fun r => (r.2, r.1.value,
                   CLAMP oversized_page.value oversized_page.lower
                     (oversized_page.upper - oversized_page.page_size)))
      = some (true, 0, -327680) ∧
    oversized_page.value = 0 ∧ oversized_page.is_constructing = false ∧
    oversized_page.elastic = false := by
  refine ⟨?_, ?_, ?_, ?_⟩ <;> decide

/-- C8, amended: provided `upper - page_size` fits the 32-bit range, `nbtk_adjustment_clamp`
computes `dest = CLAMP (value, lower, upper - page_size)`.  If `dest = value` it returns false and the adjustment is unchanged.  Otherwise,
without animation it returns true and stores what `nbtk_adjustment_set_valuex` stores for
`dest`: `dest` itself when elastic or constructing, else `dest` clamped into
`[lower, max (lower, upper - page_size)]`, which is `dest` whenever `lower ≤ upper -
page_size`; with animation and more than one frame, whenever the call returns (it does when
the fixed-point frame count is not zero) it returns true, a run with target `dest` is active
and the stored value is untouched. -/
theorem clamp_contract (a : NbtkAdjustment) (interpolate : Bool) (n fps : Nat)
    (hfit : fits32 (a.upper - a.page_size)) :
    (CLAMP a.value a.lower (a.upper - a.page_size) = a.value →
      nbtk_adjustment_clamp a interpolate n fps = some (a, false)) ∧
    (CLAMP a.value a.lower (a.upper - a.page_size) ≠ a.value →
      nbtk_adjustment_clamp a false n fps =
        some (nbtk_adjustment_set_valuex a (CLAMP a.value a.lower (a.upper - a.page_size)),
              true) ∧
      (nbtk_adjustment_set_valuex a (CLAMP a.value a.lower (a.upper - a.page_size))).value =
        (if a.is_constructing = false ∧ a.elastic = false
         then CLAMP (CLAMP a.value a.lower (a.upper - a.page_size)) a.lower
                (MAX a.lower (a.upper - a.page_size))
         else CLAMP a.value a.lower (a.upper - a.page_size)) ∧
      (a.is_constructing = true ∨ a.elastic = true ∨ a.lower ≤ a.upper - a.page_size →
        (nbtk_adjustment_set_valuex a (CLAMP a.value a.lower (a.upper - a.page_size))).value =
          CLAMP a.value a.lower (a.upper - a.page_size))) ∧
    (CLAMP a.value a.lower (a.upper - a.page_size) ≠ a.value → 1 < n →
      (CLUTTER_INT_TO_FIXED n ≠ 0 → ∃ s, nbtk_adjustment_clamp a true n fps = some (s, true)) ∧
      ∀ r, nbtk_adjustment_clamp a true n fps = some r →
        r.2 = true ∧ r.1.interpolation = some (ClutterTimeline.mk n fps) ∧
        r.1.new_position = CLAMP a.value a.lower (a.upper - a.page_size) ∧
        r.1.value = a.value) := by
  have hw := wrap32_of_fits _ hfit
  have hclamp := clamp_eq a
  simp only [hw] at hclamp
  refine ⟨?_, ?_, ?_⟩
  · intro h
    rw [hclamp, if_neg (not_not.mpr h)]
  · intro h
    refine ⟨?_, ?_, ?_⟩
    · rw [hclamp, if_pos h]; rfl
    · rw [set_valuex_value, hw]
      cases a.is_constructing <;> cases a.elastic <;> simp
    · intro hcase
      rw [set_valuex_value, hw]
      rcases hcase with hc | he | hwf
      · simp [hc]
      · simp [he]
      · split_ifs
        · rfl
        · exact CLAMP_CLAMP_of_le _ _ _ hwf
  · intro h hn
    have hc2 : nbtk_adjustment_clamp a true n fps =
        (nbtk_adjustment_interpolatex a (CLAMP a.value a.lower (a.upper - a.page_size))
            n fps).map (fun a1 => (a1, true)) := by
      rw [hclamp, if_pos h]; rfl
    refine ⟨?_, ?_⟩
    · intro hz
      obtain ⟨s, hs⟩ := interpolatex_returns a
        (CLAMP a.value a.lower (a.upper - a.page_size)) n fps hn hz
      exact ⟨s, by rw [hc2, hs]; rfl⟩
    · intro r hr
      rw [hc2] at hr
      cases hs : nbtk_adjustment_interpolatex a
          (CLAMP a.value a.lower (a.upper - a.page_size)) n fps with
      | none => rw [hs] at hr; exact absurd hr (by simp)
      | some s =>
        rw [hs] at hr
        simp only [Option.map_some', Option.some.injEq] at hr
        subst hr
        obtain ⟨hi, hnew, -, hv, -⟩ := interpolatex_run a s _ n fps hn hs
        exact ⟨rfl, hi, hnew, hv⟩

/-- C8, amended, at a concrete input: `raw_95` holds 95 above the window ending at 90; the
plain clamp stores 90. -/
theorem clamp_contract_witness :
    nbtk_adjustment_clamp raw_95 false 10 30 =
      some (nbtk_adjustment_set_valuex raw_95 (CLUTTER_INT_TO_FIXED 90), true) ∧
    (nbtk_adjustment_set_valuex raw_95 (CLUTTER_INT_TO_FIXED 90)).value
      = CLUTTER_INT_TO_FIXED 90 :=
  have hd : CLAMP raw_95.value raw_95.lower (raw_95.upper - raw_95.page_size)
      = CLUTTER_INT_TO_FIXED 90 := by decide
  have key := (clamp_contract raw_95 false 10 30 (by decide)).2.1 (by decide)
  ⟨hd ▸ key.1, hd ▸ key.2.2 (Or.inr (Or.inr (by decide)))⟩

/-- C9, refuted as stated: with lower 0, upper 5, page size 10 (constructed, not elastic),
`nbtk_adjustment_interpolatex` towards 3 with one frame creates no run and leaves the
effective value at 0, while `CLAMP (3, lower, upper - page_size)` is -5. -/
theorem degenerate_transition_not_plain_clamp :
    (nbtk_adjustment_interpolatex oversized_page (CLUTTER_INT_TO_FIXED 3) 1 30).map
        (fun s => (s.interpolation.isSome, nbtk_adjustment_get_valuex s,
                   CLAMP (CLUTTER_INT_TO_FIXED 3) s.lower (s.upper - s.page_size)))
      = some (false, 0, -327680) ∧
    oversized_page.is_constructing = false ∧ oversized_page.elastic = false := by
  refine ⟨?_, ?_, ?_⟩ <;> decide

/-- C9, amended: on a constructed, non-elastic adjustment whose `upper - page_size` fits the
32-bit range, `nbtk_adjustment_interpolatex` with a frame count of 0 or 1 returns, leaves no run (a previous one is cancelled), and the
effective value is `CLAMP (target, lower, max (lower, upper - page_size))`, which is
`CLAMP (target, lower, upper - page_size)` whenever `lower ≤ upper - page_size`. -/
theorem degenerate_transition (a : NbtkAdjustment) (target : Int) (n fps : Nat)
    (hc : a.is_constructing = false) (he : a.elastic = false) (hn : n ≤ 1)
    (hfit : fits32 (a.upper - a.page_size)) :
    ∃ s, nbtk_adjustment_interpolatex a target n fps = some s ∧
      s.interpolation = none ∧
      nbtk_adjustment_get_valuex s
        = CLAMP target a.lower (MAX a.lower (a.upper - a.page_size)) ∧
      (a.lower ≤ a.upper - a.page_size →
        nbtk_adjustment_get_valuex s = CLAMP target a.lower (a.upper - a.page_size)) ∧
      s.lower = a.lower ∧ s.upper = a.upper ∧ s.page_size = a.page_size := by
  refine ⟨_, interpolatex_degenerate a target n fps hn, by simp, ?_, ?_, by simp, by simp,
    by simp⟩
  · rw [get_valuex_of_idle _ (by simp), set_valuex_value]
    simp [hc, he, wrap32_of_fits _ hfit]
  · intro hwf
    rw [get_valuex_of_idle _ (by simp), set_valuex_value]
    simp [hc, he, wrap32_of_fits _ hfit, CLAMP_MAX_of_le _ _ _ hwf]

/-- C9, amended, at a concrete input: in the scenario of the specification a one-frame
request for 95 creates no run and reports 90. -/
theorem degenerate_transition_witness :
    ∃ s, nbtk_adjustment_interpolatex scenario (CLUTTER_INT_TO_FIXED 95) 1 30 = some s ∧
      s.interpolation = none ∧
      nbtk_adjustment_get_valuex s = CLUTTER_INT_TO_FIXED 90 :=
  have hd : CLAMP (CLUTTER_INT_TO_FIXED 95) scenario.lower
      (scenario.upper - scenario.page_size) = CLUTTER_INT_TO_FIXED 90 := by decide
  (degenerate_transition scenario (CLUTTER_INT_TO_FIXED 95) 1 30 (by decide) (by decide)
    (by decide) (by decide)).elim
    (fun s h => ⟨s, h.1, h.2.1, (h.2.2.2.1 (by decide)).trans hd⟩)

/-- C10: each of the five range setters, given a value whose fixed-point conversion equals
the stored field, returns false and returns the adjustment unchanged: no emission is
recorded, the stored value and any active run are as before. -/
theorem range_setters_noop_on_equal (a : NbtkAdjustment) (x : gdouble) :
    (CLUTTER_FLOAT_TO_FIXED x = a.lower → nbtk_adjustment_set_lower a x = (a, false)) ∧
    (CLUTTER_FLOAT_TO_FIXED x = a.upper → nbtk_adjustment_set_upper a x = (a, false)) ∧
    (CLUTTER_FLOAT_TO_FIXED x = a.step_increment →
      nbtk_adjustment_set_step_increment a x = (a, false)) ∧
    (CLUTTER_FLOAT_TO_FIXED x = a.page_increment →
      nbtk_adjustment_set_page_increment a x = (a, false)) ∧
    (CLUTTER_FLOAT_TO_FIXED x = a.page_size →
      nbtk_adjustment_set_page_size a x = (a, false)) := by
  refine ⟨?_, ?_, ?_, ?_, ?_⟩
  · intro h
    unfold nbtk_adjustment_set_lower
    simp only [h, ne_eq, not_true_eq_false, if_false]
  · intro h
    unfold nbtk_adjustment_set_upper
    simp only [h, ne_eq, not_true_eq_false, if_false]
  · intro h
    unfold nbtk_adjustment_set_step_increment
    simp only [h, ne_eq, not_true_eq_false, if_false]
  · intro h
    unfold nbtk_adjustment_set_page_increment
    simp only [h, ne_eq, not_true_eq_false, if_false]
  · intro h
    unfold nbtk_adjustment_set_page_size
    simp only [h, ne_eq, not_true_eq_false, if_false]

/-- C10, at a concrete input: on `raw_95_busy` (run in progress) each setter called with the
stored field (0, 100, 1, 10, 10) changes nothing and returns false. -/
theorem range_setters_noop_on_equal_witness :
    nbtk_adjustment_set_lower raw_95_busy 0 = (raw_95_busy, false) ∧
    nbtk_adjustment_set_upper raw_95_busy 100 = (raw_95_busy, false) ∧
    nbtk_adjustment_set_step_increment raw_95_busy 1 = (raw_95_busy, false) ∧
    nbtk_adjustment_set_page_increment raw_95_busy 10 = (raw_95_busy, false) ∧
    nbtk_adjustment_set_page_size raw_95_busy 10 = (raw_95_busy, false) :=
  ⟨(range_setters_noop_on_equal raw_95_busy 0).1 (by decide),
   (range_setters_noop_on_equal raw_95_busy 100).2.1 (by decide),
   (range_setters_noop_on_equal raw_95_busy 1).2.2.1 (by decide),
   (range_setters_noop_on_equal raw_95_busy 10).2.2.2.1 (by decide),
   (range_setters_noop_on_equal raw_95_busy 10).2.2.2.2 (by decide)⟩

/-- C11, refuted as stated: on the constructed adjustment holding 25000 in the range 0 to
30000 with page size 100, `set_page_size (10000)` returns true and stores the page size, but
leaves the value at 25000, above `upper - page_size = 20000`: the clamp takes
`value + page_size` in 32 bits, where 35000 is not representable, so the value is not pulled
into the new window. -/
theorem page_size_setter_leaves_value_outside :
    wide_range.is_constructing = false ∧
    (wide_range.lower, wide_range.upper, wide_range.page_size, wide_range.value)
      = (0, CLUTTER_INT_TO_FIXED 30000, CLUTTER_INT_TO_FIXED 100,
         CLUTTER_INT_TO_FIXED 25000) ∧
    (nbtk_adjustment_set_page_size wide_range 10000).2 = true ∧
    ((nbtk_adjustment_set_page_size wide_range 10000).1.lower,
     (nbtk_adjustment_set_page_size wide_range 10000).1.upper,
     (nbtk_adjustment_set_page_size wide_range 10000).1.page_size,
     (nbtk_adjustment_set_page_size wide_range 10000).1.value)
      = (0, CLUTTER_INT_TO_FIXED 30000, CLUTTER_INT_TO_FIXED 10000,
         CLUTTER_INT_TO_FIXED 25000) ∧
    ¬ (CLUTTER_INT_TO_FIXED 25000
        ≤ CLUTTER_INT_TO_FIXED 30000 - CLUTTER_INT_TO_FIXED 10000) := by
  refine ⟨?_, ?_, ?_, ?_, ?_⟩ <;> decide

/-- C11, amended: on a constructed adjustment, each of `set_lower`, `set_upper` and
`set_page_size` called with a value whose fixed-point form differs from the stored field
returns true, stores the field, cancels any run, and leaves the adjustment `revalidated`:
apart from the record of emissions it is the adjustment with the field stored after
`clamp_page (lower, upper)` on the updated bounds, and it has emitted the changed signal
once, the notification of the field and at most a value notification.  The value is the one
of the specified clamp, and so lies in the window of the new bounds, provided the sums and
differences the clamp takes on the updated fields fit the 32-bit range. -/
theorem bound_setters_revalidate (a : NbtkAdjustment) (x : gdouble)
    (hc : a.is_constructing = false) :
    (CLUTTER_FLOAT_TO_FIXED x ≠ a.lower →
      (nbtk_adjustment_set_lower a x).2 = true ∧
      (nbtk_adjustment_set_lower a x).1.lower = CLUTTER_FLOAT_TO_FIXED x ∧
      (nbtk_adjustment_set_lower a x).1.interpolation = none ∧
      revalidated { a with lower := CLUTTER_FLOAT_TO_FIXED x }
        (nbtk_adjustment_set_lower a x).1 Property.lower ∧
      (page_sums_fit (CLUTTER_FLOAT_TO_FIXED x) a.upper a.page_size a.value →
        (nbtk_adjustment_set_lower a x).1.value =
          clamp_page_spec (CLUTTER_FLOAT_TO_FIXED x) a.upper a.page_size a.value
            (CLUTTER_FLOAT_TO_FIXED x) a.upper)) ∧
    (CLUTTER_FLOAT_TO_FIXED x ≠ a.upper →
      (nbtk_adjustment_set_upper a x).2 = true ∧
      (nbtk_adjustment_set_upper a x).1.upper = CLUTTER_FLOAT_TO_FIXED x ∧
      (nbtk_adjustment_set_upper a x).1.interpolation = none ∧
      revalidated { a with upper := CLUTTER_FLOAT_TO_FIXED x }
        (nbtk_adjustment_set_upper a x).1 Property.upper ∧
      (page_sums_fit a.lower (CLUTTER_FLOAT_TO_FIXED x) a.page_size a.value →
        (nbtk_adjustment_set_upper a x).1.value =
          clamp_page_spec a.lower (CLUTTER_FLOAT_TO_FIXED x) a.page_size a.value
            a.lower (CLUTTER_FLOAT_TO_FIXED x))) ∧
    (CLUTTER_FLOAT_TO_FIXED x ≠ a.page_size →
      (nbtk_adjustment_set_page_size a x).2 = true ∧
      (nbtk_adjustment_set_page_size a x).1.page_size = CLUTTER_FLOAT_TO_FIXED x ∧
      (nbtk_adjustment_set_page_size a x).1.interpolation = none ∧
      revalidated { a with page_size := CLUTTER_FLOAT_TO_FIXED x }
        (nbtk_adjustment_set_page_size a x).1 Property.page_size ∧
      (page_sums_fit a.lower a.upper (CLUTTER_FLOAT_TO_FIXED x) a.value →
        (nbtk_adjustment_set_page_size a x).1.value =
          clamp_page_spec a.lower a.upper (CLUTTER_FLOAT_TO_FIXED x) a.value
            a.lower a.upper)) := by
  refine ⟨?_, ?_, ?_⟩
  · intro hne
    rw [set_lower_eq a x hc hne]
    refine ⟨rfl, by simp, by simp, ?_, ?_⟩
    · exact revalidated_of_clamp { a with lower := CLUTTER_FLOAT_TO_FIXED x } Property.lower
    · intro hfit
      simp only [clamp_pagex_value]
      exact clamp_pagex_result_eq_spec _ _ _ _ _ _ hfit
  · intro hne
    rw [set_upper_eq a x hc hne]
    refine ⟨rfl, by simp, by simp, ?_, ?_⟩
    · exact revalidated_of_clamp { a with upper := CLUTTER_FLOAT_TO_FIXED x } Property.upper
    · intro hfit
      simp only [clamp_pagex_value]
      exact clamp_pagex_result_eq_spec _ _ _ _ _ _ hfit
  · intro hne
    rw [set_page_size_eq a x hc hne]
    refine ⟨rfl, by simp, by simp, ?_, ?_⟩
    · exact revalidated_of_clamp { a with page_size := CLUTTER_FLOAT_TO_FIXED x }
        Property.page_size
    · intro hfit
      simp only [clamp_pagex_value]
      exact clamp_pagex_result_eq_spec _ _ _ _ _ _ hfit

/-- C11, amended, at a concrete input: in the scenario of the specification (value 50),
lowering `upper` to 40 returns true and pulls the value to 30; raising `lower` to 60 pulls it
to 60; a page size of 70 pulls it to 30. -/
theorem bound_setters_revalidate_witness :
    ((nbtk_adjustment_set_lower scenario 60).2 = true ∧
      (nbtk_adjustment_set_lower scenario 60).1.value = CLUTTER_INT_TO_FIXED 60) ∧
    ((nbtk_adjustment_set_upper scenario 40).2 = true ∧
      (nbtk_adjustment_set_upper scenario 40).1.value = CLUTTER_INT_TO_FIXED 30) ∧
    ((nbtk_adjustment_set_page_size scenario 70).2 = true ∧
      (nbtk_adjustment_set_page_size scenario 70).1.value = CLUTTER_INT_TO_FIXED 30) :=
  have hl := (bound_setters_revalidate scenario 60 (by decide)).1 (by decide)
  have hu := (bound_setters_revalidate scenario 40 (by decide)).2.1 (by decide)
  have hp := (bound_setters_revalidate scenario 70 (by decide)).2.2 (by decide)
  ⟨⟨hl.1, (hl.2.2.2.2 (by decide)).trans (by decide)⟩,
   ⟨hu.1, (hu.2.2.2.2 (by decide)).trans (by decide)⟩,
   ⟨hp.1, (hp.2.2.2.2 (by decide)).trans (by decide)⟩⟩

/-- C12, refuted as stated: in the scenario of the specification with a run towards 95 in
progress, `set_step_increment` and `set_page_increment` with a new value return true and the
run is still active; and on `raw_95`, whose value 95 lies above the window ending at 90, they
leave the value at 95 where `clamp_page (lower, upper)` would store 90. -/
theorem increment_setters_do_not_clamp :
    (nbtk_adjustment_interpolatex scenario (CLUTTER_INT_TO_FIXED 95) 10 30).map
        (fun s => ((nbtk_adjustment_set_step_increment s 5).2,
                   (nbtk_adjustment_set_step_increment s 5).1.interpolation.isSome,
                   (nbtk_adjustment_set_page_increment s 5).2,
                   (nbtk_adjustment_set_page_increment s 5).1.interpolation.isSome))
      = some (true, true, true, true) ∧
    raw_95.is_constructing = false ∧
    ((nbtk_adjustment_set_step_increment raw_95 5).1.value,
     (nbtk_adjustment_set_page_increment raw_95 5).1.value,
     (nbtk_adjustment_clamp_pagex raw_95 raw_95.lower raw_95.upper).value)
      = (CLUTTER_INT_TO_FIXED 95, CLUTTER_INT_TO_FIXED 95, CLUTTER_INT_TO_FIXED 90) := by
  refine ⟨?_, ?_, ?_⟩ <;> decide

/-- C12, amended: `set_step_increment` and `set_page_increment`, called with a value whose
fixed-point form differs from the stored field, return true, store the field and record the
changed signal and the notification of the field, and change nothing else: no `clamp_page` is
invoked, so the stored value and any active run are as before. -/
theorem increment_setters_only_store (a : NbtkAdjustment) (x : gdouble) :
    (CLUTTER_FLOAT_TO_FIXED x ≠ a.step_increment →
      nbtk_adjustment_set_step_increment a x =
        ({ a with step_increment := CLUTTER_FLOAT_TO_FIXED x,
                  emitted := a.emitted ++
                    [Emission.changed, Emission.notify Property.step_inc] }, true) ∧
      (nbtk_adjustment_set_step_increment a x).1.value = a.value ∧
      (nbtk_adjustment_set_step_increment a x).1.interpolation = a.interpolation) ∧
    (CLUTTER_FLOAT_TO_FIXED x ≠ a.page_increment →
      nbtk_adjustment_set_page_increment a x =
        ({ a with page_increment := CLUTTER_FLOAT_TO_FIXED x,
                  emitted := a.emitted ++
                    [Emission.changed, Emission.notify Property.page_inc] }, true) ∧
      (nbtk_adjustment_set_page_increment a x).1.value = a.value ∧
      (nbtk_adjustment_set_page_increment a x).1.interpolation = a.interpolation) := by
  refine ⟨?_, ?_⟩
  · intro hne
    rw [set_step_increment_eq a x hne]
    simp
  · intro hne
    rw [set_page_increment_eq a x hne]
    simp

/-- C12, amended, at a concrete input: on `raw_95_busy`, which has a run in progress, both
setters called with 5 keep the run and the value. -/
theorem increment_setters_only_store_witness :
    ((nbtk_adjustment_set_step_increment raw_95_busy 5).1.value = raw_95_busy.value ∧
      (nbtk_adjustment_set_step_increment raw_95_busy 5).1.interpolation
        = raw_95_busy.interpolation) ∧
    ((nbtk_adjustment_set_page_increment raw_95_busy 5).1.value = raw_95_busy.value ∧
      (nbtk_adjustment_set_page_increment raw_95_busy 5).1.interpolation
        = raw_95_busy.interpolation) :=
  ⟨((increment_setters_only_store raw_95_busy 5).1 (by decide)).2,
   ((increment_setters_only_store raw_95_busy 5).2 (by decide)).2⟩

/-- C13: calling `set_valuex` (or `set_value`) twice in a row with the same argument leaves
the adjustment exactly as the first call left it, so the second call emits nothing; and the
first call adds at most one value notification to the record of emissions. -/
theorem set_value_idempotent (a : NbtkAdjustment) (v : Int) (x : gdouble) :
    nbtk_adjustment_set_valuex (nbtk_adjustment_set_valuex a v) v
      = nbtk_adjustment_set_valuex a v ∧
    ((nbtk_adjustment_set_valuex a v).emitted = a.emitted ∨
      (nbtk_adjustment_set_valuex a v).emitted
        = a.emitted ++ [Emission.notify Property.value]) ∧
    nbtk_adjustment_set_value (nbtk_adjustment_set_value a x) x
      = nbtk_adjustment_set_value a x ∧
    ((nbtk_adjustment_set_value a x).emitted = a.emitted ∨
      (nbtk_adjustment_set_value a x).emitted
        = a.emitted ++ [Emission.notify Property.value]) := by
  have hem : ∀ w : Int, (nbtk_adjustment_set_valuex a w).emitted = a.emitted ∨
      (nbtk_adjustment_set_valuex a w).emitted
        = a.emitted ++ [Emission.notify Property.value] := by
    intro w
    rw [set_valuex_emitted]
    split_ifs
    · exact Or.inr rfl
    · exact Or.inl rfl
  exact ⟨set_valuex_idem a v, hem v, set_valuex_idem a _, hem _⟩

/-- C14, refuted as stated: in the scenario of the specification, starting a run towards 95
changes the effective value from 50 to 90 and records no emission; cancelling that run with
`set_valuex 50` changes it back from 90 to 50 and records no emission either; and the
adjustment returned by `nbtk_adjustment_newx` with value 200 has recorded no emission. -/
theorem effective_value_changes_unnotified :
    (nbtk_adjustment_interpolatex scenario (CLUTTER_INT_TO_FIXED 95) 10 30).map
        (fun s => (nbtk_adjustment_get_valuex scenario, nbtk_adjustment_get_valuex s,
                   decide (s.emitted = scenario.emitted)))
      = some (CLUTTER_INT_TO_FIXED 50, CLUTTER_INT_TO_FIXED 90, true) ∧
    (nbtk_adjustment_interpolatex scenario (CLUTTER_INT_TO_FIXED 95) 10 30).map
        (fun s => (nbtk_adjustment_get_valuex s,
                   nbtk_adjustment_get_valuex
                     (nbtk_adjustment_set_valuex s (CLUTTER_INT_TO_FIXED 50)),
                   decide ((nbtk_adjustment_set_valuex s (CLUTTER_INT_TO_FIXED 50)).emitted
                     = s.emitted)))
      = some (CLUTTER_INT_TO_FIXED 90, CLUTTER_INT_TO_FIXED 50, true) ∧
    ((nbtk_adjustment_newx (CLUTTER_INT_TO_FIXED 200) 0 (CLUTTER_INT_TO_FIXED 100)
        (CLUTTER_INT_TO_FIXED 1) (CLUTTER_INT_TO_FIXED 10) (CLUTTER_INT_TO_FIXED 10)).value,
     (nbtk_adjustment_newx (CLUTTER_INT_TO_FIXED 200) 0 (CLUTTER_INT_TO_FIXED 100)
        (CLUTTER_INT_TO_FIXED 1) (CLUTTER_INT_TO_FIXED 10) (CLUTTER_INT_TO_FIXED 10)).emitted)
      = (CLUTTER_INT_TO_FIXED 200, []) := by
  refine ⟨?_, ?_, ?_⟩ <;> decide

/-- C14, amended: every public operation or clock handler that returns with a stored value
different from the one before it has recorded a value notification; so has the property
constructor `nbtk_adjustment_new` whenever the value it leaves is not the initial 0.  (A
change of the effective value alone, by starting or cancelling a run, records none.) -/
theorem stored_value_change_is_notified (a s : NbtkAdjustment) (op : Op)
    (v l u st pg ps : gdouble) :
    (step a op = some s → s.value ≠ a.value →
      ∃ es, s.emitted = a.emitted ++ es ∧ Emission.notify Property.value ∈ es) ∧
    ((nbtk_adjustment_new v l u st pg ps).value ≠ 0 →
      Emission.notify Property.value ∈ (nbtk_adjustment_new v l u st pg ps).emitted) := by
  constructor
  · intro hs hv
    obtain ⟨es, h1, h2⟩ := notified_step a s op hs
    exact ⟨es, h1, h2 hv⟩
  · intro hv
    obtain ⟨es, h1, h2⟩ := notified_new v l u st pg ps
    have h3 : (nbtk_adjustment_new v l u st pg ps).emitted = es := by
      rw [h1]; rfl
    rw [h3]
    exact h2 hv

/-- C14, amended, at a concrete input: `set_valuex 70` on the scenario of the specification
(value 50) records a value notification, and so did the construction of the scenario. -/
theorem stored_value_change_is_notified_witness :
    (∃ es, (nbtk_adjustment_set_valuex scenario (CLUTTER_INT_TO_FIXED 70)).emitted
        = scenario.emitted ++ es ∧ Emission.notify Property.value ∈ es) ∧
    Emission.notify Property.value ∈ (nbtk_adjustment_new 50 0 100 1 10 10).emitted :=
  ⟨(stored_value_change_is_notified scenario
      (nbtk_adjustment_set_valuex scenario (CLUTTER_INT_TO_FIXED 70))
      (Op.set_valuex (CLUTTER_INT_TO_FIXED 70)) 50 0 100 1 10 10).1 rfl (by decide),
   (stored_value_change_is_notified scenario scenario Op.completed 50 0 100 1 10 10).2
      (by decide)⟩

/-- C15, the code at the failing input: a frame count of 65536 has the fixed-point form 0, the
fixed-point quotient by it is a fault, and `nbtk_adjustment_interpolatex` on the scenario of
the specification faults. -/
theorem interpolatex_faults_at_65536_frames :
    (1 : Nat) < 65536 ∧ CLUTTER_INT_TO_FIXED (65536 : Nat) = 0 ∧
    clutter_qdivx (CLUTTER_INT_TO_FIXED 95 - CLUTTER_INT_TO_FIXED 50)
      (CLUTTER_INT_TO_FIXED (65536 : Nat)) = none ∧
    nbtk_adjustment_interpolatex scenario (CLUTTER_INT_TO_FIXED 95) 65536 30 = none := by
  refine ⟨?_, ?_, ?_, ?_⟩ <;> decide

/-- C16, refuted as stated: the adjustment built by `nbtk_adjustment_new` with value 25000,
lower 0, upper 30000 and page size 10000 has `lower + page_size ≤ upper`, construction is
complete, and its value is still 25000, above `upper - page_size = 20000`: the clamp pass
takes `value + page_size` in 32 bits, where 35000 is not representable. -/
theorem construction_clamp_overflows :
    wide_page = nbtk_adjustment_new 25000 0 30000 1 10 10000 ∧
    wide_page.is_constructing = false ∧
    wide_page.lower + wide_page.page_size ≤ wide_page.upper ∧
    wide_page.value = CLUTTER_INT_TO_FIXED 25000 ∧
    wide_page.upper - wide_page.page_size = CLUTTER_INT_TO_FIXED 20000 ∧
    ¬ (wide_page.value ≤ wide_page.upper - wide_page.page_size) := by
  refine ⟨rfl, ?_, ?_, ?_, ?_, ?_⟩ <;> decide

/-- C16, amended: `nbtk_adjustment_constructed` clears the construction flag and is
`clamp_page (lower, upper)` on the assigned fields, which leaves the bounds as they are; so
when `lower + page_size ≤ upper` and the sums and differences the clamp takes on the assigned
fields fit the 32-bit range, the value ends within `[lower, upper - page_size]`.  The same
holds for the adjustment built by `nbtk_adjustment_new` from its converted arguments.  No
sequence of operations on an adjustment whose flag is false sets it again. -/
theorem construction_ends_with_clamp (a s0 s : NbtkAdjustment) (v l u st pg ps : gdouble)
    (ops : List Op) :
    (nbtk_adjustment_constructed a).is_constructing = false ∧
    nbtk_adjustment_constructed a =
      nbtk_adjustment_clamp_pagex { a with is_constructing := false } a.lower a.upper ∧
    (nbtk_adjustment_constructed a).lower = a.lower ∧
    (nbtk_adjustment_constructed a).upper = a.upper ∧
    (nbtk_adjustment_constructed a).page_size = a.page_size ∧
    (a.lower + a.page_size ≤ a.upper → page_sums_fit a.lower a.upper a.page_size a.value →
      a.lower ≤ (nbtk_adjustment_constructed a).value ∧
      (nbtk_adjustment_constructed a).value ≤ a.upper - a.page_size) ∧
    (nbtk_adjustment_new v l u st pg ps).is_constructing = false ∧
    (nbtk_adjustment_new v l u st pg ps).lower = CLUTTER_FLOAT_TO_FIXED l ∧
    (nbtk_adjustment_new v l u st pg ps).upper = CLUTTER_FLOAT_TO_FIXED u ∧
    (nbtk_adjustment_new v l u st pg ps).page_size = CLUTTER_FLOAT_TO_FIXED ps ∧
    (CLUTTER_FLOAT_TO_FIXED l + CLUTTER_FLOAT_TO_FIXED ps ≤ CLUTTER_FLOAT_TO_FIXED u →
      page_sums_fit (CLUTTER_FLOAT_TO_FIXED l) (CLUTTER_FLOAT_TO_FIXED u)
        (CLUTTER_FLOAT_TO_FIXED ps) (CLUTTER_FLOAT_TO_FIXED v) →
      CLUTTER_FLOAT_TO_FIXED l ≤ (nbtk_adjustment_new v l u st pg ps).value ∧
      (nbtk_adjustment_new v l u st pg ps).value
        ≤ CLUTTER_FLOAT_TO_FIXED u - CLUTTER_FLOAT_TO_FIXED ps) ∧
    (s0.is_constructing = false → exec s0 ops = some s → s.is_constructing = false) := by
  have hfields : ∀ b : NbtkAdjustment,
      (nbtk_adjustment_constructed b).is_constructing = false ∧
      (nbtk_adjustment_constructed b).lower = b.lower ∧
      (nbtk_adjustment_constructed b).upper = b.upper ∧
      (nbtk_adjustment_constructed b).page_size = b.page_size := by
    intro b
    unfold nbtk_adjustment_constructed
    simp
  obtain ⟨es, hnew⟩ := new_eq_constructed v l u st pg ps
  refine ⟨(hfields a).1, rfl, (hfields a).2.1, (hfields a).2.2.1, (hfields a).2.2.2,
    constructed_window a, ?_, ?_, ?_, ?_, ?_, ?_⟩
  · rw [hnew]; exact (hfields _).1
  · rw [hnew]; exact (hfields _).2.1
  · rw [hnew]; exact (hfields _).2.2.1
  · rw [hnew]; exact (hfields _).2.2.2
  · intro hwf hfit
    rw [hnew]
    exact constructed_window _ hwf hfit
  · intro h0 hs
    rw [exec_is_constructing ops s0 s hs, h0]

/-- C16, amended, at a concrete input: the fields value 200, lower 0, upper 100, page size 10 assigned
during construction end with the value 90; and the scenario after `set_valuex 70` is still
not constructing. -/
theorem construction_ends_with_clamp_witness :
    (0 ≤ (assigned_then_constructed (CLUTTER_INT_TO_FIXED 200) 0 (CLUTTER_INT_TO_FIXED 100)
        (CLUTTER_INT_TO_FIXED 1) (CLUTTER_INT_TO_FIXED 10) (CLUTTER_INT_TO_FIXED 10)).value ∧
      (assigned_then_constructed (CLUTTER_INT_TO_FIXED 200) 0 (CLUTTER_INT_TO_FIXED 100)
        (CLUTTER_INT_TO_FIXED 1) (CLUTTER_INT_TO_FIXED 10) (CLUTTER_INT_TO_FIXED 10)).value
        ≤ CLUTTER_INT_TO_FIXED 100 - CLUTTER_INT_TO_FIXED 10) ∧
    (nbtk_adjustment_set_valuex scenario (CLUTTER_INT_TO_FIXED 70)).is_constructing = false :=
  have key := construction_ends_with_clamp
    { nbtk_adjustment_init with
        value := CLUTTER_INT_TO_FIXED 200, lower := 0, upper := CLUTTER_INT_TO_FIXED 100,
        step_increment := CLUTTER_INT_TO_FIXED 1, page_increment := CLUTTER_INT_TO_FIXED 10,
        page_size := CLUTTER_INT_TO_FIXED 10 }
    scenario (nbtk_adjustment_set_valuex scenario (CLUTTER_INT_TO_FIXED 70))
    200 0 100 1 10 10 [Op.set_valuex (CLUTTER_INT_TO_FIXED 70)]
  ⟨key.2.2.2.2.2.1 (by decide) (by decide), key.2.2.2.2.2.2.2.2.2.2.2 (by decide) rfl⟩

/-- C17, the code at the failing input: `nbtk_adjustment_newx` with value 200, lower 0, upper
100 and page size 10 returns an adjustment that is no longer constructing and holds the
value 200, above `upper - page_size = 90`; the same fields assigned during construction and
then `nbtk_adjustment_constructed`, and likewise `nbtk_adjustment_new`, give 90. -/
theorem newx_skips_clamp_pass :
    ((nbtk_adjustment_newx (CLUTTER_INT_TO_FIXED 200) 0 (CLUTTER_INT_TO_FIXED 100)
        (CLUTTER_INT_TO_FIXED 1) (CLUTTER_INT_TO_FIXED 10)
        (CLUTTER_INT_TO_FIXED 10)).is_constructing,
     (nbtk_adjustment_newx (CLUTTER_INT_TO_FIXED 200) 0 (CLUTTER_INT_TO_FIXED 100)
        (CLUTTER_INT_TO_FIXED 1) (CLUTTER_INT_TO_FIXED 10) (CLUTTER_INT_TO_FIXED 10)).value)
      = (false, CLUTTER_INT_TO_FIXED 200) ∧
    (assigned_then_constructed (CLUTTER_INT_TO_FIXED 200) 0 (CLUTTER_INT_TO_FIXED 100)
        (CLUTTER_INT_TO_FIXED 1) (CLUTTER_INT_TO_FIXED 10) (CLUTTER_INT_TO_FIXED 10)).value
      = CLUTTER_INT_TO_FIXED 90 ∧
    (nbtk_adjustment_new 200 0 100 1 10 10).value = CLUTTER_INT_TO_FIXED 90 ∧
    (0 : Int) + CLUTTER_INT_TO_FIXED 10 ≤ CLUTTER_INT_TO_FIXED 100 ∧
    ¬ (CLUTTER_INT_TO_FIXED 200 ≤ CLUTTER_INT_TO_FIXED 100 - CLUTTER_INT_TO_FIXED 10) := by
  refine ⟨?_, ?_, ?_, ?_, ?_⟩ <;> decide

/-- C18, the code at the failing input: in the scenario of the specification with a run
towards 95 in progress, `nbtk_adjustment_get_value` returns 50 while the conversion of
`nbtk_adjustment_get_valuex`, and the value reported by `nbtk_adjustment_get_values`, is
90. -/
theorem get_value_ignores_run :
    (nbtk_adjustment_interpolatex scenario (CLUTTER_INT_TO_FIXED 95) 10 30).map
        (fun s => (s.interpolation.isSome, nbtk_adjustment_get_value s,
                   CLUTTER_FIXED_TO_FLOAT (nbtk_adjustment_get_valuex s),
                   (nbtk_adjustment_get_values s).1,
                   (nbtk_adjustment_get_valuesx s).1))
      = some (true, 50, 90, 90, CLUTTER_INT_TO_FIXED 90) := by
  decide

/-- C19, refuted as stated: in the scenario of the specification, after the ten frames 0 to 9
of the run towards 95 the stored value is 90, not `50 + 4.5 * 9 = 90.5`. -/
theorem last_frame_is_clamped :
    (nbtk_adjustment_interpolate scenario 95 10 30).map
        (fun s => (s.is_constructing, s.elastic, (deliver_frames s (first_frames 10)).value,
                   s.old_position + 9 * s.dx))
      = some (false, false, 5898240, 5931008) ∧
    CLUTTER_INT_TO_FIXED 90 = 5898240 ∧
    CLUTTER_INT_TO_FIXED 50 + 9 * 294912 = 5931008 := by
  refine ⟨?_, ?_, ?_⟩ <;> decide

/-- C19, amended: in the scenario of the specification, `interpolate (95, 10, 30)` sets the
per-frame delta to exactly 4.5 (294912 in 16.16), and the stored value after the frame with
index `k`, the frames being delivered in order from 0, is `50 + 4.5 * k` for `k` from 0 to 8
and 90 (the end of the window, where `set_valuex` clamps 90.5) for `k = 9`. -/
theorem linear_scenario_stepping :
    (nbtk_adjustment_interpolate scenario 95 10 30).map
        (fun s => (s.dx, (List.range 10).map
          (fun k => (deliver_frames s (first_frames (k + 1))).value)))
      = some (294912,
          (List.range 9).map (fun k => CLUTTER_INT_TO_FIXED 50 + 294912 * (k : Int))
            ++ [CLUTTER_INT_TO_FIXED 90]) ∧
    CLUTTER_FIXED_TO_FLOAT 294912 = Rat.divInt 9 2 := by
  constructor <;> decide

/-- C21, the code at the failing input: `nbtk_adjustment_set_valuesx` hands its fixed-point
arguments to the setters for `gdouble`, which convert them to fixed point once more, so
`nbtk_adjustment_get_valuesx` returns each range field multiplied by 65536 (reduced to 32
bits), for every adjustment and all arguments.  On the scenario of the specification the raw
arguments lower 1, upper 100, step 1, page 10, page size 10 come back as 65536, 6553600,
65536, 655360, 655360; and `nbtk_adjustment_set_values (50, 1, 100, 1, 10, 10)` leaves every
range field at 0. -/
theorem set_valuesx_converts_twice (a : NbtkAdjustment) (v l u st pg ps : Int) :
    (nbtk_adjustment_get_valuesx (nbtk_adjustment_set_valuesx a v l u st pg ps)).2
      = (wrap32 (l * 65536), wrap32 (u * 65536), wrap32 (st * 65536), wrap32 (pg * 65536),
         wrap32 (ps * 65536)) ∧
    (nbtk_adjustment_get_valuesx (nbtk_adjustment_set_valuesx scenario 0 1 100 1 10 10)).2
      = (65536, 6553600, 65536, 655360, 655360) ∧
    scenario.is_constructing = false ∧
    (nbtk_adjustment_get_valuesx (nbtk_adjustment_set_values scenario 50 1 100 1 10 10)).2
      = (0, 0, 0, 0, 0) := by
  refine ⟨?_, by decide, by decide, by decide⟩
  obtain ⟨r, -, hl, hu, hp, hs, hg, -, hfin⟩ := set_valuesx_eq a v l u st pg ps
  rw [float_to_fixed_intCast] at hl hu hp hs hg
  unfold nbtk_adjustment_get_valuesx
  rcases hfin with h | h | ⟨-, h | h⟩ <;> rw [h] <;>
    simp [g_signal_emit_changed, hl, hu, hp, hs, hg]

/-- C27, refuted as stated: on the freshly initialised adjustment, whose construction flag is
set, `set_lower (5)` records the changed signal and the notification of `lower`, and
`set_value (5)` records the value notification. -/
theorem setters_emit_during_construction :
    nbtk_adjustment_init.is_constructing = true ∧
    (nbtk_adjustment_set_lower nbtk_adjustment_init 5).1.emitted
      = [Emission.changed, Emission.notify Property.lower] ∧
    (nbtk_adjustment_set_value nbtk_adjustment_init 5).emitted
      = [Emission.notify Property.value] := by
  refine ⟨?_, ?_, ?_⟩ <;> decide

/-- C27, amended: while the construction flag is set, each range setter called with a value
whose fixed-point form differs from its field stores that form in the field, records the
changed signal and the notification of the field, returns true and changes nothing else (no
clamp); called with an equal value it does nothing.  `set_value` stores the raw fixed-point
form, leaves the range fields and flags alone and records a value notification exactly when
the stored value changed. -/
theorem setters_during_construction (a : NbtkAdjustment) (x : gdouble)
    (hc : a.is_constructing = true) :
    nbtk_adjustment_set_lower a x =
      (if a.lower ≠ CLUTTER_FLOAT_TO_FIXED x then
        ({ a with lower := CLUTTER_FLOAT_TO_FIXED x,
                  emitted := a.emitted ++ [Emission.changed, Emission.notify Property.lower] },
         true)
       else (a, false)) ∧
    nbtk_adjustment_set_upper a x =
      (if a.upper ≠ CLUTTER_FLOAT_TO_FIXED x then
        ({ a with upper := CLUTTER_FLOAT_TO_FIXED x,
                  emitted := a.emitted ++ [Emission.changed, Emission.notify Property.upper] },
         true)
       else (a, false)) ∧
    nbtk_adjustment_set_step_increment a x =
      (if a.step_increment ≠ CLUTTER_FLOAT_TO_FIXED x then
        ({ a with step_increment := CLUTTER_FLOAT_TO_FIXED x,
                  emitted := a.emitted ++
                    [Emission.changed, Emission.notify Property.step_inc] }, true)
       else (a, false)) ∧
    nbtk_adjustment_set_page_increment a x =
      (if a.page_increment ≠ CLUTTER_FLOAT_TO_FIXED x then
        ({ a with page_increment := CLUTTER_FLOAT_TO_FIXED x,
                  emitted := a.emitted ++
                    [Emission.changed, Emission.notify Property.page_inc] }, true)
       else (a, false)) ∧
    nbtk_adjustment_set_page_size a x =
      (if a.page_size ≠ CLUTTER_FLOAT_TO_FIXED x then
        ({ a with page_size := CLUTTER_FLOAT_TO_FIXED x,
                  emitted := a.emitted ++
                    [Emission.changed, Emission.notify Property.page_size] }, true)
       else (a, false)) ∧
    (nbtk_adjustment_set_value a x).value = CLUTTER_FLOAT_TO_FIXED x ∧
    (nbtk_adjustment_set_value a x).lower = a.lower ∧
    (nbtk_adjustment_set_value a x).upper = a.upper ∧
    (nbtk_adjustment_set_value a x).step_increment = a.step_increment ∧
    (nbtk_adjustment_set_value a x).page_increment = a.page_increment ∧
    (nbtk_adjustment_set_value a x).page_size = a.page_size ∧
    (nbtk_adjustment_set_value a x).elastic = a.elastic ∧
    (nbtk_adjustment_set_value a x).is_constructing = true ∧
    (nbtk_adjustment_set_value a x).emitted =
      (if a.value ≠ CLUTTER_FLOAT_TO_FIXED x
       then a.emitted ++ [Emission.notify Property.value] else a.emitted) := by
  have hv : (nbtk_adjustment_set_value a x).value = CLUTTER_FLOAT_TO_FIXED x := by
    unfold nbtk_adjustment_set_value
    rw [set_valuex_value]
    simp [hc]
  refine ⟨?_, ?_, ?_, ?_, ?_, hv, ?_, ?_, ?_, ?_, ?_, ?_, ?_, ?_⟩
  · unfold nbtk_adjustment_set_lower g_object_notify g_signal_emit_changed
    simp [hc]
  · unfold nbtk_adjustment_set_upper g_object_notify g_signal_emit_changed
    simp [hc]
  · unfold nbtk_adjustment_set_step_increment g_object_notify g_signal_emit_changed
    simp
  · unfold nbtk_adjustment_set_page_increment g_object_notify g_signal_emit_changed
    simp
  · unfold nbtk_adjustment_set_page_size g_object_notify g_signal_emit_changed
    simp [hc]
  · simp [nbtk_adjustment_set_value]
  · simp [nbtk_adjustment_set_value]
  · simp [nbtk_adjustment_set_value]
  · simp [nbtk_adjustment_set_value]
  · simp [nbtk_adjustment_set_value]
  · simp [nbtk_adjustment_set_value]
  · simp [nbtk_adjustment_set_value, hc]
  · have he := set_valuex_emitted a (CLUTTER_FLOAT_TO_FIXED x)
    unfold nbtk_adjustment_set_value at hv ⊢
    rw [he, hv]
    by_cases h : CLUTTER_FLOAT_TO_FIXED x = a.value
    · simp [h]
    · have h2 : ¬ a.value = CLUTTER_FLOAT_TO_FIXED x := fun e => h e.symm
      simp [h, h2]

/-- C27, amended, at a concrete input: on the freshly initialised adjustment `set_upper (100)`
stores 100 and leaves the value at 0, and `set_value (200)` stores 200 unclamped. -/
theorem setters_during_construction_witness :
    nbtk_adjustment_set_upper nbtk_adjustment_init 100 =
      ({ nbtk_adjustment_init with
           upper := CLUTTER_INT_TO_FIXED 100,
           emitted := [Emission.changed, Emission.notify Property.upper] }, true) ∧
    (nbtk_adjustment_set_value nbtk_adjustment_init 200).value = CLUTTER_INT_TO_FIXED 200 :=
  ⟨((setters_during_construction nbtk_adjustment_init 100 (by decide)).2.1).trans (by decide),
   ((setters_during_construction nbtk_adjustment_init 200
      (by decide)).2.2.2.2.2.1).trans (by decide)⟩

/-- C28, refuted as stated: the constructed adjustment with value 25000 in the range 0 to
30000 and page size 10000 has `lower + page_size ≤ upper`, and the request (0, 30000) is at
least a page wide, but after `nbtk_adjustment_clamp_pagex` the value is still 25000, so
`value + page_size` is above `eff_hi = 30000`: the code takes `value + page_size` in 32
bits, where 35000 is not representable. -/
theorem clamp_page_window_overflows :
    wide_page.lower + wide_page.page_size ≤ wide_page.upper ∧
    (0 : Int) + wide_page.page_size ≤ CLUTTER_INT_TO_FIXED 30000 ∧
    (nbtk_adjustment_clamp_pagex wide_page 0 (CLUTTER_INT_TO_FIXED 30000)).value
      = CLUTTER_INT_TO_FIXED 25000 ∧
    CLAMP (CLUTTER_INT_TO_FIXED 30000) (wide_page.lower + wide_page.page_size) wide_page.upper
      = CLUTTER_INT_TO_FIXED 30000 ∧
    ¬ (CLUTTER_INT_TO_FIXED 25000 + wide_page.page_size ≤ CLUTTER_INT_TO_FIXED 30000) ∧
    ¬ (CLUTTER_INT_TO_FIXED 25000 ≤ wide_page.upper - wide_page.page_size) := by
  refine ⟨?_, ?_, ?_, ?_, ?_, ?_⟩ <;> decide

/-- C28, amended: when `lower + page_size ≤ upper`, the requested window is at least a page
wide and `lower`, `upper - page_size`, `lower + page_size` and `value + page_size` fit the
32-bit range, the value stored by `nbtk_adjustment_clamp_pagex` lies in the effective window
(`eff_lo ≤ value` and `value + page_size ≤ eff_hi`), hence in `[lower, upper - page_size]`,
and it is the previous value whenever that one already lay in the effective window. -/
theorem clamp_page_window_guarantee (a : NbtkAdjustment) (requested_lower requested_upper : Int)
    (hwf : a.lower + a.page_size ≤ a.upper)
    (hreq : requested_lower + a.page_size ≤ requested_upper)
    (hfit : page_sums_fit a.lower a.upper a.page_size a.value) :
    CLAMP requested_lower a.lower (a.upper - a.page_size)
      ≤ (nbtk_adjustment_clamp_pagex a requested_lower requested_upper).value ∧
    (nbtk_adjustment_clamp_pagex a requested_lower requested_upper).value + a.page_size
      ≤ CLAMP requested_upper (a.lower + a.page_size) a.upper ∧
    a.lower ≤ (nbtk_adjustment_clamp_pagex a requested_lower requested_upper).value ∧
    (nbtk_adjustment_clamp_pagex a requested_lower requested_upper).value
      ≤ a.upper - a.page_size ∧
    (CLAMP requested_lower a.lower (a.upper - a.page_size) ≤ a.value →
      a.value + a.page_size ≤ CLAMP requested_upper (a.lower + a.page_size) a.upper →
      (nbtk_adjustment_clamp_pagex a requested_lower requested_upper).value = a.value) := by
  rw [clamp_pagex_value_of_fit _ _ _ hfit]
  unfold clamp_page_spec CLAMP
  simp only []
  refine ⟨?_, ?_, ?_, ?_, ?_⟩
  · split_ifs <;> omega
  · split_ifs <;> omega
  · split_ifs <;> omega
  · split_ifs <;> omega
  · intro h1 h2
    split_ifs at h1 h2 ⊢ <;> omega

/-- C28, amended, at a concrete input: `raw_95` (value 95, range 0 to 100, page size 10) clamped to the
requested window from 20 to 60 ends at 50. -/
theorem clamp_page_window_guarantee_witness :
    (nbtk_adjustment_clamp_pagex raw_95 (CLUTTER_INT_TO_FIXED 20)
      (CLUTTER_INT_TO_FIXED 60)).value + raw_95.page_size ≤ CLUTTER_INT_TO_FIXED 60 ∧
    (nbtk_adjustment_clamp_pagex raw_95 (CLUTTER_INT_TO_FIXED 20)
      (CLUTTER_INT_TO_FIXED 60)).value = CLUTTER_INT_TO_FIXED 50 :=
  have key := clamp_page_window_guarantee raw_95 (CLUTTER_INT_TO_FIXED 20)
    (CLUTTER_INT_TO_FIXED 60) (by decide) (by decide) (by decide)
  ⟨le_trans key.2.1 (by decide), by decide⟩

/-- C22, refuted as stated: on the adjustment holding -20000 in the range -20000 to 20000, a
run towards 20000 over 10 frames gets the per-frame delta -167352729 (about -2553.6), while
the quotient of `target - start_value = 40000` by 10 is 4000 (262144000): the code takes the
difference in 32 bits, where 40000 is not representable.  And with 65536 frames the call
faults instead of leaving a run. -/
theorem run_delta_overflows :
    (nbtk_adjustment_interpolatex symmetric_range (CLUTTER_INT_TO_FIXED 20000) 10 30).map
      (fun s => (s.old_position, s.new_position, s.dx))
      = some (CLUTTER_INT_TO_FIXED (-20000), CLUTTER_INT_TO_FIXED 20000, -167352729) ∧
    clutter_qdivx (CLUTTER_INT_TO_FIXED 20000 - CLUTTER_INT_TO_FIXED (-20000))
      (CLUTTER_INT_TO_FIXED (10 : Nat)) = some (CLUTTER_INT_TO_FIXED 4000) ∧
    CLUTTER_INT_TO_FIXED 4000 ≠ -167352729 ∧
    nbtk_adjustment_interpolatex scenario (CLUTTER_INT_TO_FIXED 95) 65536 30 = none := by
  refine ⟨?_, ?_, ?_, ?_⟩ <;> decide

/-- C22, amended: `nbtk_adjustment_interpolatex` with more than one frame and a fixed-point
frame count that is not zero returns and leaves one run, on the new timeline, whose start is
the stored value at the call, whose target is the given target and whose per-frame delta is
the fixed-point quotient by the frame count of their difference taken in 32 bits, which is
the exact difference whenever that fits the 32-bit range; the run has an easing curve if the
adjustment is elastic, and none if it is not, provided no easing curve was left over without
a run, which holds in every state reached from a constructor by a sequence of operations.
The stored value, the range fields, the flags and the record of emissions are unchanged. -/
theorem starting_a_run (a : NbtkAdjustment) (target : Int) (n fps : Nat) (hn : 1 < n)
    (hz : CLUTTER_INT_TO_FIXED n ≠ 0) :
    ∃ s, nbtk_adjustment_interpolatex a target n fps = some s ∧
    s.interpolation = some (ClutterTimeline.mk n fps) ∧
    s.old_position = a.value ∧ s.new_position = target ∧
    clutter_qdivx (wrap32 (target - a.value)) (CLUTTER_INT_TO_FIXED n) = some s.dx ∧
    (fits32 (target - a.value) →
      clutter_qdivx (target - a.value) (CLUTTER_INT_TO_FIXED n) = some s.dx) ∧
    (a.elastic = true →
      s.bounce_alpha = some (ClutterAlpha.mk (ClutterTimeline.mk n fps))) ∧
    (a.elastic = false → no_stale_alpha a → s.bounce_alpha = none) ∧
    (∀ (ops : List Op) (v l u st pg ps : gdouble),
      exec (nbtk_adjustment_new v l u st pg ps) ops = some a → no_stale_alpha a) ∧
    (∀ (ops : List Op) (v l u st pg ps : Int),
      exec (nbtk_adjustment_newx v l u st pg ps) ops = some a → no_stale_alpha a) ∧
    s.value = a.value ∧ s.lower = a.lower ∧ s.upper = a.upper ∧
    s.page_size = a.page_size ∧ s.step_increment = a.step_increment ∧
    s.page_increment = a.page_increment ∧ s.elastic = a.elastic ∧
    s.is_constructing = a.is_constructing ∧ s.emitted = a.emitted := by
  obtain ⟨s, h⟩ := interpolatex_returns a target n fps hn hz
  obtain ⟨hi, hnew, hold, hv, hl, hu, hp, hst, hpg, he, hc, hem⟩ :=
    interpolatex_run a s target n fps hn h
  obtain ⟨hdx, halpha⟩ := interpolatex_dx a s target n fps hn h
  refine ⟨s, h, hi, hold, hnew, hdx, ?_, ?_, ?_, ?_, ?_, hv, hl, hu, hp, hst, hpg, he, hc,
    hem⟩
  · intro hfit
    rw [← hdx, wrap32_of_fits _ hfit]
  · intro hel
    rw [halpha, hel]
    rfl
  · intro hel htidy
    rw [halpha, hel]
    simp only [Bool.false_eq_true, if_false]
    exact stop_interpolation_bounce_alpha a htidy
  · intro ops v l u st pg ps hx
    exact tidy_exec ops _ a (tidy_new v l u st pg ps) hx
  · intro ops v l u st pg ps hx
    exact tidy_exec ops _ a (tidy_newx v l u st pg ps) hx

/-- C22, amended, at a concrete input: in the scenario of the specification the run towards
95 over 10 frames starts at 50 with the delta 4.5 and no easing curve; in the elastic
scenario the run has one. -/
theorem starting_a_run_witness :
    (∃ s, nbtk_adjustment_interpolatex scenario (CLUTTER_INT_TO_FIXED 95) 10 30 = some s ∧
      s.old_position = CLUTTER_INT_TO_FIXED 50 ∧ s.new_position = CLUTTER_INT_TO_FIXED 95 ∧
      s.dx = 294912 ∧ s.bounce_alpha = none) ∧
    (∃ s, nbtk_adjustment_interpolatex elastic_scenario (CLUTTER_INT_TO_FIXED 95) 10 30
        = some s ∧
      s.bounce_alpha = some (ClutterAlpha.mk (ClutterTimeline.mk 10 30))) :=
  ⟨(starting_a_run scenario (CLUTTER_INT_TO_FIXED 95) 10 30 (by decide) (by decide)).elim
      (fun s key =>
        have hq : clutter_qdivx (CLUTTER_INT_TO_FIXED 95 - scenario.value)
            (CLUTTER_INT_TO_FIXED (10 : Nat)) = some 294912 := by decide
        ⟨s, key.1, key.2.2.1.trans (by decide), key.2.2.2.1,
          (Option.some.inj ((key.2.2.2.2.2.1 (by decide)).symm.trans hq)),
          key.2.2.2.2.2.2.2.1 (by decide) (fun _ => by decide)⟩),
   (starting_a_run elastic_scenario (CLUTTER_INT_TO_FIXED 95) 10 30 (by decide)
      (by decide)).elim
      (fun s key => ⟨s, key.1, key.2.2.2.2.2.2.1 (by decide)⟩)⟩

/-- C23, refuted as stated: on the adjustment holding -20000 in the range -20000 to 20000
(constructed, not elastic) with the run towards 20000 over 10 frames, whose delta is
-167352729, the handler for frame 6 stores 20000, while `nbtk_adjustment_set_valuex` stores
-20000 for `start_value + per_frame_delta * 6`: the code takes the sum in 32 bits, where it
wraps around to a number above the window. -/
theorem linear_tick_sum_overflows :
    (nbtk_adjustment_interpolatex symmetric_range (CLUTTER_INT_TO_FIXED 20000) 10 30).map
      (fun s => (s.is_constructing, s.elastic, s.interpolation.isSome, s.dx,
        (interpolation_new_frame_cb (ClutterTimeline.mk 10 30) 6 0 s).value,
        (nbtk_adjustment_set_valuex s (s.old_position + s.dx * 6)).value))
      = some (false, false, true, -167352729, CLUTTER_INT_TO_FIXED 20000,
          CLUTTER_INT_TO_FIXED (-20000)) ∧
    CLUTTER_INT_TO_FIXED 20000 ≠ CLUTTER_INT_TO_FIXED (-20000) := by
  constructor <;> decide

/-- C23, amended: on a constructed, non-elastic adjustment with an active run, the frame
handler for frame `k` stores what `nbtk_adjustment_set_valuex` stores for the start plus the
fixed-point product of `k` and the delta, the sum taken in 32 bits; this is what it stores
for `start_value + per_frame_delta * k` as long as `k` fits 16 bits and the product and the
sum fit 32 bits, and then, if `upper - page_size` fits too, that number clamped into
`[lower, max (lower, upper - page_size)]`.  A value notification is recorded exactly when
the stored value changed, and the run, its start, target and delta and the range fields are
as before. -/
theorem linear_frame_tick (a : NbtkAdjustment) (t : ClutterTimeline) (k : Int) (r : gdouble)
    (hc : a.is_constructing = false) (he : a.elastic = false)
    (hrun : a.interpolation = some t) :
    (interpolation_new_frame_cb t k r a).value =
      (nbtk_adjustment_set_valuex a
        (wrap32 (a.old_position + clutter_qmulx (CLUTTER_INT_TO_FIXED k) a.dx))).value ∧
    (-32768 ≤ k → k < 32768 → fits32 (k * a.dx) → fits32 (a.old_position + a.dx * k) →
      (interpolation_new_frame_cb t k r a).value =
        (nbtk_adjustment_set_valuex a (a.old_position + a.dx * k)).value ∧
      (fits32 (a.upper - a.page_size) →
        (interpolation_new_frame_cb t k r a).value =
          CLAMP (a.old_position + a.dx * k) a.lower
            (MAX a.lower (a.upper - a.page_size)))) ∧
    (interpolation_new_frame_cb t k r a).emitted =
      (if (interpolation_new_frame_cb t k r a).value ≠ a.value
       then a.emitted ++ [Emission.notify Property.value] else a.emitted) ∧
    (interpolation_new_frame_cb t k r a).interpolation = a.interpolation ∧
    (interpolation_new_frame_cb t k r a).old_position = a.old_position ∧
    (interpolation_new_frame_cb t k r a).new_position = a.new_position ∧
    (interpolation_new_frame_cb t k r a).dx = a.dx ∧
    (interpolation_new_frame_cb t k r a).lower = a.lower ∧
    (interpolation_new_frame_cb t k r a).upper = a.upper ∧
    (interpolation_new_frame_cb t k r a).page_size = a.page_size := by
  have hval2 : (interpolation_new_frame_cb t k r a).value =
      (nbtk_adjustment_set_valuex { a with interpolation := none }
        (wrap32 (a.old_position + clutter_qmulx (CLUTTER_INT_TO_FIXED k) a.dx))).value := by
    rw [new_frame_cb_linear t k r a he]
  have hem : (interpolation_new_frame_cb t k r a).emitted =
      (nbtk_adjustment_set_valuex { a with interpolation := none }
        (wrap32 (a.old_position + clutter_qmulx (CLUTTER_INT_TO_FIXED k) a.dx))).emitted := by
    rw [new_frame_cb_linear t k r a he]
  have hsame : ∀ x : Int, (nbtk_adjustment_set_valuex { a with interpolation := none } x).value
      = (nbtk_adjustment_set_valuex a x).value := by
    intro x
    rw [set_valuex_value, set_valuex_value]
  have hval : (interpolation_new_frame_cb t k r a).value =
      (nbtk_adjustment_set_valuex a
        (wrap32 (a.old_position + clutter_qmulx (CLUTTER_INT_TO_FIXED k) a.dx))).value := by
    rw [hval2, hsame]
  refine ⟨hval, ?_, ?_, by simp [hrun], by simp, by simp, by simp, by simp, by simp,
    by simp⟩
  · intro h1 h2 h3 h4
    have hq := qmulx_int_exact k a.dx h1 h2 h3.1 h3.2
    have hsum : wrap32 (a.old_position + clutter_qmulx (CLUTTER_INT_TO_FIXED k) a.dx)
        = a.old_position + a.dx * k := by
      rw [hq, mul_comm k a.dx]
      exact wrap32_of_fits _ h4
    refine ⟨by rw [hval, hsum], ?_⟩
    intro hfit
    rw [hval, hsum, set_valuex_value, wrap32_of_fits _ hfit]
    simp [hc, he]
  · rw [hem, set_valuex_emitted, ← hval2]

/-- C23, amended, at a concrete input: in the scenario of the specification with the run
towards 95, frame 3 stores `50 + 4.5 * 3 = 63.5` and keeps the run. -/
theorem linear_frame_tick_witness :
    ∃ s, nbtk_adjustment_interpolatex scenario (CLUTTER_INT_TO_FIXED 95) 10 30 = some s ∧
      (interpolation_new_frame_cb (ClutterTimeline.mk 10 30) 3 0 s).value = 4161536 ∧
      (interpolation_new_frame_cb (ClutterTimeline.mk 10 30) 3 0 s).interpolation
        = s.interpolation :=
  (interpolatex_returns scenario (CLUTTER_INT_TO_FIXED 95) 10 30 (by decide) (by decide)).elim
    (fun s h => by
      obtain ⟨hi, _, ho, _, hl, hu, hp, _, _, he, hc, _⟩ :=
        interpolatex_run scenario s (CLUTTER_INT_TO_FIXED 95) 10 30 (by decide) h
      have hq : clutter_qdivx (wrap32 (CLUTTER_INT_TO_FIXED 95 - scenario.value))
          (CLUTTER_INT_TO_FIXED (10 : Nat)) = some 294912 := by decide
      have hd : s.dx = 294912 := Option.some.inj
        ((interpolatex_dx scenario s (CLUTTER_INT_TO_FIXED 95) 10 30 (by decide) h).1.symm.trans
          hq)
      have key := linear_frame_tick s (ClutterTimeline.mk 10 30) 3 0
        (hc.trans (by decide)) (he.trans (by decide)) hi
      have kv := (key.2.1 (by decide) (by decide) (by rw [hd]; decide)
        (by rw [ho, hd]; decide)).2 (by rw [hu, hp]; decide)
      refine ⟨s, h, kv.trans ?_, key.2.2.2.1⟩
      rw [ho, hd, hl, hu, hp]
      decide)

/-- C24: when a run is started with more than one frame (the call returns whenever the
fixed-point frame count is not zero) and `nbtk_adjustment_set_valuex` or
`nbtk_adjustment_set_value` is called before any frame, no run is active afterwards; the
timeline of the cancelled run was stopped and released by `stop_interpolation`, so a frame
delivered afterwards, of that or of any timeline, reaches no handler and leaves the whole
state unchanged: the stored value stays the one the setter stored and no run becomes active
again. -/
theorem late_frame_is_ignored (a : NbtkAdjustment) (target x : Int) (y : gdouble)
    (n fps : Nat) (f : Frame) (hn : 1 < n) (hz : CLUTTER_INT_TO_FIXED n ≠ 0) :
    ∃ s, nbtk_adjustment_interpolatex a target n fps = some s ∧
      s.interpolation = some (ClutterTimeline.mk n fps) ∧
      (nbtk_adjustment_set_valuex s x).interpolation = none ∧
      (nbtk_adjustment_set_valuex s x).value = (nbtk_adjustment_set_valuex a x).value ∧
      clutter_timeline_new_frame (nbtk_adjustment_set_valuex s x) f
        = nbtk_adjustment_set_valuex s x ∧
      exec a [Op.interpolatex target n fps, Op.set_valuex x, Op.new_frame f]
        = some (nbtk_adjustment_set_valuex s x) ∧
      (nbtk_adjustment_set_value s y).interpolation = none ∧
      clutter_timeline_new_frame (nbtk_adjustment_set_value s y) f
        = nbtk_adjustment_set_value s y ∧
      exec a [Op.interpolatex target n fps, Op.set_value y, Op.new_frame f]
        = some (nbtk_adjustment_set_value s y) := by
  obtain ⟨s, h⟩ := interpolatex_returns a target n fps hn hz
  obtain ⟨hi, -, -, hv, hl, hu, hp, -, -, he, hc, -⟩ := interpolatex_run a s target n fps hn h
  have hdrop : ∀ v : Int, clutter_timeline_new_frame (nbtk_adjustment_set_valuex s v) f
      = nbtk_adjustment_set_valuex s v := by
    intro v
    unfold clutter_timeline_new_frame
    rw [if_neg (by simp)]
  have hexec : ∀ v : Int, (Option.some s).bind (fun a1 =>
      (Option.some (nbtk_adjustment_set_valuex a1 v)).bind (fun a2 =>
        (Option.some (clutter_timeline_new_frame a2 f)).bind (fun a3 => some a3)))
      = some (nbtk_adjustment_set_valuex s v) := by
    intro v
    simp only [Option.some_bind, hdrop]
  refine ⟨s, h, hi, by simp, ?_, hdrop x, ?_, by simp [nbtk_adjustment_set_value],
    hdrop _, ?_⟩
  · rw [set_valuex_value, set_valuex_value, hl, hu, hp, he, hc]
  · show (step a (Op.interpolatex target n fps)).bind _ = _
    rw [show step a (Op.interpolatex target n fps) = some s from h]
    exact hexec x
  · show (step a (Op.interpolatex target n fps)).bind _ = _
    rw [show step a (Op.interpolatex target n fps) = some s from h]
    exact hexec (CLUTTER_FLOAT_TO_FIXED y)

/-- C24, at a concrete input: in the scenario of the specification, after the run towards 95
is cancelled by storing 20, frame 3 of the cancelled timeline changes nothing. -/
theorem late_frame_is_ignored_witness :
    ∃ s, nbtk_adjustment_interpolatex scenario (CLUTTER_INT_TO_FIXED 95) 10 30 = some s ∧
      (nbtk_adjustment_set_valuex s (CLUTTER_INT_TO_FIXED 20)).interpolation = none ∧
      (nbtk_adjustment_set_valuex s (CLUTTER_INT_TO_FIXED 20)).value
        = CLUTTER_INT_TO_FIXED 20 ∧
      clutter_timeline_new_frame (nbtk_adjustment_set_valuex s (CLUTTER_INT_TO_FIXED 20))
        (Frame.mk (ClutterTimeline.mk 10 30) 3 0)
        = nbtk_adjustment_set_valuex s (CLUTTER_INT_TO_FIXED 20) :=
  (late_frame_is_ignored scenario (CLUTTER_INT_TO_FIXED 95) (CLUTTER_INT_TO_FIXED 20) 20 10 30
    (Frame.mk (ClutterTimeline.mk 10 30) 3 0) (by decide) (by decide)).elim
    (fun s key => ⟨s, key.1, key.2.2.1, key.2.2.2.1.trans (by decide), key.2.2.2.2.1⟩)

/-- C25, a fault of the code: the frame handler records the timeline as the active run
after the value setter returns, whatever a handler of the value notification did in between.
In the scenario of the specification with the run towards 95, a handler that calls
`nbtk_adjustment_set_valuex` with 20 during frame 3 leaves the stored value 20 and the run
still recorded as active when the frame handler returns; the same call outside a frame
handler leaves no run. -/
theorem reentrant_setter_leaves_run :
    (∀ (observer : NbtkAdjustment → NbtkAdjustment) (t : ClutterTimeline) (k : Int)
        (r : gdouble) (a : NbtkAdjustment),
      (interpolation_new_frame_cb_observed observer t k r a).interpolation = some t) ∧
    (nbtk_adjustment_interpolatex scenario (CLUTTER_INT_TO_FIXED 95) 10 30).map
      (fun s =>
        let r := interpolation_new_frame_cb_observed
          (fun b => nbtk_adjustment_set_valuex b (CLUTTER_INT_TO_FIXED 20))
          (ClutterTimeline.mk 10 30) 3 0 s
        (r.interpolation.isSome, r.value)) = some (true, 1310720) ∧
    (nbtk_adjustment_interpolatex scenario (CLUTTER_INT_TO_FIXED 95) 10 30).map
      (fun s => (nbtk_adjustment_set_valuex s (CLUTTER_INT_TO_FIXED 20)).interpolation.isSome)
      = some false := by
  refine ⟨?_, ?_, ?_⟩
  · intro observer t k r a
    exact new_frame_cb_observed_interpolation observer t k r a
  · decide
  · decide

/-- C26, a fault of the code: `nbtk_adjustment_set_elastic` only stores the flag.  Set during
a linear run in the scenario of the specification it leaves an active run, the flag true and
no easing curve, so the next elastic frame finds none to read; cleared during an elastic run
it leaves an active run, the flag false and the easing curve of the run. -/
theorem elastic_toggle_during_run :
    (exec scenario [Op.interpolatex (CLUTTER_INT_TO_FIXED 95) 10 30, Op.set_elastic true]).map
      (fun s => (s.interpolation.isSome, s.elastic, s.bounce_alpha.isSome))
      = some (true, true, false) ∧
    (exec elastic_scenario
      [Op.interpolatex (CLUTTER_INT_TO_FIXED 95) 10 30, Op.set_elastic false]).map
      (fun s => (s.interpolation.isSome, s.elastic, s.bounce_alpha.isSome))
      = some (true, false, true) := by
  constructor <;> decide

end Nbtk
